import Mathlib

/-!
# Telescope Control plug-in: connection registry and client supervisor

A shallow embedding of `plugins/TelescopeControl/src/TelescopeControl.cpp`.

* Qt containers are association lists: `QMap` keeps its entries ordered by key,
  `QList` is a plain list.
* `QVariant` values are a small tagged union; the conversions `toString`,
  `toInt`, `toBool`, ... follow the Qt 4 conversion table.
* The member variables of the `TelescopeControl` object form the record `State`.
* Everything that the C++ code reaches through a pointer to another object
  (the INDI service, the control panel, the telescope clients, the file
  system) is either an entry of the trace `State.events` (calls and emitted
  signals) or an answer taken from the record `World`.
* Constants that are declared in headers are fields of the record `Env`.
-/

set_option autoImplicit false

namespace TelescopeControl

/-! ## Qt containers -/

/-- The UTF-16 code units of a character, as a `QString` stores it: one unit
for a character of the Basic Multilingual Plane, a surrogate pair otherwise. -/
def utf16Units (c : Char) : List Nat :=
  if c.toNat < 65536 then [c.toNat]
  else [55296 + (c.toNat - 65536) / 1024, 56320 + (c.toNat - 65536) % 1024]

/-- Lexicographic comparison of two sequences of code units by their numeric
values. -/
def unitsLt : List Nat → List Nat → Bool
  | [], [] => false
  | [], _ :: _ => true
  | _ :: _, [] => false
  | a :: as, b :: bs =>
    if a < b then true
    else if a = b then unitsLt as bs
    else false

/-- Model of `QString::operator<`, the order in which `QMap<QString, T>` keeps
its keys: the two texts are compared by the numeric values of their UTF-16 code
units. -/
def charsLt (a b : List Char) : Bool :=
  unitsLt (a.flatMap utf16Units) (b.flatMap utf16Units)

/-- Key types of the ordered containers. -/
class QMapKey (K : Type) where
  /-- Strict order on keys. -/
  keyLt : K → K → Bool

instance : QMapKey String := ⟨fun a b => charsLt a.data b.data⟩

instance : QMapKey Int := ⟨fun a b => decide (a < b)⟩

/-- A `QMap<K, V>` (also used for `QHash`): the entries in iteration order. -/
abbrev QMap (K V : Type) := List (K × V)

namespace QMap

variable {K V : Type}

/-- Model of `QMap::contains`. -/
def contains [DecidableEq K] : QMap K V → K → Bool
  | [], _ => false
  | (k', _) :: rest, k => if k' = k then true else contains rest k

/-- Lookup of the value stored under a key, if any. -/
def find [DecidableEq K] : QMap K V → K → Option V
  | [], _ => none
  | (k', v) :: rest, k => if k' = k then some v else find rest k

/-- Model of `QMap::value(key, defaultValue)`. -/
def value [DecidableEq K] (m : QMap K V) (k : K) (dflt : V) : V :=
  match find m k with
  | some v => v
  | none => dflt

/-- Model of `QMap::insert`: replaces the value of an existing key, otherwise places the
new entry at its position in key order. -/
def insert [QMapKey K] [DecidableEq K] : QMap K V → K → V → QMap K V
  | [], k, v => [(k, v)]
  | (k', v') :: rest, k, v =>
    if QMapKey.keyLt k k' then (k, v) :: (k', v') :: rest
    else if k = k' then (k, v) :: rest
    else (k', v') :: insert rest k v

/-- Model of `QMap::remove`: drops every entry stored under the key. -/
def remove [DecidableEq K] : QMap K V → K → QMap K V
  | [], _ => []
  | (k', v) :: rest, k => if k' = k then remove rest k else (k', v) :: remove rest k

/-- Model of `QMap::keys`. -/
def keys (m : QMap K V) : List K := m.map Prod.fst

/-- Model of `QMap::key(value)`: the first key that maps to the value, or the
default-constructed key. -/
def key [DecidableEq V] : QMap K V → V → K → K
  | [], _, dflt => dflt
  | (k, v') :: rest, v, dflt => if v' = v then k else key rest v dflt

end QMap

/-! ## QVariant -/

/-- A finite `double`, `mantissa * 2 ^ exponent`. -/
structure QDouble where
  mantissa : Int
  exponent : Int
deriving DecidableEq

/-- Text and number conversions of Qt that the plug-in relies on
(`QString::toLongLong`, `QString::toDouble`, `QString::number`, `qRound64`). -/
structure QtConv where
  stringToLongLong : String → Int
  stringToULongLong : String → Nat
  stringToDouble : String → Option QDouble
  doubleToString : QDouble → String
  doubleRound : QDouble → Int

/-- Truncation of a 64-bit value to a C++ `int`. -/
def wrapInt32 (n : Int) : Int := (n + 2147483648) % 4294967296 - 2147483648

/-- Truncation of a value to a C++ `uint`. -/
def wrapUInt32 (n : Int) : Nat := (n % 4294967296).toNat

/-- A `QVariant` that holds no container: null, bool, integer, double or string. -/
inductive QScalar where
  | invalid
  | bool (b : Bool)
  | int (n : Int)
  | double (d : QDouble)
  | string (s : String)
deriving DecidableEq

namespace QScalar

/-- Model of `QVariant::toString`. -/
def toString (qt : QtConv) : QScalar → String
  | invalid => ""
  | bool b => if b then "true" else "false"
  | int n => ToString.toString n
  | double d => qt.doubleToString d
  | string s => s

/-- Model of `QVariant::toInt`. -/
def toInt (qt : QtConv) : QScalar → Int
  | invalid => 0
  | bool b => if b then 1 else 0
  | int n => wrapInt32 n
  | double d => wrapInt32 (qt.doubleRound d)
  | string s => wrapInt32 (qt.stringToLongLong s)

/-- Model of `QVariant::toUInt`. -/
def toUInt (qt : QtConv) : QScalar → Nat
  | invalid => 0
  | bool b => if b then 1 else 0
  | int n => wrapUInt32 n
  | double d => wrapUInt32 (qt.doubleRound d)
  | string s => wrapUInt32 (qt.stringToULongLong s)

/-- Model of `QVariant::toBool`: a string is true unless it is empty, "0" or "false"
(compared in lower case). -/
def toBool : QScalar → Bool
  | invalid => false
  | bool b => b
  | int n => n ≠ 0
  | double d => d.mantissa ≠ 0
  | string s =>
    let lower := String.mk (s.data.map Char.toLower)
    !(lower = "0" || lower = "false" || s = "")

/-- Model of `QVariant::toDouble(&ok)`: `none` stands for `ok == false`. -/
def toDouble (qt : QtConv) : QScalar → Option QDouble
  | invalid => none
  | bool b => some ⟨if b then 1 else 0, 0⟩
  | int n => some ⟨n, 0⟩
  | double d => some d
  | string s => qt.stringToDouble s

end QScalar

/-- A `QVariant` as it occurs as a value of a connection's property map:
a scalar or a `QVariantList`. A value that holds a nested map converts like
an invalid one in every conversion used here and is represented by it. -/
inductive QVariant where
  | scalar (x : QScalar)
  | list (l : List QScalar)
deriving DecidableEq

namespace QVariant

/-- Model of `QVariant::toString`. -/
def toString (qt : QtConv) : QVariant → String
  | scalar x => x.toString qt
  | list _ => ""

/-- Model of `QVariant::toInt`. -/
def toInt (qt : QtConv) : QVariant → Int
  | scalar x => x.toInt qt
  | list _ => 0

/-- Model of `QVariant::toUInt`. -/
def toUInt (qt : QtConv) : QVariant → Nat
  | scalar x => x.toUInt qt
  | list _ => 0

/-- Model of `QVariant::toBool`. -/
def toBool : QVariant → Bool
  | scalar x => x.toBool
  | list _ => false

/-- Model of `QVariant::toList`. -/
def toList : QVariant → List QScalar
  | scalar _ => []
  | list l => l

end QVariant

/-- The `QVariantMap` of one connection: property name to value. -/
abbrev Props := QMap String QVariant

/-- Model of `QVariantMap::value(key)` with the default-constructed (invalid) variant. -/
def Props.get (p : Props) (k : String) : QVariant :=
  QMap.value p k (QVariant.scalar QScalar.invalid)

/-- Model of `QVariantMap::value(key, defaultValue)`. -/
def Props.getD (p : Props) (k : String) (dflt : QScalar) : QVariant :=
  QMap.value p k (QVariant.scalar dflt)

/-- A value of the top-level map `connectionsProperties` and of the parsed
connections document: a plain variant or a property map. -/
inductive QNode where
  | value (v : QVariant)
  | map (m : Props)
deriving DecidableEq

namespace QNode

/-- Model of `QVariant::toMap`. -/
def toMap : QNode → Props
  | value _ => []
  | map m => m

/-- Model of `QVariant::toString`. -/
def toString (qt : QtConv) : QNode → String
  | value v => v.toString qt
  | map _ => ""

end QNode

/-! ## Constants, catalogs and the outside world -/

/-- An entry of `deviceModels` (`DeviceModel` of TelescopeControl.hpp). -/
structure DeviceModel where
  name : String
  description : String
  driver : String
  defaultDelay : Int
deriving DecidableEq

/-- Compile-time constants and the read-only catalogs of the plug-in.
The constants are declared in headers outside this file; the catalogs are
filled once by `loadDeviceModels` and `IndiServices::loadDriverDescriptions`
before any connection is handled. -/
structure Env where
  /-- The constant `TELESCOPE_CONTROL_VERSION`. -/
  TELESCOPE_CONTROL_VERSION : String
  /-- The constant `DEFAULT_DELAY`, in microseconds. -/
  DEFAULT_DELAY : Int
  /-- The constant `MAX_CIRCLE_COUNT`. -/
  MAX_CIRCLE_COUNT : Nat
  /-- The constant `SERIAL_PORT_PREFIX`. -/
  SERIAL_PORT_PREFIX : String
  /-- The constant `EMBEDDED_TELESCOPE_SERVERS`. -/
  EMBEDDED_TELESCOPE_SERVERS : List String
  /-- Whether `Q_OS_WIN32` is defined. -/
  Q_OS_WIN32 : Bool
  /-- The member `deviceModels`. -/
  deviceModels : QMap String DeviceModel
  /-- The tree of `indiService->getDriverDescriptions()`: one list per top-level
  row, holding for every child row the device name (column 0) and the driver
  (column 1, `Qt::UserRole`). -/
  driverDescriptions : List (List (String × String))
  /-- The directory returned by `StelFileMgr::getUserDir()`. -/
  userDir : String
  /-- Qt text and number conversions. -/
  qt : QtConv

/-- Modelled from the spec: the macro `MICROSECONDS_FROM_SECONDS` is defined in a
header that is not part of the sources; the spec bounds the poll delay by
`0 < d ≤ 10_000_000` microseconds for the ten seconds passed by `isValidDelay`. -/
def MICROSECONDS_FROM_SECONDS (x : Int) : Int := x * 1000000

/-- Reference frame of the coordinates exchanged with a device. -/
inductive Equinox where
  | EquinoxJ2000
  | EquinoxJNow
deriving DecidableEq

/-- Which client class `startClient` constructs, with the constructor
arguments it passes. -/
inductive ClientKind where
  | dummy
  | tcp (host : String) (port : Int) (delay : Int) (equinox : Equinox)
  | directLx200 (serialPort : String) (delay : Int) (equinox : Equinox)
  | directNexStar (serialPort : String) (delay : Int) (equinox : Equinox)
  | indi (device : String) (hasIndiClient : Bool)
  | indiPointer (device : String) (connection : String) (equinox : Equinox)
  | ascom (driverId : String) (equinox : Equinox)
deriving DecidableEq

/-- A telescope client object (`TelescopeClientP`), as far as this file
determines it: its name, its class and arguments, and the field-of-view circles
added to it. -/
structure TelescopeClient where
  name : String
  kind : ClientKind
  fovCircles : List QDouble
deriving DecidableEq

/-- Modelled from the spec: the client classes are declared in headers that are
not part of the sources. By the client contract of the spec,
`performCommunicationTick` "must not throw past this boundary — internal I/O
failures degrade `isConnected()` to false rather than propagating", and "any
transport error during `performCommunicationTick` sets connected=false and
leaves the client live". One call therefore always returns, with one of two
outcomes. -/
inductive CommunicationOutcome where
  | exchanged
  | transportFault
deriving DecidableEq

/-- Calls into collaborating objects and emitted signals, in program order. -/
inductive Event where
  /-- Signal `clientConnected(id)`. -/
  | clientConnected (id : String)
  /-- Signal `clientDisconnected(id)`. -/
  | clientDisconnected (id : String)
  /-- Call `controlPanelWindow->removeIndiClient(id)`. -/
  | removeIndiClient (id : String)
  /-- Call `indiService->openConnection(name, host, port)`. -/
  | openConnection (name host : String) (port : Nat)
  /-- Call `indiService->closeConnection(id)`. -/
  | closeConnection (id : String)
  /-- Call `indiService->startDriver(driver, name)`. -/
  | startDriver (driver name : String)
  /-- Call `indiService->stopDriver(driver, name)`. -/
  | stopDriver (driver name : String)
  /-- Call `prepareCommunication()` on the client stored under `id`, while
  `log_file` points to the stream of `log`. -/
  | prepareCommunication (id : String) (log : Option String)
  /-- Call `performCommunication()` on the client stored under `id`, while
  `log_file` points to the stream of `log`, and how the call ended. -/
  | performCommunication (id : String) (log : Option String)
      (outcome : CommunicationOutcome)
deriving DecidableEq

/-- A `QFile` used as a log. -/
structure LogFile where
  path : String
  isOpen : Bool
deriving DecidableEq

/-- Answers of the outside world during one call into the plug-in. -/
structure World where
  /-- Whether `isInitialized()` holds for a freshly constructed client. -/
  isInitialized : TelescopeClient → Bool
  /-- Whether "/usr/bin/" + driver exists and is executable. -/
  driverIsExecutable : String → Bool
  /-- Result of `indiService->startDriver(driver, name)`. -/
  startDriver : String → String → Bool
  /-- Whether `indiService->getCommonClient()` is non-null. -/
  hasCommonClient : Bool
  /-- Whether `indiService->getClient(id)` is non-null. -/
  getClient : String → Bool
  /-- Whether the log file with this path can be opened for writing. -/
  logFileOpens : String → Bool
  /-- Result of `prepareCommunication()` of the client stored under an id. -/
  prepareCommunication : String → Bool
  /-- How `performCommunication()` of the client stored under an id ends. -/
  performCommunication : String → CommunicationOutcome

/-! ## The state of the TelescopeControl object -/

/-- The member variables of `TelescopeControl` that the connection management
reads and writes, the selection of the object manager, and the trace. -/
structure State where
  /-- Configurations by connection name. -/
  connectionsProperties : QMap String QNode
  /-- Live clients that are polled by `communicate`. -/
  connections : QMap String TelescopeClient
  /-- Live clients that are shown as telescopes. -/
  telescopes : QMap String TelescopeClient
  /-- INDI devices that have not defined coordinates yet. -/
  indiDevices : QMap String TelescopeClient
  /-- The `QList` of claimed TCP ports. -/
  usedTcpPorts : List Nat
  /-- Connection name by shortcut number; the container is searched in the
  order of its keys. -/
  idFromShortcutNumber : QMap Int String
  telescopeServerLogFiles : QMap String LogFile
  /-- For each id, the file its `QTextStream` writes to. -/
  telescopeServerLogStreams : QMap String LogFile
  /-- The id under which the stream `log_file` points to was registered. -/
  log_file : Option String
  useTelescopeServerLogs : Bool
  /-- Name of the selected object of type "Telescope", if there is one. -/
  selectedTelescope : Option String
  /-- Calls and signals so far, oldest first. -/
  events : List Event
deriving DecidableEq

/-- The state after construction with logging switched off. -/
def State.initial : State :=
  { connectionsProperties := [], connections := [], telescopes := [],
    indiDevices := [], usedTcpPorts := [], idFromShortcutNumber := [],
    telescopeServerLogFiles := [], telescopeServerLogStreams := [],
    log_file := none, useTelescopeServerLogs := false,
    selectedTelescope := none, events := [] }

/-- The list `interfaceTypeNames` filled by the constructor. -/
def interfaceTypeNames : List String :=
  ["virtual", "Stellarium", "INDI", "INDI Pointer", "ASCOM"]

/-! ## Small predicates and the port pool -/

/-- Model of `TelescopeControl::isValidTcpPort(uint port)`. -/
def isValidTcpPort (port : Nat) : Bool := decide (port > 1023 ∧ port ≤ 65535)

/-- Model of `TelescopeControl::isValidDelay(int delay)`. -/
def isValidDelay (delay : Int) : Bool :=
  decide (delay > 0 ∧ delay ≤ MICROSECONDS_FROM_SECONDS 10)

/-- One `for` loop of `getFreeTcpPort`: starting at `slot`, tries `count`
consecutive ports and returns the first that is not in `used`. -/
def scanFreePort (used : List Nat) : Nat → Nat → Option Nat
  | _, 0 => none
  | slot, count + 1 =>
    if !used.contains slot then some slot else scanFreePort used (slot + 1) count

/-- Model of `TelescopeControl::getFreeTcpPort`. -/
def getFreeTcpPort (s : State) : Nat :=
  match scanFreePort s.usedTcpPorts 10001 9 with
  | some slot => slot
  | none =>
    match scanFreePort s.usedTcpPorts 49152 16384 with
    | some slot => slot
    | none => 10001

/-! ## Logs -/

/-- Model of `TelescopeControl::addLogForClient`. -/
def addLogForClient (env : Env) (w : World) (s : State) (id : String) : State :=
  if !QMap.contains s.telescopeServerLogFiles id then
    if !s.useTelescopeServerLogs then
      let emptyFile : LogFile := ⟨"", false⟩
      { s with
        telescopeServerLogFiles := QMap.insert s.telescopeServerLogFiles id emptyFile,
        telescopeServerLogStreams := QMap.insert s.telescopeServerLogStreams id emptyFile }
    else
      let filePath := env.userDir ++ "/deviceLog_" ++ id ++ ".txt"
      let logFile : LogFile := ⟨filePath, w.logFileOpens filePath⟩
      let s1 :=
        if !logFile.isOpen then
          { s with
            telescopeServerLogFiles := QMap.insert s.telescopeServerLogFiles id logFile,
            telescopeServerLogStreams :=
              QMap.insert s.telescopeServerLogStreams id (⟨"", false⟩ : LogFile) }
        else s
      { s1 with
        telescopeServerLogFiles := QMap.insert s1.telescopeServerLogFiles id logFile,
        telescopeServerLogStreams := QMap.insert s1.telescopeServerLogStreams id logFile }
  else s

/-- Model of `TelescopeControl::removeLogForClient`. -/
def removeLogForClient (s : State) (id : String) : State :=
  if QMap.contains s.telescopeServerLogFiles id then
    { s with
      telescopeServerLogStreams := QMap.remove s.telescopeServerLogStreams id,
      telescopeServerLogFiles := QMap.remove s.telescopeServerLogFiles id }
  else s

/-- Model of `TelescopeControl::setCurrentLog`. -/
def setCurrentLog (s : State) (id : String) : State :=
  if QMap.contains s.telescopeServerLogStreams id then { s with log_file := some id }
  else s

/-! ## The registry: addConnection, getConnection, removeConnection -/

/-- The backslash character. -/
def backslash : Char := Char.ofNat 92

/-- The double quote character. -/
def doubleQuote : Char := Char.ofNat 34

/-- A string as a property value. -/
def QVariant.ofString (x : String) : QVariant := QVariant.scalar (QScalar.string x)

/-- An integer as a property value. -/
def QVariant.ofInt (n : Int) : QVariant := QVariant.scalar (QScalar.int n)

/-- A boolean as a property value. -/
def QVariant.ofBool (b : Bool) : QVariant := QVariant.scalar (QScalar.bool b)

/-- The locals of `addConnection` that are alive after its last `return false`:
the name, the TCP port and the property map built so far. -/
structure CheckedConnection where
  name : String
  tcpPort : Int
  newProperties : Props
deriving DecidableEq

/-- The part of `addConnection` that depends on the interface type
(the `if (interfaceType == "Stellarium") ... else if ...` chain): `none` is a
`return false`, otherwise the extended `newProperties`. -/
def interfaceProperties (env : Env) (properties newProperties : Props)
    (interfaceType : String) (isRemote : Bool) (driver deviceModel : String) :
    Option Props :=
  if interfaceType = "Stellarium" then
    if !isRemote then
      if driver = "" || !env.EMBEDDED_TELESCOPE_SERVERS.contains driver then none
      else
        let serialPort := (properties.get "serialPort").toString env.qt
        if serialPort = "" || !env.SERIAL_PORT_PREFIX.data.isPrefixOf serialPort.data then
          none
        else
          let newProperties1 :=
            if deviceModel = "" || !QMap.contains env.deviceModels deviceModel then
              QMap.insert newProperties "driverId" (QVariant.ofString driver)
            else
              QMap.insert
                (QMap.insert newProperties "driverId"
                  (QVariant.ofString
                    (QMap.value env.deviceModels deviceModel ⟨"", "", "", 0⟩).driver))
                "deviceModel" (QVariant.ofString deviceModel)
          some (QMap.insert newProperties1 "serialPort" (QVariant.ofString serialPort))
    else some newProperties
  else if interfaceType = "INDI" then
    if !isRemote then
      if deviceModel = "" || driver = "" then none
      else
        let modelFound :=
          env.driverDescriptions.any fun rows =>
            rows.any fun row => decide (row.1 = deviceModel) && decide (row.2 = driver)
        if !modelFound then none
        else
          some (QMap.insert
            (QMap.insert newProperties "driverId" (QVariant.ofString driver))
            "deviceModel" (QVariant.ofString deviceModel))
    else some newProperties
  else if interfaceType = "INDI Pointer" then
    let indiDeviceId := (properties.get "indiDevice").toString env.qt
    if indiDeviceId = "" then none
    else
      let indiConnectionId := (properties.get "indiConnection").toString env.qt
      if indiConnectionId = "" then none
      else
        some (QMap.insert
          (QMap.insert newProperties "indiDevice" (QVariant.ofString indiDeviceId))
          "indiConnection" (QVariant.ofString indiConnectionId))
  else if env.Q_OS_WIN32 && interfaceType = "ASCOM" then
    if driver = "" then none
    else some (QMap.insert newProperties "driverId" (QVariant.ofString driver))
  else some newProperties

/-- The `if (isRemote)` block of `addConnection` and the insertion of
"isRemoteConnection": `none` is a `return false`, otherwise the TCP port and the
extended `newProperties`. -/
def remoteProperties (s : State) (newProperties : Props) (isRemote : Bool)
    (host : String) (tcpPort : Int) : Option (Int × Props) :=
  if isRemote then
    if host = "" then none
    else
      let tcpPort1 : Int :=
        if !isValidTcpPort (wrapUInt32 tcpPort) then (getFreeTcpPort s : Int) else tcpPort
      some (tcpPort1,
        QMap.insert
          (QMap.insert
            (QMap.insert newProperties "host" (QVariant.ofString host))
            "tcpPort" (QVariant.ofInt tcpPort1))
          "isRemoteConnection" (QVariant.ofBool isRemote))
  else some (tcpPort, QMap.insert newProperties "isRemoteConnection" (QVariant.ofBool isRemote))

/-- The `if (interfaceType != "virtual")` block of `addConnection`: equinox and
delay. `none` is a `return false`. -/
def equinoxProperties (env : Env) (properties newProperties : Props)
    (interfaceType : String) : Option Props :=
  if interfaceType ≠ "virtual" then
    let equinox := (properties.getD "equinox" (QScalar.string "J2000")).toString env.qt
    if equinox ≠ "J2000" && equinox ≠ "JNow" then none
    else
      let delay := (properties.get "delay").toInt env.qt
      let delay1 := if !isValidDelay delay then env.DEFAULT_DELAY else delay
      some (QMap.insert
        (QMap.insert newProperties "equinox" (QVariant.ofString equinox))
        "delay" (QVariant.ofInt delay1))
  else some newProperties

/-- The field-of-view block of `addConnection`: keeps the entries that convert
to a double and stores the list when it is not empty. -/
def fovProperties (env : Env) (properties newProperties : Props) : Props :=
  let fovCircles := (properties.get "fovCircles").toList
  if !fovCircles.isEmpty then
    let newFovCircles := fovCircles.filterMap fun x => x.toDouble env.qt
    if !newFovCircles.isEmpty then
      QMap.insert newProperties "fovCircles"
        (QVariant.list (newFovCircles.map QScalar.double))
    else newProperties
  else newProperties

/-- The part of `addConnection` from its first line to the field-of-view block:
every `return false` of the function lies in it (`none`), and it changes no
member variable. -/
def checkConnection (env : Env) (s : State) (properties : Props) :
    Option CheckedConnection :=
  let name := (properties.get "name").toString env.qt
  if name = "" then none
  else if name.data.contains backslash || name.data.contains doubleQuote then none
  else if QMap.contains s.connections name then none
  else
    let interfaceType := (properties.get "interface").toString env.qt
    if !interfaceTypeNames.contains interfaceType then none
    else
      let newProperties0 : Props :=
        QMap.insert (QMap.insert [] "name" (QVariant.ofString name))
          "interface" (QVariant.ofString interfaceType)
      let isRemote := (properties.getD "isRemoteConnection" (QScalar.bool false)).toBool
      let host := (properties.getD "host" (QScalar.string "localhost")).toString env.qt
      let tcpPort := (properties.get "tcpPort").toInt env.qt
      let driver := (properties.get "driverId").toString env.qt
      let deviceModel := (properties.get "deviceModel").toString env.qt
      match interfaceProperties env properties newProperties0 interfaceType isRemote
          driver deviceModel with
      | none => none
      | some newProperties1 =>
        match remoteProperties s newProperties1 isRemote host tcpPort with
        | none => none
        | some (tcpPort1, newProperties2) =>
          match equinoxProperties env properties newProperties2 interfaceType with
          | none => none
          | some newProperties3 =>
            let connectAtStartup :=
              (properties.getD "connectsAtStartup" (QScalar.bool false)).toBool
            let newProperties4 :=
              QMap.insert newProperties3 "connectsAtStartup" (QVariant.ofBool connectAtStartup)
            some ⟨name, tcpPort1, fovProperties env properties newProperties4⟩

/-- The last lines of `addConnection`: shortcut number, claimed port and the
insertion into `connectionsProperties`. -/
def insertConnection (env : Env) (s : State) (properties : Props)
    (c : CheckedConnection) : State :=
  let shortcutNumber := (properties.get "shortcutNumber").toInt env.qt
  let inRange := decide (shortcutNumber > 0 ∧ shortcutNumber < 10)
  let newProperties :=
    if inRange then QMap.insert c.newProperties "shortcutNumber" (QVariant.ofInt shortcutNumber)
    else c.newProperties
  let idFromShortcutNumber :=
    if inRange && !QMap.contains s.idFromShortcutNumber shortcutNumber then
      QMap.insert s.idFromShortcutNumber shortcutNumber c.name
    else s.idFromShortcutNumber
  let usedTcpPorts :=
    if isValidTcpPort (wrapUInt32 c.tcpPort) then s.usedTcpPorts ++ [wrapUInt32 c.tcpPort]
    else s.usedTcpPorts
  { s with
    idFromShortcutNumber := idFromShortcutNumber,
    usedTcpPorts := usedTcpPorts,
    connectionsProperties :=
      QMap.insert s.connectionsProperties c.name (QNode.map newProperties) }

/-- Model of `TelescopeControl::addConnection`: the returned flag and the state after
the call. -/
def addConnection (env : Env) (s : State) (properties : Props) : Bool × State :=
  match checkConnection env s properties with
  | none => (false, s)
  | some c => (true, insertConnection env s properties c)

/-- Model of `TelescopeControl::getConnection`. -/
def getConnection (s : State) (id : String) : Props :=
  if id = "" then []
  else (QMap.value s.connectionsProperties id (QNode.value (QVariant.scalar QScalar.invalid))).toMap

/-- Model of `TelescopeControl::removeConnection`. -/
def removeConnection (env : Env) (s : State) (id : String) : Bool × State :=
  if id = "" then (false, s)
  else
    let tcpPort := ((getConnection s id).get "tcpPort").toUInt env.qt
    let usedTcpPorts := if tcpPort > 0 then s.usedTcpPorts.erase tcpPort else s.usedTcpPorts
    let idFromShortcutNumber :=
      QMap.remove s.idFromShortcutNumber (QMap.key s.idFromShortcutNumber id 0)
    (QMap.contains s.connectionsProperties id,
      { s with
        usedTcpPorts := usedTcpPorts,
        idFromShortcutNumber := idFromShortcutNumber,
        connectionsProperties := QMap.remove s.connectionsProperties id })

/-- Model of `TelescopeControl::unselectTelescopes`. -/
def unselectTelescopes (s : State) : State :=
  if s.selectedTelescope.isSome then { s with selectedTelescope := none } else s

/-- Model of `TelescopeControl::removeAllConnections`. -/
def removeAllConnections (s : State) : State :=
  { unselectTelescopes s with
    telescopes := [], connections := [], connectionsProperties := [] }

/-- Model of `TelescopeControl::doesClientExist`. -/
def doesClientExist (s : State) (id : String) : Bool := QMap.contains s.connections id

/-! ## The supervisor: startClient, stopClient, communicate -/

/-- How the interface-specific part of `startClient` ends: with a `return`
inside the branch, or with the pointer `newTelescope` (null is `none`). -/
inductive Construction where
  | returned (result : Bool) (s : State)
  | constructed (newTelescope : Option TelescopeClient) (s : State)

/-- The interface-specific part of `startClient`
(the `if (interfaceType == "virtual") ... else ...` chain). -/
def constructClient (env : Env) (w : World) (s : State) (properties : Props)
    (name interfaceType : String) (isRemote : Bool) (delay : Int) (equinox : Equinox) :
    Construction :=
  if interfaceType = "virtual" then
    Construction.constructed (some ⟨name, ClientKind.dummy, []⟩) s
  else if interfaceType = "Stellarium" then
    if isRemote then
      let host := (properties.getD "host" (QScalar.string "localhost")).toString env.qt
      let port := (properties.get "tcpPort").toInt env.qt
      Construction.constructed (some ⟨name, ClientKind.tcp host port delay equinox, []⟩) s
    else
      let driver := (properties.get "driverId").toString env.qt
      if driver = "" || !env.EMBEDDED_TELESCOPE_SERVERS.contains driver then
        Construction.returned false s
      else
        let serialPort := (properties.get "serialPort").toString env.qt
        if driver = "Lx200" then
          Construction.constructed
            (some ⟨name, ClientKind.directLx200 serialPort delay equinox, []⟩) s
        else if driver = "NexStar" then
          Construction.constructed
            (some ⟨name, ClientKind.directNexStar serialPort delay equinox, []⟩) s
        else Construction.constructed none s
  else if interfaceType = "INDI" then
    if isRemote then
      let host := (properties.getD "host" (QScalar.string "localhost")).toString env.qt
      let port := (properties.get "tcpPort").toUInt env.qt % 65536
      Construction.returned true
        { s with events := s.events ++ [Event.openConnection name host port] }
    else
      let driver := (properties.get "driverId").toString env.qt
      if driver = "" || !w.driverIsExecutable driver then Construction.returned false s
      else
        let s1 := { s with events := s.events ++ [Event.startDriver driver name] }
        if !w.startDriver driver name then Construction.returned false s1
        else
          Construction.constructed
            (some ⟨name, ClientKind.indi name w.hasCommonClient, []⟩) s1
  else if interfaceType = "INDI Pointer" then
    let indiDevice := (properties.get "indiDevice").toString env.qt
    let indiConnection := (properties.get "indiConnection").toString env.qt
    if w.getClient indiConnection then
      Construction.constructed
        (some ⟨name, ClientKind.indiPointer indiDevice indiConnection equinox, []⟩) s
    else Construction.returned false s
  else if env.Q_OS_WIN32 && interfaceType = "ASCOM" then
    let ascomDriverObjectId := (properties.get "driverId").toString env.qt
    if ascomDriverObjectId = "" then Construction.returned false s
    else
      Construction.constructed
        (some ⟨name, ClientKind.ascom ascomDriverObjectId equinox, []⟩) s
  else Construction.constructed none s

/-- The end of `startClient`: a client that is not initialized is deleted; an
initialized one receives its field-of-view circles and is registered. -/
def registerClient (env : Env) (w : World) (s : State) (id : String)
    (properties : Props) (interfaceType : String)
    (newTelescope : Option TelescopeClient) : Bool × State :=
  let newTelescope1 :=
    match newTelescope with
    | some c => if !w.isInitialized c then none else some c
    | none => none
  match newTelescope1 with
  | some c =>
    let circleList := (properties.get "fovCircles").toList
    let c1 : TelescopeClient :=
      if !circleList.isEmpty && circleList.length ≤ env.MAX_CIRCLE_COUNT then
        { c with
          fovCircles :=
            c.fovCircles ++ circleList.map fun x => (x.toDouble env.qt).getD ⟨0, 0⟩ }
      else c
    let s1 :=
      if interfaceType ≠ "INDI Pointer" then
        { s with connections := QMap.insert s.connections id c1 }
      else s
    let s2 :=
      if interfaceType ≠ "INDI" then
        { s1 with
          telescopes := QMap.insert s1.telescopes id c1,
          events := s1.events ++ [Event.clientConnected id] }
      else { s1 with indiDevices := QMap.insert s1.indiDevices id c1 }
    (true, s2)
  | none => (false, s)

/-- Model of `TelescopeControl::startClient`. -/
def startClient (env : Env) (w : World) (s : State) (id : String)
    (properties : Props) : Bool × State :=
  if id = "" || properties.isEmpty then (false, s)
  else if QMap.contains s.connections id then (false, s)
  else
    let name := (properties.get "name").toString env.qt
    if name = "" then (false, s)
    else
      let interfaceType := (properties.get "interface").toString env.qt
      if interfaceType = "" then (false, s)
      else
        let isRemote := (properties.getD "isRemoteConnection" (QScalar.bool false)).toBool
        let delay := (properties.getD "delay" (QScalar.int env.DEFAULT_DELAY)).toInt env.qt
        let equinoxString :=
          (properties.getD "equinox" (QScalar.string "J2000")).toString env.qt
        let equinox :=
          if equinoxString = "JNow" then Equinox.EquinoxJNow else Equinox.EquinoxJ2000
        match constructClient env w s properties name interfaceType isRemote delay equinox with
        | Construction.returned result s1 => (result, s1)
        | Construction.constructed newTelescope s1 =>
          registerClient env w s1 id properties interfaceType newTelescope

/-- Model of `TelescopeControl::startConnection`. -/
def startConnection (env : Env) (w : World) (s : State) (id : String) : Bool × State :=
  if id = "" then (false, s)
  else
    let properties := getConnection s id
    if properties.isEmpty then (false, s)
    else
      let isRemote := (properties.get "isRemoteConnection").toBool
      let s1 := if !isRemote then setCurrentLog (addLogForClient env w s id) id else s
      match startClient env w s1 id properties with
      | (true, s2) => (true, s2)
      | (false, s2) => if !isRemote then (false, removeLogForClient s2 id) else (false, s2)

/-- The branch `if (properties.value("interface").toString() == "INDI")` of
`stopClient`: a remote connection is closed; for a local one the driver is
stopped when the client is in `connections`. -/
def stopIndi (env : Env) (s : State) (id : String) (properties : Props) : State :=
  if (properties.get "isRemoteConnection").toBool then
    { s with events := s.events ++ [Event.removeIndiClient id, Event.closeConnection id] }
  else if QMap.contains s.connections id then
    let name := (properties.get "name").toString env.qt
    let driver := (properties.get "driverId").toString env.qt
    { s with events := s.events ++ [Event.stopDriver driver name] }
  else s

/-- The last lines of `stopClient`: the selection is cleared, the client leaves
`connections` and `telescopes`, its log is removed and `clientDisconnected` is
emitted. -/
def teardownClient (s : State) (id : String) : State :=
  let s2 := unselectTelescopes s
  let s3 :=
    { s2 with
      connections := QMap.remove s2.connections id,
      telescopes := QMap.remove s2.telescopes id }
  let s4 := removeLogForClient s3 id
  { s4 with events := s4.events ++ [Event.clientDisconnected id] }

/-- Model of `TelescopeControl::stopClient`. -/
def stopClient (env : Env) (s : State) (id : String) : Bool × State :=
  if id = "" then (true, s)
  else
    let properties :=
      (QMap.value s.connectionsProperties id (QNode.value (QVariant.scalar QScalar.invalid))).toMap
    if properties.isEmpty then (true, s)
    else
      let isIndi := decide ((properties.get "interface").toString env.qt = "INDI")
      if !isIndi && !QMap.contains s.connections id then (true, s)
      else
        let s1 := if isIndi then stopIndi env s id properties else s
        (true, teardownClient s1 id)

/-- Model of `TelescopeControl::stopConnection`. -/
def stopConnection (env : Env) (s : State) (id : String) : Bool × State :=
  if id = "" then (true, s) else stopClient env s id

/-- The body of the loop of `communicate` for the client stored under `key`. -/
def communicateWith (w : World) (s : State) (key : String) : State :=
  let s1 := setCurrentLog s key
  let s2 := { s1 with events := s1.events ++ [Event.prepareCommunication key s1.log_file] }
  if w.prepareCommunication key then
    { s2 with
      events :=
        s2.events ++ [Event.performCommunication key s2.log_file (w.performCommunication key)] }
  else s2

/-- Model of `TelescopeControl::communicate`: one pass over `connections` in the order
of its iterator. -/
def communicate (w : World) (s : State) : State :=
  if !s.connections.isEmpty then
    s.connections.foldl (fun st entry => communicateWith w st entry.1) s
  else s

/-! ## INDI devices: handleDeviceDefinition, treatAsTelescope -/

/-- Model of `QMap::take`: the value stored under the key (a default-constructed
value, here `none` for the null pointer, when there is none) and the map
without the key. The plug-in fills its maps with `insert` only, so a key has
one item. -/
def QMap.take {K V : Type} [DecidableEq K] (m : QMap K V) (k : K) : Option V × QMap K V :=
  (QMap.find m k, QMap.remove m k)

/-- Model of `TelescopeControl::handleDeviceDefinition`: the device client is
staged in `indiDevices` under the id of its INDI client. -/
def handleDeviceDefinition (w : World) (s : State) (clientId deviceId : String) : State :=
  if w.getClient clientId then
    let name := clientId
    { s with
      indiDevices := QMap.insert s.indiDevices name ⟨name, ClientKind.indi deviceId true, []⟩ }
  else s

/-- Model of `TelescopeControl::treatAsTelescope`. -/
def treatAsTelescope (s : State) (id : String) : State :=
  if id = "" then s
  else
    let taken := QMap.take s.indiDevices id
    let s1 := { s with indiDevices := taken.2 }
    match taken.1 with
    | some client =>
      if !QMap.contains s1.telescopes id then
        { s1 with telescopes := QMap.insert s1.telescopes id client }
      else s1
    | none => s1

/-! ## Persistence: saveConnections, loadConnections -/

/-- What `loadConnections` finds on disk. -/
structure ConnectionsFile where
  /-- The file exists (`QFileInfo(connectionsFilePath).exists()`). -/
  fileExists : Bool
  /-- The file can be opened for reading. -/
  opens : Bool
  /-- The parsed document, `StelJsonParser::parse(...).toMap()`; `none` when the
  parser throws a `std::runtime_error`. -/
  content : Option (QMap String QNode)
  /-- The rename to the backup name succeeds. -/
  renameSucceeds : Bool

/-- Model of `TelescopeControl::saveConnections`: the state after the call and the map
handed to `StelJsonParser::write`, if the file could be opened. -/
def saveConnections (env : Env) (fileOpens : Bool) (s : State) :
    State × Option (QMap String QNode) :=
  if !fileOpens then (s, none)
  else
    let s1 :=
      { s with
        connectionsProperties :=
          QMap.insert s.connectionsProperties "version"
            (QNode.value (QVariant.ofString env.TELESCOPE_CONTROL_VERSION)) }
    (s1, some s1.connectionsProperties)

/-- The body of the loop of `loadConnections` for one node of the document. -/
def loadNode (env : Env) (w : World) (s : State) (node : String × QNode) : State :=
  let key := node.1
  match addConnection env s node.2.toMap with
  | (false, _) => s
  | (true, s1) =>
    let connectionProperties :=
      (QMap.value s1.connectionsProperties key
        (QNode.value (QVariant.scalar QScalar.invalid))).toMap
    let connectAtStartup :=
      (connectionProperties.getD "connectsAtStartup" (QScalar.bool false)).toBool
    let isRemote :=
      (connectionProperties.getD "isRemoteConnection" (QScalar.bool false)).toBool
    if connectAtStartup then
      let s2 := if !isRemote then setCurrentLog (addLogForClient env w s1 key) key else s1
      (startClient env w s2 key connectionProperties).2
    else s1

/-- Model of `TelescopeControl::loadConnections`. -/
def loadConnections (env : Env) (w : World) (file : ConnectionsFile) (s : State) : State :=
  if !file.fileExists then s
  else if !file.opens then s
  else
    match file.content with
    | none => s
    | some map =>
      if map.isEmpty then s
      else
        let version :=
          (QMap.value map "version" (QNode.value (QVariant.ofString "0.0.0"))).toString env.qt
        if version ≠ env.TELESCOPE_CONTROL_VERSION then
          if file.renameSucceeds then s else s
        else
          let map1 := QMap.remove map "version"
          map1.foldl (loadNode env w) (removeAllConnections s)

/-- Modelled from the spec: `StelJsonParser` is not part of the sources. The spec
describes the file as "a structured document with a top-level `version` string
and one entry per connection keyed by id, each entry holding the full
ConnectionConfig field set", so parsing the document that `saveConnections`
wrote yields the map that was written. This is `saveConnections` followed by
`loadConnections` on that document. -/
def saveThenLoad (env : Env) (w : World) (s : State) : State :=
  match saveConnections env true s with
  | (s1, some document) => loadConnections env w ⟨true, true, some document, true⟩ s1
  | (s1, none) => s1

/-! ## Sample inputs -/

/-- A sample environment: a build for Linux with compiled version "1.4", no
device models and no INDI driver descriptions. Its text conversions read
decimal integers only and print a double as mantissa and exponent. -/
def sampleEnv : Env :=
  { TELESCOPE_CONTROL_VERSION := "1.4",
    DEFAULT_DELAY := 500000,
    MAX_CIRCLE_COUNT := 10,
    SERIAL_PORT_PREFIX := "/dev/",
    EMBEDDED_TELESCOPE_SERVERS := ["Lx200", "NexStar"],
    Q_OS_WIN32 := false,
    deviceModels := [],
    driverDescriptions := [],
    userDir := "/home/user/.stellarium",
    qt :=
      { stringToLongLong := fun x => x.toInt?.getD 0,
        stringToULongLong := fun x => x.toNat?.getD 0,
        stringToDouble := fun x => x.toInt?.map fun n => ⟨n, 0⟩,
        doubleToString := fun d => ToString.toString d.mantissa ++ "p" ++ ToString.toString d.exponent,
        doubleRound := fun d => d.mantissa * 2 ^ d.exponent.toNat } }

/-- A sample world: every client initializes, every driver starts, every
client wants to communicate and every exchange succeeds. -/
def sampleWorld : World :=
  { isInitialized := fun _ => true,
    driverIsExecutable := fun _ => true,
    startDriver := fun _ _ => true,
    hasCommonClient := true,
    getClient := fun _ => true,
    logFileOpens := fun _ => true,
    prepareCommunication := fun _ => true,
    performCommunication := fun _ => CommunicationOutcome.exchanged }

/-- A raw configuration of the virtual interface with the given name. -/
def virtualConfig (name : String) : Props :=
  [("name", QVariant.ofString name), ("interface", QVariant.ofString "virtual")]

/-- A raw remote configuration of the given interface, with an explicit TCP port. -/
def remoteConfig (name interfaceType : String) (tcpPort : Int) : Props :=
  [("name", QVariant.ofString name), ("interface", QVariant.ofString interfaceType),
   ("isRemoteConnection", QVariant.ofBool true), ("tcpPort", QVariant.ofInt tcpPort)]

/-- The registry after `addConnection` accepted the virtual configuration "a"
on the initial state. -/
def registeredA : State :=
  (addConnection sampleEnv State.initial (virtualConfig "a")).2

/-- The registry after `addConnection` accepted a virtual configuration whose
name is "version". -/
def registeredVersion : State :=
  (addConnection sampleEnv State.initial (virtualConfig "version")).2

/-- The state after the virtual connection "a" was added and started and its
configuration was then removed. -/
def startedThenRemoved : State :=
  (removeConnection sampleEnv
    (startConnection sampleEnv sampleWorld registeredA "a").2 "a").2

/-- The registry with one remote connection "A" whose TCP port was allocated by
`getFreeTcpPort`. -/
def registeredRemote : State :=
  (addConnection sampleEnv State.initial
    [("name", QVariant.ofString "A"), ("interface", QVariant.ofString "virtual"),
     ("isRemoteConnection", QVariant.ofBool true)]).2

/-- The registry with two remote connections "A" and "B" that were both added
with the explicit TCP port 10001. -/
def sharedPort : State :=
  (addConnection sampleEnv
    (addConnection sampleEnv State.initial (remoteConfig "A" "virtual" 10001)).2
    (remoteConfig "B" "virtual" 10001)).2

/-- The state after the remote connection "A" (port 10001) was added and
started and its configuration was then removed. -/
def remoteStartedThenRemoved : State :=
  (removeConnection sampleEnv
    (startConnection sampleEnv sampleWorld registeredRemote "A").2 "A").2

/-- The state after the remote INDI connection "i" was added, started and
stopped once. -/
def indiStoppedOnce : State :=
  (stopConnection sampleEnv
    (startConnection sampleEnv sampleWorld
      (addConnection sampleEnv State.initial (remoteConfig "i" "INDI" 7624)).2 "i").2 "i").2

/-- The events that a call appended to the trace. -/
def newEvents (before after : State) : List Event :=
  after.events.drop before.events.length

/-- The id of the client that a `prepareCommunication` event polls. -/
def Event.preparedId : Event → Option String
  | Event.prepareCommunication id _ => some id
  | _ => none

/-- The client and the value of `log_file` of a communication event. -/
def Event.clientLog : Event → Option (String × Option String)
  | Event.prepareCommunication id log => some (id, log)
  | Event.performCommunication id log _ => some (id, log)
  | _ => none

/-- A communication event with the value of `log_file` left out. -/
def Event.withoutLog : Event → Event
  | Event.prepareCommunication id _ => Event.prepareCommunication id none
  | Event.performCommunication id _ outcome => Event.performCommunication id none outcome
  | e => e

/-- The calls that one pass of `communicate` is expected to make on the client
stored under `key` (with the value of `log_file` left out): one
`prepareCommunication`, followed by `performCommunication` exactly when the
former returned true. -/
def expectedCalls (w : World) (key : String) : List Event :=
  Event.prepareCommunication key none ::
    (if w.prepareCommunication key then
      [Event.performCommunication key none (w.performCommunication key)]
    else [])

/-! ## Notions used to state the properties of the registry and of the start -/

/-- The property map that `insertConnection` stores under the name of the
connection: `newProperties` with the shortcut number when it lies in 1..9. -/
def storedProperties (env : Env) (properties : Props) (c : CheckedConnection) : Props :=
  if decide ((properties.get "shortcutNumber").toInt env.qt > 0 ∧
      (properties.get "shortcutNumber").toInt env.qt < 10) then
    QMap.insert c.newProperties "shortcutNumber"
      (QVariant.ofInt ((properties.get "shortcutNumber").toInt env.qt))
  else c.newProperties

/-- One call of the registry interface. -/
inductive RegistryOp where
  | addConnection (properties : Props)
  | removeConnection (id : String)
  | removeAllConnections

/-- The state after one call of the registry interface. -/
def RegistryOp.apply (env : Env) (s : State) : RegistryOp → State
  | RegistryOp.addConnection properties => (TelescopeControl.addConnection env s properties).2
  | RegistryOp.removeConnection id => (TelescopeControl.removeConnection env s id).2
  | RegistryOp.removeAllConnections => TelescopeControl.removeAllConnections s

/-- The state reached from the initial state by a sequence of calls. -/
def runRegistryOps (env : Env) (ops : List RegistryOp) : State :=
  ops.foldl (RegistryOp.apply env) State.initial

/-- The port that `removeConnection` reads from a stored entry
(`value("tcpPort").toUInt()`, 0 when there is none). -/
def storedPort (qt : QtConv) (node : QNode) : Nat := (node.toMap.get "tcpPort").toUInt qt

/-- The number of stored entries whose port is `p`. -/
def storedPortCount (qt : QtConv) (m : QMap String QNode) (p : Nat) : Nat :=
  m.countP fun entry => decide (storedPort qt entry.2 = p)

/-- The ports of the stored entries are covered by `usedTcpPorts`. -/
def portsCovered (qt : QtConv) (s : State) : Prop :=
  ∀ p : Nat, 0 < p → storedPortCount qt s.connectionsProperties p ≤ s.usedTcpPorts.count p

/-- The fields that only the client management writes. -/
structure SameClients (s t : State) : Prop where
  connectionsProperties : t.connectionsProperties = s.connectionsProperties
  connections : t.connections = s.connections
  telescopes : t.telescopes = s.telescopes
  indiDevices : t.indiDevices = s.indiDevices
  events : t.events = s.events

/-! ## Further sample inputs -/

/-- A virtual configuration "a" with eleven field-of-view circles and one entry
that is not a number. -/
def elevenCircles : Props :=
  [("name", QVariant.ofString "a"), ("interface", QVariant.ofString "virtual"),
   ("fovCircles", QVariant.list
      [QScalar.int 1, QScalar.int 2, QScalar.invalid, QScalar.int 3, QScalar.int 4,
       QScalar.int 5, QScalar.int 6, QScalar.int 7, QScalar.int 8, QScalar.int 9,
       QScalar.int 10, QScalar.int 11])]

/-- The registry with the remote INDI connection "i" on port 7624. -/
def indiRegistered : State :=
  (addConnection sampleEnv State.initial (remoteConfig "i" "INDI" 7624)).2

/-- A raw configuration of the interface "INDI Pointer": the device "d" of the
INDI connection "i". -/
def pointerConfig : Props :=
  [("name", QVariant.ofString "p"), ("interface", QVariant.ofString "INDI Pointer"),
   ("indiDevice", QVariant.ofString "d"), ("indiConnection", QVariant.ofString "i")]

/-- The registry with the "INDI Pointer" connection "p". -/
def pointerRegistered : State :=
  (addConnection sampleEnv State.initial pointerConfig).2

/-- A world in which no client initializes. -/
def uninitializedWorld : World :=
  { sampleWorld with isInitialized := fun _ => false }

/-- A raw configuration of a local virtual connection "s" that names the TCP
port 10001. -/
def localWithPort : Props :=
  [("name", QVariant.ofString "s"), ("interface", QVariant.ofString "virtual"),
   ("tcpPort", QVariant.ofInt 10001)]

/-- A raw virtual configuration with the given name and shortcut number. -/
def shortcutConfig (name : String) (shortcutNumber : Int) : Props :=
  [("name", QVariant.ofString name), ("interface", QVariant.ofString "virtual"),
   ("shortcutNumber", QVariant.ofInt shortcutNumber)]

/-- The registry after the virtual configuration "a" was added with the
shortcut number 1 and then again with the shortcut number 2. -/
def boundTwice : State :=
  runRegistryOps sampleEnv
    [RegistryOp.addConnection (shortcutConfig "a" 1),
     RegistryOp.addConnection (shortcutConfig "a" 2)]

/-- The registry with one remote connection "A" that has an allocated TCP port
and the shortcut number 1. -/
def remoteWithShortcut : State :=
  (addConnection sampleEnv State.initial
    [("name", QVariant.ofString "A"), ("interface", QVariant.ofString "virtual"),
     ("isRemoteConnection", QVariant.ofBool true),
     ("shortcutNumber", QVariant.ofInt 1)]).2


/-! ## Notions used to state the properties of the polling order -/

/-- The ids of a list ascend in the key order of `QMap<QString, T>`: every id
is smaller than every id after it. -/
def keysAscending (keys : List String) : Prop :=
  keys.Pairwise fun a b => charsLt a.data b.data = true

instance (keys : List String) : Decidable (keysAscending keys) := by
  unfold keysAscending
  infer_instance

/-- One call of the interface of the plug-in, with the answers of the outside
world during the call. -/
inductive SupervisorOp where
  | registry (op : RegistryOp)
  | startConnection (w : World) (id : String)
  | stopConnection (id : String)
  | communicate (w : World)
  | loadConnections (w : World) (file : ConnectionsFile)

/-- The state after one call of the interface. -/
def SupervisorOp.apply (env : Env) (s : State) : SupervisorOp → State
  | SupervisorOp.registry op => RegistryOp.apply env s op
  | SupervisorOp.startConnection w id => (TelescopeControl.startConnection env w s id).2
  | SupervisorOp.stopConnection id => (TelescopeControl.stopConnection env s id).2
  | SupervisorOp.communicate w => TelescopeControl.communicate w s
  | SupervisorOp.loadConnections w file => TelescopeControl.loadConnections env w file s

/-- The state reached from the initial state by a sequence of calls. -/
def runSupervisorOps (env : Env) (ops : List SupervisorOp) : State :=
  ops.foldl (SupervisorOp.apply env) State.initial

/-- The ids that one call of `communicate` polls, in the order of the calls of
`prepareCommunication`. -/
def polledIds (w : World) (s : State) : List String :=
  (newEvents s (communicate w s)).filterMap Event.preparedId

/-! ## Sample inputs for the stored fields, the pointer connections and the polling order -/

/-- A raw configuration of a local "Stellarium" connection "l" on a serial port. -/
def serialConfig : Props :=
  [("name", QVariant.ofString "l"), ("interface", QVariant.ofString "Stellarium"),
   ("driverId", QVariant.ofString "Lx200"), ("serialPort", QVariant.ofString "/dev/ttyS0")]

/-- A world in which the INDI service knows no client: `getClient` returns a
null pointer for every connection id. -/
def orphanWorld : World :=
  { sampleWorld with getClient := fun _ => false }

/-- The state after the virtual connection "a" was added and started. -/
def startedA : State := (startConnection sampleEnv sampleWorld registeredA "a").2

/-- The state after the INDI client "c" defined the device "d1", that device
was promoted to a telescope, and "c" defined a second device "d2". -/
def secondDevice : State :=
  handleDeviceDefinition sampleWorld
    (treatAsTelescope (handleDeviceDefinition sampleWorld State.initial "c" "d1") "c")
    "c" "d2"

/-- The calls that register the virtual connections "a" and "b" and start
first "b" and then "a". -/
def startBThenA : List SupervisorOp :=
  [SupervisorOp.registry (RegistryOp.addConnection (virtualConfig "a")),
   SupervisorOp.registry (RegistryOp.addConnection (virtualConfig "b")),
   SupervisorOp.startConnection sampleWorld "b",
   SupervisorOp.startConnection sampleWorld "a"]

/-- The calls that register the virtual connections "a" and "b" and start
first "a" and then "b". -/
def startAThenB : List SupervisorOp :=
  [SupervisorOp.registry (RegistryOp.addConnection (virtualConfig "a")),
   SupervisorOp.registry (RegistryOp.addConnection (virtualConfig "b")),
   SupervisorOp.startConnection sampleWorld "a",
   SupervisorOp.startConnection sampleWorld "b"]

/-! ## Notions and sample inputs for the start and for the pass of communicate -/

/-- The client object that `startClient` constructs for a configuration: the
pointer `newTelescope` at the end of the interface-specific part, `none` when
it is null or when the function returns inside that part. -/
def constructedClient (env : Env) (w : World) (properties : Props) : Option TelescopeClient :=
  let name := (properties.get "name").toString env.qt
  let interfaceType := (properties.get "interface").toString env.qt
  let isRemote := (properties.getD "isRemoteConnection" (QScalar.bool false)).toBool
  let delay := (properties.getD "delay" (QScalar.int env.DEFAULT_DELAY)).toInt env.qt
  let equinoxString := (properties.getD "equinox" (QScalar.string "J2000")).toString env.qt
  let equinox := if equinoxString = "JNow" then Equinox.EquinoxJNow else Equinox.EquinoxJ2000
  match constructClient env w State.initial properties name interfaceType isRemote delay
      equinox with
  | Construction.returned _ _ => none
  | Construction.constructed newTelescope _ => newTelescope

/-- The sample environment with one INDI driver description: the device model
"Telescope Simulator" of the driver "indi_simulator_telescope". -/
def indiEnv : Env :=
  { sampleEnv with
    driverDescriptions := [[("Telescope Simulator", "indi_simulator_telescope")]] }

/-- A raw configuration of the local "INDI" connection "n". -/
def localIndiConfig : Props :=
  [("name", QVariant.ofString "n"), ("interface", QVariant.ofString "INDI"),
   ("driverId", QVariant.ofString "indi_simulator_telescope"),
   ("deviceModel", QVariant.ofString "Telescope Simulator")]

/-- The registry with the local "INDI" connection "n". -/
def localIndiRegistered : State :=
  (addConnection indiEnv State.initial localIndiConfig).2

/-- The trace that one pass over the clients stored under `keys` leaves, by
the description of the polling: for each client in turn, `setCurrentLog` (the
log becomes the client's own when the client has a log stream and stays what
it was otherwise), one `prepareCommunication`, and one `performCommunication`
right after it exactly when the former returned true. -/
def expectedTrace (w : World) (streams : QMap String LogFile) :
    Option String → List String → List Event
  | _, [] => []
  | log, key :: rest =>
    let log1 := if QMap.contains streams key then some key else log
    (Event.prepareCommunication key log1 ::
      (if w.prepareCommunication key then
        [Event.performCommunication key log1 (w.performCommunication key)]
      else [])) ++ expectedTrace w streams log1 rest

/-- The state after the local connection "a" and the remote connection "b"
were added and started: "a" has a log, "b" has none. -/
def localAndRemote : State :=
  runSupervisorOps sampleEnv
    [SupervisorOp.registry (RegistryOp.addConnection (virtualConfig "a")),
     SupervisorOp.registry (RegistryOp.addConnection (remoteConfig "b" "virtual" 10001)),
     SupervisorOp.startConnection sampleWorld "a",
     SupervisorOp.startConnection sampleWorld "b"]

/-! ## Lemmas on the containers -/

namespace QMap

variable {K V : Type}

theorem contains_remove_self [DecidableEq K] (m : QMap K V) (k : K) :
    contains (remove m k) k = false := by
  induction m with
  | nil => rfl
  | cons e rest ih =>
    obtain ⟨k', v⟩ := e
    by_cases h : k' = k
    · simp [remove, h, ih]
    · simp [remove, contains, h, ih]

theorem remove_of_not_contains [DecidableEq K] (m : QMap K V) (k : K)
    (h : contains m k = false) : remove m k = m := by
  induction m with
  | nil => rfl
  | cons e rest ih =>
    obtain ⟨k', v⟩ := e
    by_cases hk : k' = k
    · simp [contains, hk] at h
    · simp only [contains, hk, if_false] at h
      simp [remove, hk, ih h]

theorem remove_remove_self [DecidableEq K] (m : QMap K V) (k : K) :
    remove (remove m k) k = remove m k :=
  remove_of_not_contains _ _ (contains_remove_self m k)

end QMap

/-! ## Lemmas on the port pool -/

theorem scanFreePort_some (used : List Nat) :
    ∀ (count slot p : Nat), scanFreePort used slot count = some p →
      slot ≤ p ∧ p < slot + count ∧ p ∉ used ∧ ∀ q, slot ≤ q → q < p → q ∈ used := by
  intro count
  induction count with
  | zero => intro slot p h; simp [scanFreePort] at h
  | succ n ih =>
    intro slot p h
    by_cases hc : slot ∈ used
    · have hc2 : used.contains slot = true := by simpa using hc
      simp only [scanFreePort, hc2, Bool.not_true] at h
      have h2 := ih (slot + 1) p (by simpa using h)
      refine ⟨by omega, by omega, h2.2.2.1, ?_⟩
      intro q hq1 hq2
      by_cases hq : q = slot
      · subst hq; exact hc
      · exact h2.2.2.2 q (by omega) hq2
    · have hc2 : used.contains slot = false := by simpa using hc
      simp only [scanFreePort, hc2, Bool.not_false, if_true, Option.some.injEq] at h
      subst h
      exact ⟨le_refl _, by omega, hc, fun q h1 h2 => absurd h1 (by omega)⟩

theorem scanFreePort_none (used : List Nat) :
    ∀ (count slot : Nat), scanFreePort used slot count = none →
      ∀ q, slot ≤ q → q < slot + count → q ∈ used := by
  intro count
  induction count with
  | zero => intro slot _ q h1 h2; omega
  | succ n ih =>
    intro slot h q h1 h2
    by_cases hc : slot ∈ used
    · have hc2 : used.contains slot = true := by simpa using hc
      simp only [scanFreePort, hc2, Bool.not_true] at h
      by_cases hq : q = slot
      · subst hq; exact hc
      · exact ih (slot + 1) (by simpa using h) q (by omega) (by omega)
    · simp [scanFreePort, hc] at h

theorem scanFreePort_eq_of_first (used : List Nat) (count slot p : Nat)
    (h1 : slot ≤ p) (h2 : p < slot + count) (hp : p ∉ used)
    (hq : ∀ q, slot ≤ q → q < p → q ∈ used) :
    scanFreePort used slot count = some p := by
  cases h : scanFreePort used slot count with
  | none => exact absurd (scanFreePort_none used count slot h p h1 h2) hp
  | some r =>
    have hr := scanFreePort_some used count slot r h
    by_cases hlt : r < p
    · exact absurd (hq r hr.1 hlt) hr.2.2.1
    · by_cases hgt : p < r
      · exact absurd (hr.2.2.2 p h1 hgt) hp
      · have : r = p := by omega
        rw [this]

/-! ## Lemmas on communicate and stopClient -/

/-- What one iteration of the loop of `communicate` does: it appends the
expected calls for `key` and touches only `events` and `log_file`. -/
theorem communicateWith_spec (w : World) (s : State) (key : String) :
    ∃ new log,
      communicateWith w s key = { s with events := s.events ++ new, log_file := log } ∧
      new.map Event.withoutLog = expectedCalls w key ∧
      (∀ e ∈ new, ∀ id l, e.clientLog = some (id, l) → id = key ∧ l = log) ∧
      (QMap.contains s.telescopeServerLogStreams key = true → log = some key) := by
  unfold communicateWith setCurrentLog expectedCalls
  by_cases hs : QMap.contains s.telescopeServerLogStreams key = true
  · by_cases hp : w.prepareCommunication key = true
    · refine ⟨[Event.prepareCommunication key (some key),
        Event.performCommunication key (some key) (w.performCommunication key)],
        some key, ?_, ?_, ?_, ?_⟩
      · simp [hs, hp]
      · simp [hp, Event.withoutLog]
      · intro e he id l hl
        simp only [List.mem_cons, List.mem_singleton, List.not_mem_nil, or_false] at he
        rcases he with rfl | rfl <;> simp only [Event.clientLog, Option.some.injEq, Prod.mk.injEq] at hl <;>
          exact ⟨hl.1.symm, hl.2.symm⟩
      · intro _; rfl
    · refine ⟨[Event.prepareCommunication key (some key)], some key, ?_, ?_, ?_, ?_⟩
      · simp [hs, hp]
      · simp [hp, Event.withoutLog]
      · intro e he id l hl
        simp only [List.mem_singleton] at he
        subst he
        simp only [Event.clientLog, Option.some.injEq, Prod.mk.injEq] at hl
        exact ⟨hl.1.symm, hl.2.symm⟩
      · intro _; rfl
  · by_cases hp : w.prepareCommunication key = true
    · refine ⟨[Event.prepareCommunication key s.log_file,
        Event.performCommunication key s.log_file (w.performCommunication key)],
        s.log_file, ?_, ?_, ?_, ?_⟩
      · simp [hs, hp]
      · simp [hp, Event.withoutLog]
      · intro e he id l hl
        simp only [List.mem_cons, List.mem_singleton, List.not_mem_nil, or_false] at he
        rcases he with rfl | rfl <;> simp only [Event.clientLog, Option.some.injEq, Prod.mk.injEq] at hl <;>
          exact ⟨hl.1.symm, hl.2.symm⟩
      · intro h; exact absurd h hs
    · refine ⟨[Event.prepareCommunication key s.log_file], s.log_file, ?_, ?_, ?_, ?_⟩
      · simp [hs, hp]
      · simp [hp, Event.withoutLog]
      · intro e he id l hl
        simp only [List.mem_singleton] at he
        subst he
        simp only [Event.clientLog, Option.some.injEq, Prod.mk.injEq] at hl
        exact ⟨hl.1.symm, hl.2.symm⟩
      · intro h; exact absurd h hs

/-- The whole loop of `communicate` over a list of entries. -/
theorem communicate_loop_spec (w : World) (cs : List (String × TelescopeClient)) :
    ∀ s : State, ∃ new log,
      cs.foldl (fun st entry => communicateWith w st entry.1) s =
        { s with events := s.events ++ new, log_file := log } ∧
      new.map Event.withoutLog = (QMap.keys cs).flatMap (expectedCalls w) ∧
      (∀ e ∈ new, ∀ id l, e.clientLog = some (id, l) →
        QMap.contains s.telescopeServerLogStreams id = true → l = some id) ∧
      (cs = [] → log = s.log_file) := by
  induction cs with
  | nil =>
    intro s
    exact ⟨[], s.log_file, by simp, by simp [QMap.keys], by simp, fun _ => rfl⟩
  | cons c rest ih =>
    intro s
    obtain ⟨new1, log1, h1, h2, h3, h4⟩ := communicateWith_spec w s c.1
    obtain ⟨new2, log2, g1, g2, g3, _⟩ := ih (communicateWith w s c.1)
    refine ⟨new1 ++ new2, log2, ?_, ?_, ?_, ?_⟩
    · rw [List.foldl_cons, g1, h1]
      simp [List.append_assoc]
    · simp [QMap.keys, List.flatMap_cons, h2, g2]
    · intro e he id l hl hc
      rcases List.mem_append.mp he with he | he
      · obtain ⟨rfl, rfl⟩ := h3 e he id l hl
        exact h4 hc
      · refine g3 e he id l hl ?_
        rw [h1]
        exact hc
    · intro h; simp at h

/-- One pass of `communicate`: the trace grows by the expected calls for every
entry of `connections` in order, and only `events` and `log_file` change. -/
theorem communicate_spec (w : World) (s : State) :
    ∃ new log,
      communicate w s = { s with events := s.events ++ new, log_file := log } ∧
      newEvents s (communicate w s) = new ∧
      new.map Event.withoutLog = (QMap.keys s.connections).flatMap (expectedCalls w) ∧
      (∀ e ∈ new, ∀ id l, e.clientLog = some (id, l) →
        QMap.contains s.telescopeServerLogStreams id = true → l = some id) := by
  obtain ⟨new, log, h1, h2, h3, h4⟩ := communicate_loop_spec w s.connections s
  have hc : communicate w s = { s with events := s.events ++ new, log_file := log } := by
    unfold communicate
    by_cases he : s.connections = []
    · have hlog := h4 he
      rw [he] at h1 ⊢
      simpa using h1
    · have : s.connections.isEmpty = false := by
        cases hcs : s.connections with
        | nil => exact absurd hcs he
        | cons a l => rfl
      simp only [this, Bool.not_false, if_true]
      exact h1
  refine ⟨new, log, hc, ?_, h2, h3⟩
  unfold newEvents
  rw [hc]
  exact List.drop_left _ _

theorem preparedId_withoutLog (e : Event) : e.withoutLog.preparedId = e.preparedId := by
  cases e <;> rfl

theorem filterMap_preparedId_expectedCalls (w : World) (keys : List String) :
    (keys.flatMap (expectedCalls w)).filterMap Event.preparedId = keys := by
  induction keys with
  | nil => rfl
  | cons k rest ih =>
    rw [List.flatMap_cons, List.filterMap_append, ih]
    unfold expectedCalls
    by_cases h : w.prepareCommunication k = true <;> simp [h, Event.preparedId]

theorem polled_of_calls (w : World) (keys : List String) (new : List Event)
    (h : new.map Event.withoutLog = keys.flatMap (expectedCalls w)) :
    new.filterMap Event.preparedId = keys := by
  have h1 : (new.map Event.withoutLog).filterMap Event.preparedId =
      new.filterMap Event.preparedId := by
    rw [List.filterMap_map]
    congr 1
    funext e
    exact preparedId_withoutLog e
  rw [← h1, h, filterMap_preparedId_expectedCalls]


theorem unselectTelescopes_eq (s : State) :
    unselectTelescopes s = { s with selectedTelescope := none } := by
  unfold unselectTelescopes
  cases h : s.selectedTelescope with
  | none =>
    simp only [Option.isSome_none, Bool.false_eq_true, if_false]
    cases s
    simp_all
  | some x => simp

theorem stopIndi_eq (env : Env) (s : State) (id : String) (properties : Props) :
    stopIndi env s id properties =
      { s with events := (stopIndi env s id properties).events } := by
  unfold stopIndi
  split_ifs <;> rfl

theorem teardownClient_facts (s : State) (id : String) :
    QMap.contains (teardownClient s id).connections id = false ∧
    (teardownClient s id).selectedTelescope = none ∧
    QMap.contains (teardownClient s id).telescopeServerLogFiles id = false ∧
    QMap.remove (teardownClient s id).telescopes id = (teardownClient s id).telescopes ∧
    (teardownClient s id).connectionsProperties = s.connectionsProperties := by
  unfold teardownClient
  simp only [unselectTelescopes_eq, removeLogForClient]
  by_cases hf : QMap.contains s.telescopeServerLogFiles id = true
  · simp [hf, QMap.contains_remove_self, QMap.remove_remove_self]
  · simp [hf, QMap.contains_remove_self, QMap.remove_remove_self]

theorem teardownClient_of_torn_down (t : State) (id : String)
    (h1 : QMap.contains t.connections id = false)
    (h2 : t.selectedTelescope = none)
    (h3 : QMap.contains t.telescopeServerLogFiles id = false)
    (h4 : QMap.remove t.telescopes id = t.telescopes) :
    teardownClient t id = { t with events := t.events ++ [Event.clientDisconnected id] } := by
  have h5 : QMap.remove t.connections id = t.connections :=
    QMap.remove_of_not_contains _ _ h1
  unfold teardownClient
  simp only [unselectTelescopes_eq, removeLogForClient, h3, h4, h5, Bool.false_eq_true,
    if_false]
  cases t
  simp_all

theorem stopClient_fst (env : Env) (s : State) (id : String) :
    (stopClient env s id).1 = true := by
  simp only [stopClient]
  split_ifs <;> rfl

theorem stopClient_teardown_facts (env : Env) (s : State) (id : String) :
    stopClient env s id = (true, s) ∨
    (QMap.contains (stopClient env s id).2.connections id = false ∧
      (stopClient env s id).2.selectedTelescope = none ∧
      QMap.contains (stopClient env s id).2.telescopeServerLogFiles id = false ∧
      QMap.remove (stopClient env s id).2.telescopes id = (stopClient env s id).2.telescopes ∧
      (stopClient env s id).2.connectionsProperties = s.connectionsProperties) := by
  simp only [stopClient]
  generalize (QMap.value s.connectionsProperties id
    (QNode.value (QVariant.scalar QScalar.invalid))).toMap = props
  by_cases hid : id = ""
  · simp [hid]
  · simp only [hid, if_false]
    by_cases ha : List.isEmpty props = true
    · simp [ha]
    · simp only [ha, if_false]
      by_cases hc : (!decide ((props.get "interface").toString env.qt = "INDI") &&
          !QMap.contains s.connections id) = true
      · simp only [hc, if_true]
        exact Or.inl rfl
      · simp only [hc, Bool.false_eq_true, if_false]
        right
        refine ⟨(teardownClient_facts _ id).1, (teardownClient_facts _ id).2.1,
          (teardownClient_facts _ id).2.2.1, (teardownClient_facts _ id).2.2.2.1, ?_⟩
        rw [(teardownClient_facts _ id).2.2.2.2]
        split
        · rw [stopIndi_eq]
        · rfl

/-- A state in which the client of `id` has been torn down. -/
theorem stopClient_after_teardown (env : Env) (t : State) (id : String)
    (h1 : QMap.contains t.connections id = false)
    (h2 : t.selectedTelescope = none)
    (h3 : QMap.contains t.telescopeServerLogFiles id = false)
    (h4 : QMap.remove t.telescopes id = t.telescopes) :
    { (stopClient env t id).2 with events := t.events } = t ∧
    ((((QMap.value t.connectionsProperties id
        (QNode.value (QVariant.scalar QScalar.invalid))).toMap.get "interface").toString env.qt
          ≠ "INDI") → (stopClient env t id).2 = t) := by
  simp only [stopClient]
  by_cases hid : id = ""
  · simp [hid]
  · simp only [hid, if_false]
    by_cases ha : List.isEmpty (QMap.value t.connectionsProperties id
        (QNode.value (QVariant.scalar QScalar.invalid))).toMap = true
    · simp [ha]
    · simp only [ha, if_false]
      by_cases hi : ((QMap.value t.connectionsProperties id
        (QNode.value (QVariant.scalar QScalar.invalid))).toMap.get "interface").toString env.qt
          = "INDI"
      · simp only [hi, decide_True, Bool.not_true, Bool.false_and, Bool.false_eq_true,
          if_false, if_true]
        refine ⟨?_, fun h => absurd rfl h⟩
        have hs := stopIndi_eq env t id (QMap.value t.connectionsProperties id
          (QNode.value (QVariant.scalar QScalar.invalid))).toMap
        rw [teardownClient_of_torn_down _ id (by rw [hs]; exact h1) (by rw [hs]; exact h2)
          (by rw [hs]; exact h3) (by rw [hs]; exact h4)]
        rw [hs]
      · simp [hi, h1]

/-! ## Lemmas on addConnection -/

theorem scanFreePort_none_of_all_used (used : List Nat) (count slot : Nat)
    (h : ∀ q, slot ≤ q → q < slot + count → q ∈ used) :
    scanFreePort used slot count = none := by
  cases hs : scanFreePort used slot count with
  | none => rfl
  | some r =>
    have hr := scanFreePort_some used count slot r hs
    exact absurd (h r hr.1 hr.2.1) hr.2.2.1

theorem remoteProperties_isSome (s : State) (newProperties : Props) (isRemote : Bool)
    (host : String) (tcpPort : Int) :
    (remoteProperties s newProperties isRemote host tcpPort).isSome =
      (!isRemote || decide (host ≠ "")) := by
  unfold remoteProperties
  cases isRemote
  · simp
  · by_cases hh : host = "" <;> simp [hh]

theorem equinoxProperties_isSome (env : Env) (properties np1 np2 : Props)
    (interfaceType : String) :
    (equinoxProperties env properties np1 interfaceType).isSome =
      (equinoxProperties env properties np2 interfaceType).isSome := by
  simp only [equinoxProperties]
  split_ifs <;> rfl

theorem interfaceProperties_isSome (env : Env) (properties np1 np2 : Props)
    (interfaceType : String) (isRemote : Bool) (driver deviceModel : String) :
    (interfaceProperties env properties np1 interfaceType isRemote driver deviceModel).isSome =
      (interfaceProperties env properties np2 interfaceType isRemote driver
        deviceModel).isSome := by
  simp only [interfaceProperties]
  split_ifs <;> rfl

/-- Whether `addConnection` accepts a configuration depends on the state only
through the presence of a live client with the same name. -/
theorem checkConnection_isSome_congr (env : Env) (s1 s2 : State) (properties : Props)
    (h : QMap.contains s1.connections ((properties.get "name").toString env.qt) =
      QMap.contains s2.connections ((properties.get "name").toString env.qt)) :
    (checkConnection env s1 properties).isSome = (checkConnection env s2 properties).isSome := by
  simp only [checkConnection, h]
  split_ifs
  · rfl
  · rfl
  · rfl
  · rfl
  · cases hi : interfaceProperties env properties
        (QMap.insert (QMap.insert [] "name"
          (QVariant.ofString ((properties.get "name").toString env.qt)))
          "interface" (QVariant.ofString ((properties.get "interface").toString env.qt)))
        ((properties.get "interface").toString env.qt)
        (properties.getD "isRemoteConnection" (QScalar.bool false)).toBool
        ((properties.get "driverId").toString env.qt)
        ((properties.get "deviceModel").toString env.qt) with
    | none => rfl
    | some np1 =>
      dsimp only
      have hr := remoteProperties_isSome s1 np1
        (properties.getD "isRemoteConnection" (QScalar.bool false)).toBool
        ((properties.getD "host" (QScalar.string "localhost")).toString env.qt)
        ((properties.get "tcpPort").toInt env.qt)
      have hr2 := remoteProperties_isSome s2 np1
        (properties.getD "isRemoteConnection" (QScalar.bool false)).toBool
        ((properties.getD "host" (QScalar.string "localhost")).toString env.qt)
        ((properties.get "tcpPort").toInt env.qt)
      rw [← hr2] at hr
      cases h1 : remoteProperties s1 np1
        (properties.getD "isRemoteConnection" (QScalar.bool false)).toBool
        ((properties.getD "host" (QScalar.string "localhost")).toString env.qt)
        ((properties.get "tcpPort").toInt env.qt) with
      | none =>
        cases h2 : remoteProperties s2 np1
          (properties.getD "isRemoteConnection" (QScalar.bool false)).toBool
          ((properties.getD "host" (QScalar.string "localhost")).toString env.qt)
          ((properties.get "tcpPort").toInt env.qt) with
        | none => rfl
        | some r2 => rw [h1, h2] at hr; simp at hr
      | some r1 =>
        cases h2 : remoteProperties s2 np1
          (properties.getD "isRemoteConnection" (QScalar.bool false)).toBool
          ((properties.getD "host" (QScalar.string "localhost")).toString env.qt)
          ((properties.get "tcpPort").toInt env.qt) with
        | none => rw [h1, h2] at hr; simp at hr
        | some r2 =>
          obtain ⟨p1, q1⟩ := r1
          obtain ⟨p2, q2⟩ := r2
          have he := equinoxProperties_isSome env properties q1 q2
            ((properties.get "interface").toString env.qt)
          dsimp only
          cases e1 : equinoxProperties env properties q1
              ((properties.get "interface").toString env.qt) with
          | none =>
            cases e2 : equinoxProperties env properties q2
              ((properties.get "interface").toString env.qt) with
            | none => rfl
            | some x => rw [e1, e2] at he; simp at he
          | some x =>
            cases e2 : equinoxProperties env properties q2
              ((properties.get "interface").toString env.qt) with
            | none => rw [e1, e2] at he; simp at he
            | some y => rfl

theorem addConnection_fst (env : Env) (s : State) (properties : Props) :
    (addConnection env s properties).1 = (checkConnection env s properties).isSome := by
  unfold addConnection
  cases checkConnection env s properties <;> rfl

/-! ## Lemmas on the stored configuration -/

namespace QMap
variable {K V : Type}

theorem find_insert [QMapKey K] [DecidableEq K] (m : QMap K V) (k k' : K) (v : V) :
    find (insert m k v) k' = if k = k' then some v else find m k' := by
  induction m with
  | nil => simp [insert, find]
  | cons e rest ih =>
    obtain ⟨k0, v0⟩ := e
    simp only [insert]
    by_cases h1 : QMapKey.keyLt k k0 = true
    · simp only [h1, if_true, find]
    · simp only [h1, Bool.false_eq_true, if_false]
      by_cases h2 : k = k0
      · subst h2
        simp only [if_true, find]
        by_cases h3 : k = k' <;> simp [h3]
      · simp only [h2, if_false, find, ih]
        by_cases h3 : k0 = k'
        · have h4 : ¬ k = k' := fun h => h2 (h.trans h3.symm)
          simp [h3, h4]
        · simp [h3]

theorem contains_eq_isSome_find [DecidableEq K] (m : QMap K V) (k : K) :
    contains m k = (find m k).isSome := by
  induction m with
  | nil => rfl
  | cons e rest ih =>
    obtain ⟨k0, v0⟩ := e
    by_cases h : k0 = k <;> simp [contains, find, h, ih]

theorem value_insert [QMapKey K] [DecidableEq K] (m : QMap K V) (k k' : K) (v d : V) :
    value (insert m k v) k' d = if k = k' then v else value m k' d := by
  unfold value
  rw [find_insert]
  by_cases h : k = k' <;> simp [h]

end QMap

theorem Props.get_insert (p : Props) (k k' : String) (v : QVariant) :
    Props.get (QMap.insert p k v) k' = if k = k' then v else Props.get p k' := by
  unfold Props.get
  exact QMap.value_insert _ _ _ _ _

theorem interfaceProperties_find (env : Env) (properties np np1 : Props)
    (interfaceType : String) (isRemote : Bool) (driver deviceModel : String)
    (h : interfaceProperties env properties np interfaceType isRemote driver deviceModel
      = some np1)
    (k : String) (h1 : k ≠ "driverId") (h2 : k ≠ "deviceModel") (h3 : k ≠ "serialPort")
    (h4 : k ≠ "indiDevice") (h5 : k ≠ "indiConnection") :
    QMap.find np1 k = QMap.find np k := by
  simp only [interfaceProperties] at h
  split_ifs at h <;>
    (simp only [Option.some.injEq] at h
     subst h
     simp [QMap.find_insert, Ne.symm h1, Ne.symm h2, Ne.symm h3, Ne.symm h4, Ne.symm h5])

theorem equinoxProperties_find (env : Env) (properties np np1 : Props)
    (interfaceType : String)
    (h : equinoxProperties env properties np interfaceType = some np1)
    (k : String) (h1 : k ≠ "equinox") (h2 : k ≠ "delay") :
    QMap.find np1 k = QMap.find np k := by
  simp only [equinoxProperties] at h
  split_ifs at h <;>
    (simp only [Option.some.injEq] at h
     subst h
     simp [QMap.find_insert, Ne.symm h1, Ne.symm h2])

theorem fovProperties_find (env : Env) (properties np : Props)
    (k : String) (h1 : k ≠ "fovCircles") :
    QMap.find (fovProperties env properties np) k = QMap.find np k := by
  simp only [fovProperties]
  split_ifs <;> simp [QMap.find_insert, Ne.symm h1]

theorem remoteProperties_find (s : State) (np np1 : Props) (isRemote : Bool)
    (host : String) (tcpPort tcpPort1 : Int)
    (h : remoteProperties s np isRemote host tcpPort = some (tcpPort1, np1))
    (k : String) (h1 : k ≠ "host") (h2 : k ≠ "tcpPort") (h3 : k ≠ "isRemoteConnection") :
    QMap.find np1 k = QMap.find np k := by
  simp only [remoteProperties] at h
  split_ifs at h <;>
    (simp only [Option.some.injEq, Prod.mk.injEq] at h
     obtain ⟨_, h⟩ := h
     subst h
     simp [QMap.find_insert, Ne.symm h1, Ne.symm h2, Ne.symm h3])

/-- What an accepted configuration went through: every stage of
`checkConnection` returned a property map. -/
theorem checkConnection_some (env : Env) (s : State) (properties : Props)
    (c : CheckedConnection) (h : checkConnection env s properties = some c) :
    (properties.get "name").toString env.qt ≠ "" ∧
    QMap.contains s.connections ((properties.get "name").toString env.qt) = false ∧
    ∃ np1 np2 np3,
      interfaceProperties env properties
        (QMap.insert (QMap.insert [] "name"
          (QVariant.ofString ((properties.get "name").toString env.qt)))
          "interface" (QVariant.ofString ((properties.get "interface").toString env.qt)))
        ((properties.get "interface").toString env.qt)
        (properties.getD "isRemoteConnection" (QScalar.bool false)).toBool
        ((properties.get "driverId").toString env.qt)
        ((properties.get "deviceModel").toString env.qt) = some np1 ∧
      remoteProperties s np1
        (properties.getD "isRemoteConnection" (QScalar.bool false)).toBool
        ((properties.getD "host" (QScalar.string "localhost")).toString env.qt)
        ((properties.get "tcpPort").toInt env.qt) = some (c.tcpPort, np2) ∧
      equinoxProperties env properties np2 ((properties.get "interface").toString env.qt)
        = some np3 ∧
      c.name = (properties.get "name").toString env.qt ∧
      c.newProperties =
        fovProperties env properties
          (QMap.insert np3 "connectsAtStartup"
            (QVariant.ofBool
              (properties.getD "connectsAtStartup" (QScalar.bool false)).toBool)) := by
  simp only [checkConnection] at h
  split_ifs at h with h1 h2 h3 h4
  refine ⟨h1, by simpa using h3, ?_⟩
  cases hi : interfaceProperties env properties
      (QMap.insert (QMap.insert [] "name"
        (QVariant.ofString ((properties.get "name").toString env.qt)))
        "interface" (QVariant.ofString ((properties.get "interface").toString env.qt)))
      ((properties.get "interface").toString env.qt)
      (properties.getD "isRemoteConnection" (QScalar.bool false)).toBool
      ((properties.get "driverId").toString env.qt)
      ((properties.get "deviceModel").toString env.qt) with
  | none => rw [hi] at h; simp at h
  | some np1 =>
    rw [hi] at h
    dsimp only at h
    cases hr : remoteProperties s np1
        (properties.getD "isRemoteConnection" (QScalar.bool false)).toBool
        ((properties.getD "host" (QScalar.string "localhost")).toString env.qt)
        ((properties.get "tcpPort").toInt env.qt) with
    | none => rw [hr] at h; simp at h
    | some r =>
      obtain ⟨t1, np2⟩ := r
      rw [hr] at h
      dsimp only at h
      cases he : equinoxProperties env properties np2
          ((properties.get "interface").toString env.qt) with
      | none => rw [he] at h; simp at h
      | some np3 =>
        rw [he] at h
        simp only [Option.some.injEq] at h
        subst h
        exact ⟨np1, np2, np3, rfl, hr, he, rfl, rfl⟩

theorem QMap.contains_insert_self {K V : Type} [QMapKey K] [DecidableEq K]
    (m : QMap K V) (k : K) (v : V) : QMap.contains (QMap.insert m k v) k = true := by
  rw [QMap.contains_eq_isSome_find, QMap.find_insert]
  simp

theorem Props.get_of_find (p : Props) (k : String) (v : QVariant)
    (h : QMap.find p k = some v) : p.get k = v := by
  simp [Props.get, QMap.value, h]

theorem Props.get_of_find_none (p : Props) (k : String)
    (h : QMap.find p k = none) : p.get k = QVariant.scalar QScalar.invalid := by
  simp [Props.get, QMap.value, h]

theorem Props.getD_of_find (p : Props) (k : String) (d : QScalar) (v : QVariant)
    (h : QMap.find p k = some v) : p.getD k d = v := by
  simp [Props.getD, QMap.value, h]

theorem Props.getD_of_find_none (p : Props) (k : String) (d : QScalar)
    (h : QMap.find p k = none) : p.getD k d = QVariant.scalar d := by
  simp [Props.getD, QMap.value, h]

theorem Props.getD_false_toBool (p : Props) (k : String) :
    (p.getD k (QScalar.bool false)).toBool = (p.get k).toBool := by
  cases h : QMap.find p k with
  | none => rw [Props.getD_of_find_none p k _ h, Props.get_of_find_none p k h]; rfl
  | some v => rw [Props.getD_of_find p k _ v h, Props.get_of_find p k v h]

theorem addConnection_of_check (env : Env) (s : State) (properties : Props)
    (c : CheckedConnection) (h : checkConnection env s properties = some c) :
    addConnection env s properties = (true, insertConnection env s properties c) := by
  simp [addConnection, h]

theorem addConnection_accepted (env : Env) (s : State) (properties : Props)
    (h : (addConnection env s properties).1 = true) :
    ∃ c, checkConnection env s properties = some c ∧
      addConnection env s properties = (true, insertConnection env s properties c) := by
  cases hc : checkConnection env s properties with
  | none => simp [addConnection, hc] at h
  | some c => exact ⟨c, rfl, addConnection_of_check env s properties c hc⟩

theorem insertConnection_connectionsProperties (env : Env) (s : State) (properties : Props)
    (c : CheckedConnection) :
    (insertConnection env s properties c).connectionsProperties =
      QMap.insert s.connectionsProperties c.name
        (QNode.map (storedProperties env properties c)) := by
  simp only [insertConnection, storedProperties]

theorem insertConnection_usedTcpPorts (env : Env) (s : State) (properties : Props)
    (c : CheckedConnection) :
    (insertConnection env s properties c).usedTcpPorts =
      if isValidTcpPort (wrapUInt32 c.tcpPort) then s.usedTcpPorts ++ [wrapUInt32 c.tcpPort]
      else s.usedTcpPorts := by
  simp only [insertConnection]

theorem insertConnection_idFromShortcutNumber (env : Env) (s : State) (properties : Props)
    (c : CheckedConnection) :
    (insertConnection env s properties c).idFromShortcutNumber =
      if (decide ((properties.get "shortcutNumber").toInt env.qt > 0 ∧
            (properties.get "shortcutNumber").toInt env.qt < 10) &&
          !QMap.contains s.idFromShortcutNumber
            ((properties.get "shortcutNumber").toInt env.qt)) = true then
        QMap.insert s.idFromShortcutNumber
          ((properties.get "shortcutNumber").toInt env.qt) c.name
      else s.idFromShortcutNumber := by
  simp only [insertConnection]

theorem insertConnection_frame (env : Env) (s : State) (properties : Props)
    (c : CheckedConnection) :
    (insertConnection env s properties c).connections = s.connections ∧
    (insertConnection env s properties c).telescopes = s.telescopes ∧
    (insertConnection env s properties c).indiDevices = s.indiDevices ∧
    (insertConnection env s properties c).events = s.events := by
  simp only [insertConnection, and_self]

theorem getConnection_insertConnection (env : Env) (s : State) (properties : Props)
    (c : CheckedConnection) (hname : c.name ≠ "") :
    getConnection (insertConnection env s properties c) c.name =
      storedProperties env properties c := by
  simp only [getConnection, hname, if_false, insertConnection_connectionsProperties,
    QMap.value_insert, if_true, QNode.toMap]

theorem storedProperties_find (env : Env) (properties : Props) (c : CheckedConnection)
    (k : String) (hk : k ≠ "shortcutNumber") :
    QMap.find (storedProperties env properties c) k = QMap.find c.newProperties k := by
  simp only [storedProperties]
  split_ifs <;> simp [QMap.find_insert, Ne.symm hk]

/-- Lookup in the stored map of an accepted configuration, for a key that is
written by none of the interface-specific branches. -/
theorem checked_find (env : Env) (s : State) (properties : Props) (c : CheckedConnection)
    (h : checkConnection env s properties = some c) (k : String)
    (h1 : k ≠ "driverId") (h2 : k ≠ "deviceModel") (h3 : k ≠ "serialPort")
    (h4 : k ≠ "indiDevice") (h5 : k ≠ "indiConnection")
    (h6 : k ≠ "name") (h7 : k ≠ "interface") (h8 : k ≠ "connectsAtStartup")
    (h9 : k ≠ "fovCircles") :
    ∃ np1 np2,
      remoteProperties s np1
        (properties.getD "isRemoteConnection" (QScalar.bool false)).toBool
        ((properties.getD "host" (QScalar.string "localhost")).toString env.qt)
        ((properties.get "tcpPort").toInt env.qt) = some (c.tcpPort, np2) ∧
      QMap.find np1 k = none ∧
      ∃ np3,
        equinoxProperties env properties np2 ((properties.get "interface").toString env.qt)
          = some np3 ∧
        QMap.find c.newProperties k = QMap.find np3 k := by
  obtain ⟨_, _, np1, np2, np3, hi, hr, he, _, hc⟩ := checkConnection_some env s properties c h
  refine ⟨np1, np2, hr, ?_, np3, he, ?_⟩
  · rw [interfaceProperties_find env _ _ _ _ _ _ _ hi k h1 h2 h3 h4 h5]
    simp [QMap.find_insert, Ne.symm h6, Ne.symm h7, QMap.find]
  · rw [hc, fovProperties_find _ _ _ _ h9, QMap.find_insert]
    simp [Ne.symm h8]

/-! ## Lemmas on the stages of addConnection -/

theorem remoteProperties_remote (s : State) (np np2 : Props) (host : String)
    (tcpPort tcpPort1 : Int)
    (h : remoteProperties s np true host tcpPort = some (tcpPort1, np2)) :
    host ≠ "" ∧
    tcpPort1 = (if isValidTcpPort (wrapUInt32 tcpPort) then tcpPort
      else (getFreeTcpPort s : Int)) ∧
    QMap.find np2 "tcpPort" = some (QVariant.ofInt tcpPort1) ∧
    QMap.find np2 "host" = some (QVariant.ofString host) ∧
    QMap.find np2 "isRemoteConnection" = some (QVariant.ofBool true) := by
  simp only [remoteProperties, if_true] at h
  by_cases h1 : host = ""
  · simp [h1] at h
  · simp only [h1, if_false, Option.some.injEq, Prod.mk.injEq] at h
    obtain ⟨ht, hnp⟩ := h
    subst hnp
    subst ht
    refine ⟨h1, ?_, ?_, ?_, ?_⟩
    · by_cases hv : isValidTcpPort (wrapUInt32 tcpPort) = true <;> simp [hv]
    · simp [QMap.find_insert]
    · simp [QMap.find_insert]
    · simp [QMap.find_insert]

theorem remoteProperties_local (s : State) (np np2 : Props) (host : String)
    (tcpPort tcpPort1 : Int)
    (h : remoteProperties s np false host tcpPort = some (tcpPort1, np2)) :
    tcpPort1 = tcpPort ∧
    QMap.find np2 "tcpPort" = QMap.find np "tcpPort" ∧
    QMap.find np2 "host" = QMap.find np "host" ∧
    QMap.find np2 "isRemoteConnection" = some (QVariant.ofBool false) := by
  simp only [remoteProperties, Bool.false_eq_true, if_false, Option.some.injEq,
    Prod.mk.injEq] at h
  obtain ⟨ht, hnp⟩ := h
  subst hnp
  exact ⟨ht.symm, by simp [QMap.find_insert], by simp [QMap.find_insert],
    by simp [QMap.find_insert]⟩

theorem equinoxProperties_virtual (env : Env) (properties np np3 : Props)
    (h : equinoxProperties env properties np "virtual" = some np3) : np3 = np := by
  simp only [equinoxProperties, ne_eq, not_true_eq_false, if_false, Option.some.injEq] at h
  exact h.symm

theorem equinoxProperties_other (env : Env) (properties np np3 : Props)
    (interfaceType : String) (hi : interfaceType ≠ "virtual")
    (h : equinoxProperties env properties np interfaceType = some np3) :
    ((properties.getD "equinox" (QScalar.string "J2000")).toString env.qt = "J2000" ∨
      (properties.getD "equinox" (QScalar.string "J2000")).toString env.qt = "JNow") ∧
    QMap.find np3 "equinox" =
      some (QVariant.ofString
        ((properties.getD "equinox" (QScalar.string "J2000")).toString env.qt)) ∧
    QMap.find np3 "delay" =
      some (QVariant.ofInt
        (if isValidDelay ((properties.get "delay").toInt env.qt) then
          (properties.get "delay").toInt env.qt
        else env.DEFAULT_DELAY)) := by
  simp only [equinoxProperties, ne_eq, hi, not_false_eq_true, if_true] at h
  generalize (properties.getD "equinox" (QScalar.string "J2000")).toString env.qt = eq at h ⊢
  generalize (properties.get "delay").toInt env.qt = d at h ⊢
  by_cases e1 : eq = "J2000"
  · simp only [e1, not_true_eq_false, decide_False, Bool.false_and, Bool.false_eq_true,
      if_false, Option.some.injEq] at h
    subst h
    refine ⟨Or.inl e1, by simp [QMap.find_insert, e1], ?_⟩
    by_cases hv : isValidDelay d = true <;> simp [QMap.find_insert, hv]
  · by_cases e2 : eq = "JNow"
    · simp only [e2, not_true_eq_false, decide_False, Bool.and_false, Bool.false_eq_true,
        if_false, Option.some.injEq] at h
      subst h
      refine ⟨Or.inr e2, by simp [QMap.find_insert, e2], ?_⟩
      by_cases hv : isValidDelay d = true <;> simp [QMap.find_insert, hv]
    · simp [e1, e2] at h

theorem equinoxProperties_rejects (env : Env) (properties np : Props)
    (interfaceType : String) (hi : interfaceType ≠ "virtual")
    (h1 : (properties.getD "equinox" (QScalar.string "J2000")).toString env.qt ≠ "J2000")
    (h2 : (properties.getD "equinox" (QScalar.string "J2000")).toString env.qt ≠ "JNow") :
    equinoxProperties env properties np interfaceType = none := by
  simp [equinoxProperties, hi, h1, h2]

/-- The TCP port, host and remote flag in the stored map of an accepted
configuration. -/
theorem stored_remote (env : Env) (s : State) (properties : Props) (c : CheckedConnection)
    (h : checkConnection env s properties = some c) :
    ((properties.getD "isRemoteConnection" (QScalar.bool false)).toBool = true →
      (properties.getD "host" (QScalar.string "localhost")).toString env.qt ≠ "" ∧
      c.tcpPort =
        (if isValidTcpPort (wrapUInt32 ((properties.get "tcpPort").toInt env.qt)) then
          (properties.get "tcpPort").toInt env.qt
        else (getFreeTcpPort s : Int)) ∧
      QMap.find (storedProperties env properties c) "tcpPort" =
        some (QVariant.ofInt c.tcpPort) ∧
      QMap.find (storedProperties env properties c) "host" =
        some (QVariant.ofString
          ((properties.getD "host" (QScalar.string "localhost")).toString env.qt))) ∧
    ((properties.getD "isRemoteConnection" (QScalar.bool false)).toBool = false →
      c.tcpPort = (properties.get "tcpPort").toInt env.qt ∧
      QMap.find (storedProperties env properties c) "tcpPort" = none ∧
      QMap.find (storedProperties env properties c) "host" = none) ∧
    QMap.find (storedProperties env properties c) "isRemoteConnection" =
      some (QVariant.ofBool
        (properties.getD "isRemoteConnection" (QScalar.bool false)).toBool) := by
  have key : ∀ k : String, k ≠ "driverId" → k ≠ "deviceModel" → k ≠ "serialPort" →
      k ≠ "indiDevice" → k ≠ "indiConnection" → k ≠ "name" → k ≠ "interface" →
      k ≠ "connectsAtStartup" → k ≠ "fovCircles" → k ≠ "shortcutNumber" →
      k ≠ "equinox" → k ≠ "delay" →
      ∃ np1 np2,
        remoteProperties s np1
          (properties.getD "isRemoteConnection" (QScalar.bool false)).toBool
          ((properties.getD "host" (QScalar.string "localhost")).toString env.qt)
          ((properties.get "tcpPort").toInt env.qt) = some (c.tcpPort, np2) ∧
        QMap.find np1 k = none ∧
        QMap.find (storedProperties env properties c) k = QMap.find np2 k := by
    intro k h1 h2 h3 h4 h5 h6 h7 h8 h9 h10 h11 h12
    obtain ⟨np1, np2, hr, hn, np3, he, hc⟩ :=
      checked_find env s properties c h k h1 h2 h3 h4 h5 h6 h7 h8 h9
    refine ⟨np1, np2, hr, hn, ?_⟩
    rw [storedProperties_find _ _ _ _ h10, hc, equinoxProperties_find _ _ _ _ _ he k h11 h12]
  obtain ⟨a1, a2, ar, an, ac⟩ := key "tcpPort" (by decide) (by decide) (by decide)
    (by decide) (by decide) (by decide) (by decide) (by decide) (by decide) (by decide)
    (by decide) (by decide)
  obtain ⟨b1, b2, br, bn, bc⟩ := key "host" (by decide) (by decide) (by decide)
    (by decide) (by decide) (by decide) (by decide) (by decide) (by decide) (by decide)
    (by decide) (by decide)
  obtain ⟨c1, c2, cr, cn, cc⟩ := key "isRemoteConnection" (by decide) (by decide)
    (by decide) (by decide) (by decide) (by decide) (by decide) (by decide) (by decide)
    (by decide) (by decide) (by decide)
  refine ⟨?_, ?_, ?_⟩
  · intro hrem
    rw [hrem] at ar br
    have ha := remoteProperties_remote _ _ _ _ _ _ ar
    have hb := remoteProperties_remote _ _ _ _ _ _ br
    exact ⟨ha.1, ha.2.1, by rw [ac]; exact ha.2.2.1, by rw [bc]; exact hb.2.2.2.1⟩
  · intro hrem
    rw [hrem] at ar br
    have ha := remoteProperties_local _ _ _ _ _ _ ar
    have hb := remoteProperties_local _ _ _ _ _ _ br
    exact ⟨ha.1, by rw [ac, ha.2.1]; exact an, by rw [bc, hb.2.2.1]; exact bn⟩
  · cases hrem : (properties.getD "isRemoteConnection" (QScalar.bool false)).toBool with
    | true =>
      rw [hrem] at cr
      rw [cc]
      exact (remoteProperties_remote _ _ _ _ _ _ cr).2.2.2.2
    | false =>
      rw [hrem] at cr
      rw [cc]
      exact (remoteProperties_local _ _ _ _ _ _ cr).2.2.2

theorem wrapInt32_range (n : Int) :
    -2147483648 ≤ wrapInt32 n ∧ wrapInt32 n < 2147483648 := by
  unfold wrapInt32
  omega

theorem QVariant.toInt_range (qt : QtConv) (v : QVariant) :
    -2147483648 ≤ v.toInt qt ∧ v.toInt qt < 2147483648 := by
  cases v with
  | list l => simp [QVariant.toInt]
  | scalar x =>
    cases x with
    | invalid => simp [QVariant.toInt, QScalar.toInt]
    | bool b => cases b <;> simp [QVariant.toInt, QScalar.toInt]
    | int n => exact wrapInt32_range n
    | double d => exact wrapInt32_range _
    | string x => exact wrapInt32_range _

theorem isValidTcpPort_wrapUInt32 (t : Int) (h1 : -2147483648 ≤ t) (h2 : t < 2147483648) :
    isValidTcpPort (wrapUInt32 t) = true ↔ 1024 ≤ t ∧ t ≤ 65535 := by
  unfold isValidTcpPort wrapUInt32
  simp only [decide_eq_true_eq]
  omega

theorem wrapUInt32_natCast (n : Nat) (h : n < 4294967296) : wrapUInt32 (n : Int) = n := by
  unfold wrapUInt32
  omega

theorem getFreeTcpPort_range (s : State) :
    (10001 ≤ getFreeTcpPort s ∧ getFreeTcpPort s ≤ 10009) ∨
    (49152 ≤ getFreeTcpPort s ∧ getFreeTcpPort s ≤ 65535) := by
  unfold getFreeTcpPort
  cases hlow : scanFreePort s.usedTcpPorts 10001 9 with
  | some r =>
    have hr := scanFreePort_some _ _ _ _ hlow
    dsimp only
    left; omega
  | none =>
    cases hhigh : scanFreePort s.usedTcpPorts 49152 16384 with
    | some r =>
      have hr := scanFreePort_some _ _ _ _ hhigh
      dsimp only
      right; omega
    | none => dsimp only; left; omega

theorem getFreeTcpPort_valid (s : State) :
    wrapUInt32 (getFreeTcpPort s : Int) = getFreeTcpPort s ∧
    isValidTcpPort (getFreeTcpPort s) = true := by
  have h := getFreeTcpPort_range s
  refine ⟨wrapUInt32_natCast _ (by omega), ?_⟩
  unfold isValidTcpPort
  simp only [decide_eq_true_eq]
  omega

theorem getFreeTcpPort_not_mem (s : State) (q : Nat)
    (hq : (10001 ≤ q ∧ q ≤ 10009) ∨ (49152 ≤ q ∧ q ≤ 65535))
    (hfree : q ∉ s.usedTcpPorts) : getFreeTcpPort s ∉ s.usedTcpPorts := by
  unfold getFreeTcpPort
  cases hlow : scanFreePort s.usedTcpPorts 10001 9 with
  | some r => exact (scanFreePort_some _ _ _ _ hlow).2.2.1
  | none =>
    have hl := scanFreePort_none _ _ _ hlow
    cases hhigh : scanFreePort s.usedTcpPorts 49152 16384 with
    | some r => exact (scanFreePort_some _ _ _ _ hhigh).2.2.1
    | none =>
      have hh := scanFreePort_none _ _ _ hhigh
      rcases hq with h | h
      · exact absurd (hl q h.1 (by omega)) hfree
      · exact absurd (hh q h.1 (by omega)) hfree

/-- The port of an accepted remote configuration is valid and is appended to
`usedTcpPorts`. -/
theorem remote_port_claimed (env : Env) (s : State) (properties : Props)
    (c : CheckedConnection) (h : checkConnection env s properties = some c)
    (hrem : (properties.getD "isRemoteConnection" (QScalar.bool false)).toBool = true) :
    isValidTcpPort (wrapUInt32 c.tcpPort) = true ∧
    (insertConnection env s properties c).usedTcpPorts =
      s.usedTcpPorts ++ [wrapUInt32 c.tcpPort] := by
  have hs := (stored_remote env s properties c h).1 hrem
  have hv : isValidTcpPort (wrapUInt32 c.tcpPort) = true := by
    rw [hs.2.1]
    by_cases hv : isValidTcpPort (wrapUInt32 ((properties.get "tcpPort").toInt env.qt)) = true
    · simp only [hv, if_true]
    · simp only [hv, Bool.false_eq_true, if_false]
      rw [(getFreeTcpPort_valid s).1]
      exact (getFreeTcpPort_valid s).2
  exact ⟨hv, by rw [insertConnection_usedTcpPorts]; simp [hv]⟩

theorem getConnection_insertConnection_ite (env : Env) (s : State) (properties : Props)
    (c : CheckedConnection) (id : String) :
    getConnection (insertConnection env s properties c) id =
      if id = "" then [] else if c.name = id then storedProperties env properties c
      else getConnection s id := by
  by_cases hid : id = ""
  · simp [getConnection, hid]
  · simp only [getConnection, hid, if_false, insertConnection_connectionsProperties,
      QMap.value_insert]
    split_ifs <;> rfl

theorem getFreeTcpPort_congr (s t : State) (h : s.usedTcpPorts = t.usedTcpPorts) :
    getFreeTcpPort s = getFreeTcpPort t := by
  unfold getFreeTcpPort
  rw [h]

/-- An accepted remote configuration: the stored port, and the pool after the
call. -/
theorem accepted_remote (env : Env) (s : State) (properties : Props)
    (hrem : (properties.getD "isRemoteConnection" (QScalar.bool false)).toBool = true)
    (hacc : (addConnection env s properties).1 = true) :
    ∃ port : Int,
      port =
        (if isValidTcpPort (wrapUInt32 ((properties.get "tcpPort").toInt env.qt)) then
          (properties.get "tcpPort").toInt env.qt
        else (getFreeTcpPort s : Int)) ∧
      QMap.find (getConnection (addConnection env s properties).2
        ((properties.get "name").toString env.qt)) "tcpPort" = some (QVariant.ofInt port) ∧
      isValidTcpPort (wrapUInt32 port) = true ∧
      (addConnection env s properties).2.usedTcpPorts = s.usedTcpPorts ++ [wrapUInt32 port] ∧
      (addConnection env s properties).2.connectionsProperties =
        QMap.insert s.connectionsProperties ((properties.get "name").toString env.qt)
          (QNode.map (getConnection (addConnection env s properties).2
            ((properties.get "name").toString env.qt))) := by
  obtain ⟨c, hc, hadd⟩ := addConnection_accepted env s properties hacc
  obtain ⟨hname, _, _, _, _, _, _, _, hcn, _⟩ := checkConnection_some env s properties c hc
  have hs := (stored_remote env s properties c hc).1 hrem
  have hp := remote_port_claimed env s properties c hc hrem
  rw [hadd]
  dsimp only
  have hg : getConnection (insertConnection env s properties c)
      ((properties.get "name").toString env.qt) = storedProperties env properties c := by
    rw [← hcn]
    exact getConnection_insertConnection env s properties c (by rw [hcn]; exact hname)
  refine ⟨c.tcpPort, hs.2.1, ?_, hp.1, hp.2, ?_⟩
  · rw [hg]; exact hs.2.2.1
  · rw [hg, insertConnection_connectionsProperties, hcn]

/-- Keys that `checkConnection` never writes are absent from `newProperties`;
keys written only by the remote, equinox or field-of-view block are found as
that block left them. -/
theorem checked_find_other (env : Env) (s : State) (properties : Props)
    (c : CheckedConnection) (h : checkConnection env s properties = some c) (k : String)
    (h1 : k ≠ "driverId") (h2 : k ≠ "deviceModel") (h3 : k ≠ "serialPort")
    (h4 : k ≠ "indiDevice") (h5 : k ≠ "indiConnection")
    (h6 : k ≠ "name") (h7 : k ≠ "interface") (h8 : k ≠ "connectsAtStartup")
    (h9 : k ≠ "fovCircles") (h10 : k ≠ "host") (h11 : k ≠ "tcpPort")
    (h12 : k ≠ "isRemoteConnection") (h13 : k ≠ "equinox") (h14 : k ≠ "delay") :
    QMap.find c.newProperties k = none := by
  obtain ⟨np1, np2, hr, hn, np3, he, hc⟩ :=
    checked_find env s properties c h k h1 h2 h3 h4 h5 h6 h7 h8 h9
  rw [hc, equinoxProperties_find _ _ _ _ _ he k h13 h14,
    remoteProperties_find _ _ _ _ _ _ _ hr k h10 h11 h12, hn]

theorem stored_shortcutNumber (env : Env) (s : State) (properties : Props)
    (c : CheckedConnection) (h : checkConnection env s properties = some c) :
    QMap.find (storedProperties env properties c) "shortcutNumber" =
      if (properties.get "shortcutNumber").toInt env.qt > 0 ∧
          (properties.get "shortcutNumber").toInt env.qt < 10 then
        some (QVariant.ofInt ((properties.get "shortcutNumber").toInt env.qt))
      else none := by
  have hn := checked_find_other env s properties c h "shortcutNumber" (by decide)
    (by decide) (by decide) (by decide) (by decide) (by decide) (by decide) (by decide)
    (by decide) (by decide) (by decide) (by decide) (by decide) (by decide)
  simp only [storedProperties]
  by_cases hr : (properties.get "shortcutNumber").toInt env.qt > 0 ∧
      (properties.get "shortcutNumber").toInt env.qt < 10
  · simp [hr, QMap.find_insert]
  · simp [hr, hn]

theorem stored_fovCircles (env : Env) (s : State) (properties : Props)
    (c : CheckedConnection) (h : checkConnection env s properties = some c) :
    ((storedProperties env properties c).get "fovCircles").toList =
      ((properties.get "fovCircles").toList.filterMap fun x => x.toDouble env.qt).map
        QScalar.double := by
  obtain ⟨_, _, np1, np2, np3, hi, hr, he, _, hc⟩ := checkConnection_some env s properties c h
  have hnone : QMap.find (QMap.insert np3 "connectsAtStartup"
      (QVariant.ofBool (properties.getD "connectsAtStartup" (QScalar.bool false)).toBool))
      "fovCircles" = none := by
    rw [QMap.find_insert, if_neg (by decide),
      equinoxProperties_find _ _ _ _ _ he _ (by decide) (by decide),
      remoteProperties_find _ _ _ _ _ _ _ hr _ (by decide) (by decide) (by decide),
      interfaceProperties_find _ _ _ _ _ _ _ _ hi _ (by decide) (by decide) (by decide)
        (by decide) (by decide)]
    simp [QMap.find_insert, QMap.find]
  have hf : QMap.find (storedProperties env properties c) "fovCircles" =
      QMap.find c.newProperties "fovCircles" :=
    storedProperties_find env properties c _ (by decide)
  rw [hc] at hf
  simp only [fovProperties] at hf
  generalize (properties.get "fovCircles").toList = given at hf ⊢
  cases hg : given with
  | nil =>
    rw [hg] at hf
    simp only [List.isEmpty_nil, Bool.not_true, Bool.false_eq_true, if_false] at hf
    rw [hnone] at hf
    rw [Props.get_of_find_none _ _ hf]
    rfl
  | cons a l =>
    rw [hg] at hf
    simp only [List.isEmpty_cons, Bool.not_false, if_true] at hf
    cases hfm : (a :: l).filterMap (fun x => x.toDouble env.qt) with
    | nil =>
      rw [hfm] at hf
      simp only [List.isEmpty_nil, Bool.not_true, Bool.false_eq_true, if_false] at hf
      rw [hnone] at hf
      rw [Props.get_of_find_none _ _ hf]
      rfl
    | cons d ds =>
      rw [hfm] at hf
      simp only [List.isEmpty_cons, Bool.not_false, if_true, QMap.find_insert] at hf
      rw [Props.get_of_find _ _ _ hf]
      rfl

theorem stored_equinox (env : Env) (s : State) (properties : Props)
    (c : CheckedConnection) (h : checkConnection env s properties = some c) :
    ((properties.get "interface").toString env.qt ≠ "virtual" →
      ((properties.getD "equinox" (QScalar.string "J2000")).toString env.qt = "J2000" ∨
        (properties.getD "equinox" (QScalar.string "J2000")).toString env.qt = "JNow") ∧
      QMap.find (storedProperties env properties c) "equinox" =
        some (QVariant.ofString
          ((properties.getD "equinox" (QScalar.string "J2000")).toString env.qt)) ∧
      QMap.find (storedProperties env properties c) "delay" =
        some (QVariant.ofInt
          (if isValidDelay ((properties.get "delay").toInt env.qt) then
            (properties.get "delay").toInt env.qt
          else env.DEFAULT_DELAY))) ∧
    ((properties.get "interface").toString env.qt = "virtual" →
      QMap.find (storedProperties env properties c) "equinox" = none ∧
      QMap.find (storedProperties env properties c) "delay" = none) := by
  have key : ∀ k : String, k ≠ "driverId" → k ≠ "deviceModel" → k ≠ "serialPort" →
      k ≠ "indiDevice" → k ≠ "indiConnection" → k ≠ "name" → k ≠ "interface" →
      k ≠ "connectsAtStartup" → k ≠ "fovCircles" → k ≠ "shortcutNumber" →
      k ≠ "host" → k ≠ "tcpPort" → k ≠ "isRemoteConnection" →
      ∃ np2 np3,
        equinoxProperties env properties np2 ((properties.get "interface").toString env.qt)
          = some np3 ∧
        QMap.find np2 k = none ∧
        QMap.find (storedProperties env properties c) k = QMap.find np3 k := by
    intro k h1 h2 h3 h4 h5 h6 h7 h8 h9 h10 h11 h12 h13
    obtain ⟨np1, np2, hr, hn, np3, he, hc⟩ :=
      checked_find env s properties c h k h1 h2 h3 h4 h5 h6 h7 h8 h9
    refine ⟨np2, np3, he, ?_, ?_⟩
    · rw [remoteProperties_find _ _ _ _ _ _ _ hr k h11 h12 h13, hn]
    · rw [storedProperties_find _ _ _ _ h10, hc]
  obtain ⟨a2, a3, ae, an, ac⟩ := key "equinox" (by decide) (by decide) (by decide)
    (by decide) (by decide) (by decide) (by decide) (by decide) (by decide) (by decide)
    (by decide) (by decide) (by decide)
  obtain ⟨b2, b3, be, bn, bc⟩ := key "delay" (by decide) (by decide) (by decide)
    (by decide) (by decide) (by decide) (by decide) (by decide) (by decide) (by decide)
    (by decide) (by decide) (by decide)
  constructor
  · intro hi
    have ha := equinoxProperties_other env properties a2 a3 _ hi ae
    have hb := equinoxProperties_other env properties b2 b3 _ hi be
    exact ⟨ha.1, by rw [ac]; exact ha.2.1, by rw [bc]; exact hb.2.2⟩
  · intro hi
    rw [hi] at ae be
    have ha := equinoxProperties_virtual env properties a2 a3 ae
    have hb := equinoxProperties_virtual env properties b2 b3 be
    exact ⟨by rw [ac, ha]; exact an, by rw [bc, hb]; exact bn⟩

/-! ## Lemmas on acceptance -/

theorem Props.getD_insert (p : Props) (k k' : String) (v : QVariant) (d : QScalar) :
    Props.getD (QMap.insert p k v) k' d = if k = k' then v else Props.getD p k' d := by
  unfold Props.getD
  exact QMap.value_insert _ _ _ _ _

theorem interfaceProperties_congr (env : Env) (p p' np : Props) (interfaceType : String)
    (isRemote : Bool) (driver deviceModel : String)
    (h1 : p'.get "serialPort" = p.get "serialPort")
    (h2 : p'.get "indiDevice" = p.get "indiDevice")
    (h3 : p'.get "indiConnection" = p.get "indiConnection") :
    interfaceProperties env p' np interfaceType isRemote driver deviceModel =
      interfaceProperties env p np interfaceType isRemote driver deviceModel := by
  simp only [interfaceProperties, h1, h2, h3]

theorem fovProperties_congr (env : Env) (p p' np : Props)
    (h : p'.get "fovCircles" = p.get "fovCircles") :
    fovProperties env p' np = fovProperties env p np := by
  simp only [fovProperties, h]

/-- A key that `checkConnection` reads only in the equinox block does not
influence the result for the virtual interface. -/
theorem checkConnection_virtual_insert (env : Env) (s : State) (p : Props) (k : String)
    (v : QVariant) (hk : k = "equinox" ∨ k = "delay")
    (hi : (p.get "interface").toString env.qt = "virtual") :
    checkConnection env s (QMap.insert p k v) = checkConnection env s p := by
  have hne : ∀ k' : String, k' ≠ "equinox" → k' ≠ "delay" → ¬ k = k' := by
    intro k' h1 h2 h
    rcases hk with rfl | rfl
    · exact h1 h.symm
    · exact h2 h.symm
  have g : ∀ k' : String, k' ≠ "equinox" → k' ≠ "delay" →
      Props.get (QMap.insert p k v) k' = p.get k' := by
    intro k' h1 h2
    rw [Props.get_insert, if_neg (hne k' h1 h2)]
  have gd : ∀ (k' : String) (d : QScalar), k' ≠ "equinox" → k' ≠ "delay" →
      Props.getD (QMap.insert p k v) k' d = p.getD k' d := by
    intro k' d h1 h2
    rw [Props.getD_insert, if_neg (hne k' h1 h2)]
  simp only [checkConnection]
  rw [g "name" (by decide) (by decide), g "interface" (by decide) (by decide),
    g "tcpPort" (by decide) (by decide), g "driverId" (by decide) (by decide),
    g "deviceModel" (by decide) (by decide),
    gd "isRemoteConnection" _ (by decide) (by decide),
    gd "host" _ (by decide) (by decide),
    gd "connectsAtStartup" _ (by decide) (by decide)]
  simp only [hi, equinoxProperties, ne_eq, not_true_eq_false, if_false]
  simp only [interfaceProperties_congr env p (QMap.insert p k v) _ _ _ _ _
      (g "serialPort" (by decide) (by decide)) (g "indiDevice" (by decide) (by decide))
      (g "indiConnection" (by decide) (by decide)),
    fovProperties_congr env p (QMap.insert p k v) _ (g "fovCircles" (by decide) (by decide))]

theorem insertConnection_congr (env : Env) (s : State) (p p' : Props)
    (c : CheckedConnection) (h : p'.get "shortcutNumber" = p.get "shortcutNumber") :
    insertConnection env s p' c = insertConnection env s p c := by
  simp only [insertConnection, h]

theorem addConnection_virtual_insert (env : Env) (s : State) (p : Props) (k : String)
    (v : QVariant) (hk : k = "equinox" ∨ k = "delay")
    (hi : (p.get "interface").toString env.qt = "virtual") :
    addConnection env s (QMap.insert p k v) = addConnection env s p := by
  unfold addConnection
  rw [checkConnection_virtual_insert env s p k v hk hi]
  cases checkConnection env s p with
  | none => rfl
  | some c =>
    dsimp only
    rw [insertConnection_congr]
    rw [Props.get_insert, if_neg]
    rcases hk with rfl | rfl <;> decide

/-- The checks that decide whether `addConnection` accepts a configuration. -/
theorem checkConnection_isSome (env : Env) (s : State) (p : Props) :
    (checkConnection env s p).isSome = true ↔
      ((p.get "name").toString env.qt ≠ "" ∧
        (((p.get "name").toString env.qt).data.contains backslash ||
          ((p.get "name").toString env.qt).data.contains doubleQuote) = false ∧
        QMap.contains s.connections ((p.get "name").toString env.qt) = false ∧
        interfaceTypeNames.contains ((p.get "interface").toString env.qt) = true ∧
        (interfaceProperties env p [] ((p.get "interface").toString env.qt)
          (p.getD "isRemoteConnection" (QScalar.bool false)).toBool
          ((p.get "driverId").toString env.qt)
          ((p.get "deviceModel").toString env.qt)).isSome = true ∧
        ((p.getD "isRemoteConnection" (QScalar.bool false)).toBool = true →
          (p.getD "host" (QScalar.string "localhost")).toString env.qt ≠ "") ∧
        (equinoxProperties env p [] ((p.get "interface").toString env.qt)).isSome = true) := by
  simp only [checkConnection]
  by_cases h1 : (p.get "name").toString env.qt = ""
  · simp [h1]
  by_cases h2 : (((p.get "name").toString env.qt).data.contains backslash ||
      ((p.get "name").toString env.qt).data.contains doubleQuote) = true
  · simp only [h1, h2, if_false, if_true]
    simp
  by_cases h3 : QMap.contains s.connections ((p.get "name").toString env.qt) = true
  · simp only [h1, h2, h3, if_false, if_true]
    simp
  by_cases h4 : interfaceTypeNames.contains ((p.get "interface").toString env.qt) = true
  swap
  · simp only [h1, h2, h3, h4, if_false, Bool.not_false, if_true]
    simp
  simp only [h1, h2, h3, h4, if_false, Bool.not_true, Bool.false_eq_true, ne_eq,
    not_false_eq_true, true_and]
  have h2' : (((p.get "name").toString env.qt).data.contains backslash ||
      ((p.get "name").toString env.qt).data.contains doubleQuote) = false := by
    simpa using h2
  have h3' : QMap.contains s.connections ((p.get "name").toString env.qt) = false := by
    simpa using h3
  rw [interfaceProperties_isSome env p [] (QMap.insert (QMap.insert [] "name"
      (QVariant.ofString ((p.get "name").toString env.qt)))
      "interface" (QVariant.ofString ((p.get "interface").toString env.qt)))]
  cases hi : interfaceProperties env p
      (QMap.insert (QMap.insert [] "name"
        (QVariant.ofString ((p.get "name").toString env.qt)))
        "interface" (QVariant.ofString ((p.get "interface").toString env.qt)))
      ((p.get "interface").toString env.qt)
      (p.getD "isRemoteConnection" (QScalar.bool false)).toBool
      ((p.get "driverId").toString env.qt)
      ((p.get "deviceModel").toString env.qt) with
  | none => simp
  | some np1 =>
    dsimp only
    have hr := remoteProperties_isSome s np1
      (p.getD "isRemoteConnection" (QScalar.bool false)).toBool
      ((p.getD "host" (QScalar.string "localhost")).toString env.qt)
      ((p.get "tcpPort").toInt env.qt)
    cases hrp : remoteProperties s np1
        (p.getD "isRemoteConnection" (QScalar.bool false)).toBool
        ((p.getD "host" (QScalar.string "localhost")).toString env.qt)
        ((p.get "tcpPort").toInt env.qt) with
    | none =>
      rw [hrp] at hr
      simp only [Option.isSome_none] at hr
      have hr' := hr.symm
      simp only [Bool.or_eq_false_iff, Bool.not_eq_false', decide_eq_false_iff_not, ne_eq,
        not_not] at hr'
      simp [hr'.1, hr'.2]
    | some r =>
      obtain ⟨t1, np2⟩ := r
      rw [hrp] at hr
      simp only [Option.isSome_some] at hr
      have hr' := hr.symm
      simp only [Bool.or_eq_true, Bool.not_eq_true', decide_eq_true_eq, ne_eq] at hr'
      dsimp only
      rw [equinoxProperties_isSome env p [] np2]
      have himp : ((p.getD "isRemoteConnection" (QScalar.bool false)).toBool = true →
          ¬ (p.getD "host" (QScalar.string "localhost")).toString env.qt = "") := by
        intro ht
        rcases hr' with h | h
        · rw [h] at ht; exact absurd ht (by decide)
        · exact h
      cases he : equinoxProperties env p np2 ((p.get "interface").toString env.qt) with
      | none => simp
      | some np3 =>
        simp only [Option.isSome_some, true_and, and_true]
        exact ⟨fun _ => himp, fun _ => trivial⟩

theorem equinoxProperties_isSome_iff (env : Env) (p np : Props) (interfaceType : String)
    (hi : interfaceType ≠ "virtual") :
    (equinoxProperties env p np interfaceType).isSome = true ↔
      ((p.getD "equinox" (QScalar.string "J2000")).toString env.qt = "J2000" ∨
        (p.getD "equinox" (QScalar.string "J2000")).toString env.qt = "JNow") := by
  constructor
  · intro h
    cases he : equinoxProperties env p np interfaceType with
    | none => rw [he] at h; simp at h
    | some np3 => exact (equinoxProperties_other env p np np3 _ hi he).1
  · intro h
    cases he : equinoxProperties env p np interfaceType with
    | some np3 => rfl
    | none =>
      simp only [equinoxProperties, ne_eq, hi, not_false_eq_true, if_true] at he
      rcases h with h | h <;> simp [h] at he

/-- For an interface other than the virtual one, a configuration is accepted
exactly when it is accepted with the equinox "J2000" in place of its own and
its own equinox is "J2000" or "JNow". -/
theorem addConnection_equinox_iff (env : Env) (s : State) (p : Props)
    (hi : (p.get "interface").toString env.qt ≠ "virtual") :
    (addConnection env s p).1 = true ↔
      ((addConnection env s (QMap.insert p "equinox" (QVariant.ofString "J2000"))).1 = true ∧
        ((p.getD "equinox" (QScalar.string "J2000")).toString env.qt = "J2000" ∨
          (p.getD "equinox" (QScalar.string "J2000")).toString env.qt = "JNow")) := by
  have g : ∀ k' : String, k' ≠ "equinox" →
      Props.get (QMap.insert p "equinox" (QVariant.ofString "J2000")) k' = p.get k' := by
    intro k' h1
    rw [Props.get_insert, if_neg (Ne.symm h1)]
  have gd : ∀ (k' : String) (d : QScalar), k' ≠ "equinox" →
      Props.getD (QMap.insert p "equinox" (QVariant.ofString "J2000")) k' d = p.getD k' d := by
    intro k' d h1
    rw [Props.getD_insert, if_neg (Ne.symm h1)]
  rw [addConnection_fst, addConnection_fst, checkConnection_isSome, checkConnection_isSome]
  rw [g "name" (by decide), g "interface" (by decide), g "driverId" (by decide),
    g "deviceModel" (by decide), gd "isRemoteConnection" _ (by decide),
    gd "host" _ (by decide),
    interfaceProperties_congr env p (QMap.insert p "equinox" (QVariant.ofString "J2000")) _ _
      _ _ _ (g "serialPort" (by decide)) (g "indiDevice" (by decide))
      (g "indiConnection" (by decide)),
    equinoxProperties_isSome_iff env p [] _ hi,
    equinoxProperties_isSome_iff env (QMap.insert p "equinox" (QVariant.ofString "J2000"))
      [] _ hi]
  have hj : (Props.getD (QMap.insert p "equinox" (QVariant.ofString "J2000")) "equinox"
      (QScalar.string "J2000")).toString env.qt = "J2000" := by
    rw [Props.getD_insert, if_pos rfl]
    rfl
  rw [hj]
  simp only [true_or, and_true]
  tauto

theorem QMap.mem_keys_iff_contains {K V : Type} [DecidableEq K] (m : QMap K V) (k : K) :
    k ∈ QMap.keys m ↔ QMap.contains m k = true := by
  induction m with
  | nil => simp [QMap.keys, QMap.contains]
  | cons e rest ih =>
    obtain ⟨k0, v0⟩ := e
    unfold QMap.keys at ih ⊢
    by_cases h : k0 = k
    · simp [QMap.contains, h]
    · simp only [List.map_cons, List.mem_cons, QMap.contains, h, if_false, ← ih]
      constructor
      · rintro (h' | h')
        · exact absurd h'.symm h
        · exact h'
      · exact Or.inr

theorem QMap.keys_insert_nodup {K V : Type} [QMapKey K] [DecidableEq K] (m : QMap K V)
    (k : K) (v : V) (hk : QMap.contains m k = false) (hn : (QMap.keys m).Nodup) :
    (QMap.keys (QMap.insert m k v)).Nodup := by
  induction m with
  | nil => simp [QMap.insert, QMap.keys]
  | cons e rest ih =>
    obtain ⟨k0, v0⟩ := e
    have hk0 : ¬ k0 = k := by
      intro h
      simp [QMap.contains, h] at hk
    have hrest : QMap.contains rest k = false := by
      simpa [QMap.contains, hk0] using hk
    have hn' : k0 ∉ QMap.keys rest ∧ (QMap.keys rest).Nodup := by
      simpa [QMap.keys] using hn
    simp only [QMap.insert]
    by_cases h1 : QMapKey.keyLt k k0 = true
    · simp only [h1, if_true]
      have hmem : k ∉ QMap.keys ((k0, v0) :: rest) := by
        rw [QMap.mem_keys_iff_contains, hk]
        exact Bool.false_ne_true
      have : QMap.keys ((k, v) :: (k0, v0) :: rest) = k :: QMap.keys ((k0, v0) :: rest) := rfl
      rw [this]
      exact List.nodup_cons.mpr ⟨hmem, hn⟩
    · simp only [h1, Bool.false_eq_true, if_false, if_neg (Ne.symm hk0)]
      have : QMap.keys ((k0, v0) :: QMap.insert rest k v) =
          k0 :: QMap.keys (QMap.insert rest k v) := rfl
      rw [this]
      refine List.nodup_cons.mpr ⟨?_, ih hrest hn'.2⟩
      rw [QMap.mem_keys_iff_contains, QMap.contains_eq_isSome_find, QMap.find_insert,
        if_neg (Ne.symm hk0), ← QMap.contains_eq_isSome_find, ← QMap.mem_keys_iff_contains]
      exact hn'.1

/-! ## Lemmas on the claimed ports -/

theorem QMap.countP_insert_le {K V : Type} [QMapKey K] [DecidableEq K] (m : QMap K V)
    (k : K) (v : V) (P : K × V → Bool) :
    (QMap.insert m k v).countP P ≤ m.countP P + (if P (k, v) = true then 1 else 0) := by
  induction m with
  | nil => simp [QMap.insert, List.countP_cons]
  | cons e rest ih =>
    obtain ⟨k0, v0⟩ := e
    simp only [QMap.insert]
    by_cases h1 : QMapKey.keyLt k k0 = true
    · simp only [h1, if_true]
      rw [List.countP_cons (l := (k0, v0) :: rest)]
    · simp only [h1, Bool.false_eq_true, if_false]
      by_cases h2 : k = k0
      · simp only [h2, if_true, List.countP_cons]
        omega
      · simp only [h2, if_false, List.countP_cons]
        omega

theorem QMap.countP_remove_le {K V : Type} [DecidableEq K] (m : QMap K V)
    (k : K) (P : K × V → Bool) :
    (QMap.remove m k).countP P ≤ m.countP P := by
  induction m with
  | nil => simp [QMap.remove]
  | cons e rest ih =>
    obtain ⟨k0, v0⟩ := e
    simp only [QMap.remove]
    by_cases h : k0 = k
    · simp only [h, if_true, List.countP_cons]
      have := ih
      omega
    · simp only [h, if_false, List.countP_cons]
      omega

theorem QMap.countP_remove_lt {K V : Type} [DecidableEq K] (m : QMap K V)
    (k : K) (v : V) (f : V → Bool) (hfind : QMap.find m k = some v) (hv : f v = true) :
    (QMap.remove m k).countP (fun e => f e.2) + 1 ≤ m.countP (fun e => f e.2) := by
  induction m with
  | nil => simp [QMap.find] at hfind
  | cons e rest ih =>
    obtain ⟨k0, v0⟩ := e
    simp only [QMap.remove]
    by_cases h : k0 = k
    · simp only [QMap.find, h, if_true, Option.some.injEq] at hfind
      subst hfind
      simp only [h, if_true, List.countP_cons, hv]
      have := QMap.countP_remove_le rest k (fun e => f e.2)
      omega
    · simp only [QMap.find, h, if_false] at hfind
      simp only [h, if_false, List.countP_cons]
      have := ih hfind
      omega

theorem QMap.find_mem {K V : Type} [DecidableEq K] (m : QMap K V) (k : K) (v : V)
    (h : QMap.find m k = some v) : (k, v) ∈ m := by
  induction m with
  | nil => simp [QMap.find] at h
  | cons e rest ih =>
    obtain ⟨k0, v0⟩ := e
    by_cases hk : k0 = k
    · simp only [QMap.find, hk, if_true, Option.some.injEq] at h
      simp [hk, h]
    · simp only [QMap.find, hk, if_false] at h
      exact List.mem_cons_of_mem _ (ih h)

theorem portsCovered_addConnection (env : Env) (s : State) (properties : Props)
    (h : portsCovered env.qt s) : portsCovered env.qt (addConnection env s properties).2 := by
  cases hc : checkConnection env s properties with
  | none => simpa [addConnection, hc] using h
  | some c =>
    rw [addConnection_of_check env s properties c hc]
    intro p hp
    dsimp only
    rw [insertConnection_connectionsProperties, insertConnection_usedTcpPorts]
    have hle := QMap.countP_insert_le s.connectionsProperties c.name
      (QNode.map (storedProperties env properties c))
      (fun entry => decide (storedPort env.qt entry.2 = p))
    have hinv := h p hp
    unfold storedPortCount at hinv ⊢
    have hst := stored_remote env s properties c hc
    cases hrem : (properties.getD "isRemoteConnection" (QScalar.bool false)).toBool with
    | true =>
      have hs := hst.1 hrem
      have hv := (remote_port_claimed env s properties c hc hrem).1
      have hport : storedPort env.qt (QNode.map (storedProperties env properties c))
          = wrapUInt32 c.tcpPort := by
        unfold storedPort
        rw [QNode.toMap, Props.get_of_find _ _ _ hs.2.2.1]
        rfl
      rw [hport] at hle
      rw [if_pos hv, List.count_append]
      by_cases hpe : wrapUInt32 c.tcpPort = p
      · simp only [hpe, decide_True, if_true] at hle
        simp only [hpe, List.count_singleton_self]
        omega
      · simp only [hpe, decide_False, Bool.false_eq_true, if_false] at hle
        omega
    | false =>
      have hs := hst.2.1 hrem
      have hport : storedPort env.qt (QNode.map (storedProperties env properties c)) = 0 := by
        unfold storedPort
        rw [QNode.toMap, Props.get_of_find_none _ _ hs.2.1]
        rfl
      rw [hport] at hle
      have hpe : ¬ 0 = p := by omega
      simp only [hpe, decide_False, Bool.false_eq_true, if_false] at hle
      split_ifs
      · rw [List.count_append]
        omega
      · omega

theorem portsCovered_removeConnection (env : Env) (s : State) (id : String)
    (h : portsCovered env.qt s) : portsCovered env.qt (removeConnection env s id).2 := by
  by_cases hid : id = ""
  · simpa [removeConnection, hid] using h
  · intro p hp
    simp only [removeConnection, hid, if_false, getConnection]
    have hinv := h p hp
    unfold storedPortCount at hinv ⊢
    have hle := QMap.countP_remove_le s.connectionsProperties id
      (fun entry => decide (storedPort env.qt entry.2 = p))
    cases hf : QMap.find s.connectionsProperties id with
    | none =>
      have hq : ((QMap.value s.connectionsProperties id
          (QNode.value (QVariant.scalar QScalar.invalid))).toMap.get "tcpPort").toUInt env.qt
          = 0 := by
        simp only [QMap.value, hf]
        rfl
      rw [hq]
      simp only [Nat.lt_irrefl, if_false]
      omega
    | some node =>
      have hq : ((QMap.value s.connectionsProperties id
          (QNode.value (QVariant.scalar QScalar.invalid))).toMap.get "tcpPort").toUInt env.qt
          = storedPort env.qt node := by
        simp only [QMap.value, hf]
        rfl
      rw [hq]
      by_cases hqp : storedPort env.qt node = p
      · have hlt := QMap.countP_remove_lt s.connectionsProperties id node
          (fun v => decide (storedPort env.qt v = p)) hf (by simpa using hqp)
        beta_reduce at hlt
        rw [hqp, if_pos hp, List.count_erase_self]
        omega
      · split_ifs
        · rw [List.count_erase_of_ne (Ne.symm hqp)]
          omega
        · omega

theorem portsCovered_removeAllConnections (qt : QtConv) (s : State) :
    portsCovered qt (removeAllConnections s) := by
  intro p _
  simp [removeAllConnections, storedPortCount]

theorem portsCovered_run (env : Env) (ops : List RegistryOp) :
    portsCovered env.qt (runRegistryOps env ops) := by
  unfold runRegistryOps
  have init : portsCovered env.qt State.initial := by
    intro p _
    simp [State.initial, storedPortCount]
  generalize State.initial = s at init
  induction ops generalizing s with
  | nil => exact init
  | cons op rest ih =>
    rw [List.foldl_cons]
    apply ih
    cases op with
    | addConnection properties => exact portsCovered_addConnection env s properties init
    | removeConnection id => exact portsCovered_removeConnection env s id init
    | removeAllConnections => exact portsCovered_removeAllConnections env.qt s

/-! ## Lemmas on startConnection -/

theorem SameClients.refl (s : State) : SameClients s s := ⟨rfl, rfl, rfl, rfl, rfl⟩

theorem SameClients.trans {s t u : State} (h1 : SameClients s t) (h2 : SameClients t u) :
    SameClients s u :=
  ⟨h2.1.trans h1.1, h2.2.trans h1.2, h2.3.trans h1.3, h2.4.trans h1.4, h2.5.trans h1.5⟩

theorem addLogForClient_same (env : Env) (w : World) (s : State) (id : String) :
    SameClients s (addLogForClient env w s id) := by
  simp only [addLogForClient]
  split_ifs <;> exact ⟨rfl, rfl, rfl, rfl, rfl⟩

theorem setCurrentLog_same (s : State) (id : String) : SameClients s (setCurrentLog s id) := by
  unfold setCurrentLog
  split_ifs <;> exact ⟨rfl, rfl, rfl, rfl, rfl⟩

theorem removeLogForClient_same (s : State) (id : String) :
    SameClients s (removeLogForClient s id) := by
  unfold removeLogForClient
  split_ifs <;> exact ⟨rfl, rfl, rfl, rfl, rfl⟩

theorem startClient_of_live (env : Env) (w : World) (s : State) (id : String)
    (properties : Props) (h : QMap.contains s.connections id = true) :
    startClient env w s id properties = (false, s) := by
  unfold startClient
  split_ifs <;> rfl

/-- The state in which `startConnection` calls `startClient`. -/
theorem startConnection_eq (env : Env) (w : World) (s : State) (id : String)
    (hid : id ≠ "") (hp : (getConnection s id).isEmpty = false) :
    ∃ s1, SameClients s s1 ∧
      ((startClient env w s1 id (getConnection s id)).1 = true →
        startConnection env w s id = (true, (startClient env w s1 id (getConnection s id)).2)) ∧
      ((startClient env w s1 id (getConnection s id)).1 = false →
        (startConnection env w s id).1 = false ∧
        SameClients (startClient env w s1 id (getConnection s id)).2
          (startConnection env w s id).2) := by
  simp only [startConnection, hid, if_false, hp, Bool.false_eq_true]
  refine ⟨if (!((getConnection s id).get "isRemoteConnection").toBool) = true then
      setCurrentLog (addLogForClient env w s id) id else s, ?_, ?_, ?_⟩
  · split_ifs
    · exact (addLogForClient_same env w s id).trans (setCurrentLog_same _ id)
    · exact SameClients.refl s
  · intro h
    generalize startClient env w _ id (getConnection s id) = r at h ⊢
    obtain ⟨b, t⟩ := r
    simp only at h
    subst h
    rfl
  · intro h
    generalize startClient env w _ id (getConnection s id) = r at h ⊢
    obtain ⟨b, t⟩ := r
    simp only at h
    subst h
    dsimp only
    split_ifs
    · exact ⟨rfl, removeLogForClient_same t id⟩
    · exact ⟨rfl, SameClients.refl t⟩

theorem startConnection_of_live (env : Env) (w : World) (s : State) (id : String)
    (h : QMap.contains s.connections id = true) :
    (startConnection env w s id).1 = false ∧ SameClients s (startConnection env w s id).2 := by
  by_cases hid : id = ""
  · simp only [startConnection, hid, if_true]
    exact ⟨trivial, SameClients.refl s⟩
  · cases hp : (getConnection s id).isEmpty with
    | true =>
      simp only [startConnection, hid, if_false, hp, if_true]
      exact ⟨trivial, SameClients.refl s⟩
    | false =>
      obtain ⟨s1, h1, _, h3⟩ := startConnection_eq env w s id hid hp
      have hl : QMap.contains s1.connections id = true := by rw [h1.connections]; exact h
      have hs := startClient_of_live env w s1 id (getConnection s id) hl
      have h4 := h3 (by rw [hs])
      rw [hs] at h4
      exact ⟨h4.1, h1.trans h4.2⟩

theorem constructClient_returned (env : Env) (w : World) (s s1 : State) (p : Props)
    (name interfaceType : String) (isRemote : Bool) (delay : Int) (equinox : Equinox)
    (r : Bool)
    (h : constructClient env w s p name interfaceType isRemote delay equinox
      = Construction.returned r s1) :
    (r = true → interfaceType = "INDI" ∧ isRemote = true ∧
      s1 = { s with events := s.events ++
        [Event.openConnection name
          ((p.getD "host" (QScalar.string "localhost")).toString env.qt)
          ((p.get "tcpPort").toUInt env.qt % 65536)] }) ∧
    (r = false → s1 = { s with events := s1.events }) := by
  simp only [constructClient] at h
  split_ifs at h <;>
    simp only [Construction.returned.injEq, reduceCtorEq] at h <;>
    (obtain ⟨hr, hs⟩ := h
     subst hr
     subst hs
     simp_all)

theorem constructClient_constructed (env : Env) (w : World) (s s1 : State) (p : Props)
    (name interfaceType : String) (isRemote : Bool) (delay : Int) (equinox : Equinox)
    (nt : Option TelescopeClient)
    (h : constructClient env w s p name interfaceType isRemote delay equinox
      = Construction.constructed nt s1) :
    (interfaceType ≠ "INDI" → s1 = s) ∧
    (interfaceType = "INDI" → isRemote = false ∧
      s1 = { s with events := s.events ++
        [Event.startDriver ((p.get "driverId").toString env.qt) name] }) := by
  simp only [constructClient] at h
  split_ifs at h <;>
    simp only [Construction.constructed.injEq, reduceCtorEq] at h <;>
    (obtain ⟨hr, hs⟩ := h
     subst hr
     subst hs
     simp_all)

theorem registerClient_false (env : Env) (w : World) (s : State) (id : String)
    (p : Props) (interfaceType : String) (nt : Option TelescopeClient)
    (h : (registerClient env w s id p interfaceType nt).1 = false) :
    (registerClient env w s id p interfaceType nt).2 = s := by
  simp only [registerClient] at h ⊢
  cases nt with
  | none => rfl
  | some c =>
    by_cases hi : w.isInitialized c = true
    · simp [hi] at h
    · simp [hi]

theorem registerClient_uninitialized (env : Env) (w : World) (s : State) (id : String)
    (p : Props) (interfaceType : String) (nt : Option TelescopeClient)
    (h : ∀ c, w.isInitialized c = false) :
    registerClient env w s id p interfaceType nt = (false, s) := by
  simp only [registerClient]
  cases nt with
  | none => rfl
  | some c => simp [h c]

theorem registerClient_true (env : Env) (w : World) (s : State) (id : String)
    (p : Props) (interfaceType : String) (nt : Option TelescopeClient)
    (h : (registerClient env w s id p interfaceType nt).1 = true) :
    ∃ c1 : TelescopeClient,
      (registerClient env w s id p interfaceType nt).2.connectionsProperties =
        s.connectionsProperties ∧
      (registerClient env w s id p interfaceType nt).2.connections =
        (if interfaceType ≠ "INDI Pointer" then QMap.insert s.connections id c1
          else s.connections) ∧
      (interfaceType ≠ "INDI" →
        (registerClient env w s id p interfaceType nt).2.telescopes =
          QMap.insert s.telescopes id c1 ∧
        (registerClient env w s id p interfaceType nt).2.indiDevices = s.indiDevices ∧
        (registerClient env w s id p interfaceType nt).2.events =
          s.events ++ [Event.clientConnected id]) ∧
      (interfaceType = "INDI" →
        (registerClient env w s id p interfaceType nt).2.indiDevices =
          QMap.insert s.indiDevices id c1 ∧
        (registerClient env w s id p interfaceType nt).2.telescopes = s.telescopes ∧
        (registerClient env w s id p interfaceType nt).2.events = s.events) := by
  simp only [registerClient] at h ⊢
  cases nt with
  | none => simp at h
  | some c =>
    by_cases hi : w.isInitialized c = true
    swap
    · simp [hi] at h
    simp only [hi, Bool.not_true, Bool.false_eq_true, if_false]
    refine ⟨(if (!(p.get "fovCircles").toList.isEmpty &&
        decide ((p.get "fovCircles").toList.length ≤ env.MAX_CIRCLE_COUNT)) = true then
        { c with
          fovCircles :=
            c.fovCircles ++ (p.get "fovCircles").toList.map
              fun x => (x.toDouble env.qt).getD ⟨0, 0⟩ }
      else c), ?_, ?_, ?_, ?_⟩
    · by_cases h1 : interfaceType = "INDI Pointer" <;>
        by_cases h2 : interfaceType = "INDI" <;> simp [h1, h2]
    · by_cases h1 : interfaceType = "INDI Pointer" <;>
        by_cases h2 : interfaceType = "INDI" <;> simp [h1, h2]
    · intro h2
      by_cases h1 : interfaceType = "INDI Pointer" <;> simp [h1, h2]
    · intro h2
      subst h2
      simp

/-- What a successful `startClient` did: either it opened a remote INDI
connection and registered nothing, or it registered a client. -/
theorem startClient_true (env : Env) (w : World) (s : State) (id : String) (p : Props)
    (h : (startClient env w s id p).1 = true) :
    ((p.get "interface").toString env.qt = "INDI" ∧
      (p.getD "isRemoteConnection" (QScalar.bool false)).toBool = true ∧
      (startClient env w s id p).2 =
        { s with events := s.events ++
          [Event.openConnection ((p.get "name").toString env.qt)
            ((p.getD "host" (QScalar.string "localhost")).toString env.qt)
            ((p.get "tcpPort").toUInt env.qt % 65536)] }) ∨
    (¬ ((p.get "interface").toString env.qt = "INDI" ∧
        (p.getD "isRemoteConnection" (QScalar.bool false)).toBool = true) ∧
      ∃ c1 : TelescopeClient,
        (startClient env w s id p).2.connectionsProperties = s.connectionsProperties ∧
        (startClient env w s id p).2.connections =
          (if (p.get "interface").toString env.qt ≠ "INDI Pointer"
            then QMap.insert s.connections id c1 else s.connections) ∧
        ((p.get "interface").toString env.qt ≠ "INDI" →
          (startClient env w s id p).2.telescopes = QMap.insert s.telescopes id c1 ∧
          (startClient env w s id p).2.indiDevices = s.indiDevices ∧
          (startClient env w s id p).2.events = s.events ++ [Event.clientConnected id]) ∧
        ((p.get "interface").toString env.qt = "INDI" →
          (startClient env w s id p).2.indiDevices = QMap.insert s.indiDevices id c1 ∧
          (startClient env w s id p).2.telescopes = s.telescopes ∧
          (startClient env w s id p).2.events = s.events ++
            [Event.startDriver ((p.get "driverId").toString env.qt)
              ((p.get "name").toString env.qt)])) := by
  simp only [startClient] at h ⊢
  by_cases h1 : (id = "" || p.isEmpty) = true
  · simp [h1] at h
  by_cases h2 : QMap.contains s.connections id = true
  · simp [h1, h2] at h
  by_cases h3 : (p.get "name").toString env.qt = ""
  · simp [h1, h2, h3] at h
  by_cases h4 : (p.get "interface").toString env.qt = ""
  · simp [h1, h2, h3, h4] at h
  simp only [h1, h2, h3, h4, if_false, Bool.false_eq_true] at h ⊢
  generalize hc : constructClient env w s p _ _ _ _ _ = cc at h ⊢
  cases cc with
  | returned r s1 =>
    simp only at h ⊢
    obtain ⟨h5, -⟩ := constructClient_returned env w s s1 p _ _ _ _ _ r hc
    obtain ⟨h6, h7, h8⟩ := h5 h
    exact Or.inl ⟨h6, h7, h8⟩
  | constructed nt s1 =>
    simp only at h ⊢
    obtain ⟨h5, h6⟩ := constructClient_constructed env w s s1 p _ _ _ _ _ nt hc
    obtain ⟨c1, r1, r2, r3, r4⟩ := registerClient_true env w s1 id p _ nt h
    right
    by_cases hI : (p.get "interface").toString env.qt = "INDI"
    · obtain ⟨h7, h8⟩ := h6 hI
      refine ⟨fun hh => by rw [h7] at hh; exact absurd hh.2 (by simp), c1, ?_, ?_,
        fun hn => absurd hI hn, fun _ => ?_⟩
      · rw [r1, h8]
      · rw [r2, h8]
      · obtain ⟨q1, q2, q3⟩ := r4 hI
        rw [q1, q2, q3, h8]
        exact ⟨rfl, rfl, rfl⟩
    · have h7 := h5 hI
      subst h7
      exact ⟨fun hh => hI hh.1, c1, r1, r2, r3, fun hh => absurd hh hI⟩

/-- With clients that never initialize, `startClient` registers nothing, and
it returns true only for a remote INDI connection. -/
theorem startClient_uninitialized (env : Env) (w : World) (s : State) (id : String)
    (p : Props) (hw : ∀ c, w.isInitialized c = false) :
    ((startClient env w s id p).1 = true →
      (p.get "interface").toString env.qt = "INDI" ∧
      (p.getD "isRemoteConnection" (QScalar.bool false)).toBool = true) ∧
    (startClient env w s id p).2.connectionsProperties = s.connectionsProperties ∧
    (startClient env w s id p).2.connections = s.connections ∧
    (startClient env w s id p).2.telescopes = s.telescopes ∧
    (startClient env w s id p).2.indiDevices = s.indiDevices := by
  simp only [startClient]
  by_cases h1 : (id = "" || p.isEmpty) = true
  · simp [h1]
  by_cases h2 : QMap.contains s.connections id = true
  · simp [h1, h2]
  by_cases h3 : (p.get "name").toString env.qt = ""
  · simp [h1, h2, h3]
  by_cases h4 : (p.get "interface").toString env.qt = ""
  · simp [h1, h2, h3, h4]
  simp only [h1, h2, h3, h4, if_false, Bool.false_eq_true]
  generalize hc : constructClient env w s p _ _ _ _ _ = cc
  cases cc with
  | returned r s1 =>
    simp only
    obtain ⟨h5, h6⟩ := constructClient_returned env w s s1 p _ _ _ _ _ r hc
    cases r with
    | true =>
      obtain ⟨h7, h8, h9⟩ := h5 rfl
      rw [h9]
      exact ⟨fun _ => ⟨h7, h8⟩, rfl, rfl, rfl, rfl⟩
    | false =>
      rw [h6 rfl]
      exact ⟨fun hh => absurd hh (by simp), rfl, rfl, rfl, rfl⟩
  | constructed nt s1 =>
    simp only
    obtain ⟨h5, h6⟩ := constructClient_constructed env w s s1 p _ _ _ _ _ nt hc
    rw [registerClient_uninitialized env w s1 id p _ nt hw]
    refine ⟨fun hh => absurd hh (by simp), ?_⟩
    by_cases hI : (p.get "interface").toString env.qt = "INDI"
    · rw [(h6 hI).2]
      exact ⟨rfl, rfl, rfl, rfl⟩
    · rw [h5 hI]
      exact ⟨rfl, rfl, rfl, rfl⟩

/-- What a successful `startConnection` did to the client maps and the trace. -/
theorem startConnection_true (env : Env) (w : World) (s : State) (id : String)
    (h : (startConnection env w s id).1 = true) :
    (((getConnection s id).get "interface").toString env.qt = "INDI" ∧
      ((getConnection s id).get "isRemoteConnection").toBool = true ∧
      (startConnection env w s id).2.connectionsProperties = s.connectionsProperties ∧
      (startConnection env w s id).2.connections = s.connections ∧
      (startConnection env w s id).2.telescopes = s.telescopes ∧
      (startConnection env w s id).2.indiDevices = s.indiDevices ∧
      (startConnection env w s id).2.events = s.events ++
        [Event.openConnection (((getConnection s id).get "name").toString env.qt)
          (((getConnection s id).getD "host" (QScalar.string "localhost")).toString env.qt)
          (((getConnection s id).get "tcpPort").toUInt env.qt % 65536)]) ∨
    (¬ (((getConnection s id).get "interface").toString env.qt = "INDI" ∧
        ((getConnection s id).get "isRemoteConnection").toBool = true) ∧
      ∃ c1 : TelescopeClient,
        (startConnection env w s id).2.connectionsProperties = s.connectionsProperties ∧
        (startConnection env w s id).2.connections =
          (if ((getConnection s id).get "interface").toString env.qt ≠ "INDI Pointer"
            then QMap.insert s.connections id c1 else s.connections) ∧
        (((getConnection s id).get "interface").toString env.qt ≠ "INDI" →
          (startConnection env w s id).2.telescopes = QMap.insert s.telescopes id c1 ∧
          (startConnection env w s id).2.indiDevices = s.indiDevices ∧
          (startConnection env w s id).2.events = s.events ++ [Event.clientConnected id]) ∧
        (((getConnection s id).get "interface").toString env.qt = "INDI" →
          (startConnection env w s id).2.indiDevices = QMap.insert s.indiDevices id c1 ∧
          (startConnection env w s id).2.telescopes = s.telescopes ∧
          (startConnection env w s id).2.events = s.events ++
            [Event.startDriver (((getConnection s id).get "driverId").toString env.qt)
              (((getConnection s id).get "name").toString env.qt)])) := by
  have hid : id ≠ "" := by
    intro hh
    simp [startConnection, hh] at h
  have hp : (getConnection s id).isEmpty = false := by
    cases hp : (getConnection s id).isEmpty with
    | false => rfl
    | true => simp [startConnection, hid, hp] at h
  obtain ⟨s1, hs, ht, hf⟩ := startConnection_eq env w s id hid hp
  cases hr : (startClient env w s1 id (getConnection s id)).1 with
  | false =>
    rw [(hf hr).1] at h
    exact absurd h (by simp)
  | true =>
    rw [ht hr]
    simp only
    rw [← Props.getD_false_toBool]
    rcases startClient_true env w s1 id _ hr with ⟨a, b, c⟩ | ⟨a, c1, b1, b2, b3, b4⟩
    · left
      rw [c]
      refine ⟨a, b, hs.1, hs.2, hs.3, hs.4, ?_⟩
      show s1.events ++ _ = _
      rw [hs.events]
    · right
      refine ⟨a, c1, b1.trans hs.1, ?_, fun hn => ?_, fun he => ?_⟩
      · rw [b2, hs.connections]
      · obtain ⟨q1, q2, q3⟩ := b3 hn
        rw [q1, q2, q3, hs.telescopes, hs.indiDevices, hs.events]
        exact ⟨rfl, rfl, rfl⟩
      · obtain ⟨q1, q2, q3⟩ := b4 he
        rw [q1, q2, q3, hs.telescopes, hs.indiDevices, hs.events]
        exact ⟨rfl, rfl, rfl⟩

/-- With clients that never initialize, `startConnection` registers nothing,
and it returns true only for a remote INDI connection. -/
theorem startConnection_uninitialized (env : Env) (w : World) (s : State) (id : String)
    (hw : ∀ c, w.isInitialized c = false) :
    ((startConnection env w s id).1 = true →
      ((getConnection s id).get "interface").toString env.qt = "INDI" ∧
      ((getConnection s id).get "isRemoteConnection").toBool = true) ∧
    (startConnection env w s id).2.connections = s.connections ∧
    (startConnection env w s id).2.telescopes = s.telescopes ∧
    (startConnection env w s id).2.indiDevices = s.indiDevices := by
  by_cases hid : id = ""
  · simp [startConnection, hid]
  cases hp : (getConnection s id).isEmpty with
  | true => simp [startConnection, hid, hp]
  | false =>
    obtain ⟨s1, hs, ht, hf⟩ := startConnection_eq env w s id hid hp
    obtain ⟨u1, -, u3, u4, u5⟩ := startClient_uninitialized env w s1 id (getConnection s id) hw
    rw [Props.getD_false_toBool] at u1
    cases hr : (startClient env w s1 id (getConnection s id)).1 with
    | false =>
      obtain ⟨f1, f2⟩ := hf hr
      refine ⟨fun hh => ?_, ?_, ?_, ?_⟩
      · rw [f1] at hh
        exact absurd hh (by simp)
      · rw [f2.connections, u3, hs.connections]
      · rw [f2.telescopes, u4, hs.telescopes]
      · rw [f2.indiDevices, u5, hs.indiDevices]
    | true =>
      rw [ht hr]
      exact ⟨fun _ => u1 hr, u3.trans hs.connections, u4.trans hs.telescopes,
        u5.trans hs.indiDevices⟩

/-! ## Lemmas on the stored keys -/

/-- The configuration that an accepted `addConnection` stored under the name. -/
theorem stored_of_accepted (env : Env) (s : State) (properties : Props)
    (hacc : (addConnection env s properties).1 = true) :
    ∃ c, checkConnection env s properties = some c ∧
      getConnection (addConnection env s properties).2
        ((properties.get "name").toString env.qt) = storedProperties env properties c := by
  obtain ⟨c, hc, hadd⟩ := addConnection_accepted env s properties hacc
  obtain ⟨hname, _, _, _, _, _, _, _, hcn, _⟩ := checkConnection_some env s properties c hc
  refine ⟨c, hc, ?_⟩
  rw [hadd]
  dsimp only
  rw [← hcn]
  exact getConnection_insertConnection env s properties c (by rw [hcn]; exact hname)

theorem isValidDelay_iff (d : Int) : isValidDelay d = true ↔ 0 < d ∧ d ≤ 10000000 := by
  simp only [isValidDelay, MICROSECONDS_FROM_SECONDS, decide_eq_true_eq]
  omega

/-- The key "serialPort" is inserted by the interface block exactly for a
local connection of the interface "Stellarium". -/
theorem interfaceProperties_serialPort (env : Env) (properties np np1 : Props)
    (interfaceType : String) (isRemote : Bool) (driver deviceModel : String)
    (h : interfaceProperties env properties np interfaceType isRemote driver deviceModel
      = some np1)
    (hnp : QMap.find np "serialPort" = none) :
    ((QMap.find np1 "serialPort").isSome = true ↔
      interfaceType = "Stellarium" ∧ isRemote = false) ∧
    (interfaceType = "Stellarium" → isRemote = false →
      QMap.find np1 "serialPort" =
        some (QVariant.ofString ((properties.get "serialPort").toString env.qt))) := by
  simp only [interfaceProperties] at h
  split_ifs at h <;>
    (simp only [Option.some.injEq] at h
     subst h
     simp_all [QMap.find_insert])

theorem stored_serialPort (env : Env) (s : State) (properties : Props)
    (c : CheckedConnection) (h : checkConnection env s properties = some c) :
    ((QMap.find (storedProperties env properties c) "serialPort").isSome = true ↔
      (properties.get "interface").toString env.qt = "Stellarium" ∧
      (properties.getD "isRemoteConnection" (QScalar.bool false)).toBool = false) ∧
    ((properties.get "interface").toString env.qt = "Stellarium" →
      (properties.getD "isRemoteConnection" (QScalar.bool false)).toBool = false →
      QMap.find (storedProperties env properties c) "serialPort" =
        some (QVariant.ofString ((properties.get "serialPort").toString env.qt))) := by
  obtain ⟨-, -, np1, np2, np3, hi, hr, he, -, hc⟩ := checkConnection_some env s properties c h
  have h0 : QMap.find c.newProperties "serialPort" = QMap.find np1 "serialPort" := by
    rw [hc, fovProperties_find _ _ _ _ (by decide), QMap.find_insert,
      if_neg (by decide), equinoxProperties_find _ _ _ _ _ he _ (by decide) (by decide),
      remoteProperties_find _ _ _ _ _ _ _ hr _ (by decide) (by decide) (by decide)]
  rw [storedProperties_find _ _ _ _ (by decide), h0]
  refine interfaceProperties_serialPort env properties _ np1 _ _ _ _ hi ?_
  simp [QMap.find_insert, QMap.find]

theorem stored_interface (env : Env) (s : State) (properties : Props)
    (c : CheckedConnection) (h : checkConnection env s properties = some c) :
    QMap.find (storedProperties env properties c) "interface" =
      some (QVariant.ofString ((properties.get "interface").toString env.qt)) := by
  obtain ⟨-, -, np1, np2, np3, hi, hr, he, -, hc⟩ := checkConnection_some env s properties c h
  rw [storedProperties_find _ _ _ _ (by decide), hc, fovProperties_find _ _ _ _ (by decide),
    QMap.find_insert, if_neg (by decide),
    equinoxProperties_find _ _ _ _ _ he _ (by decide) (by decide),
    remoteProperties_find _ _ _ _ _ _ _ hr _ (by decide) (by decide) (by decide),
    interfaceProperties_find _ _ _ _ _ _ _ _ hi _ (by decide) (by decide) (by decide)
      (by decide) (by decide), QMap.find_insert, if_pos rfl]

/-! ## Lemmas on pointer connections and on treatAsTelescope -/

/-- A pointer client is not constructed when the INDI service has no client
for the parent connection: `startClient` returns false and changes nothing. -/
theorem startClient_pointer_orphan (env : Env) (w : World) (s : State) (id : String)
    (p : Props) (hi : (p.get "interface").toString env.qt = "INDI Pointer")
    (hg : w.getClient ((p.get "indiConnection").toString env.qt) = false) :
    startClient env w s id p = (false, s) := by
  simp only [startClient]
  by_cases h1 : (id = "" || p.isEmpty) = true
  · simp [h1]
  by_cases h2 : QMap.contains s.connections id = true
  · simp [h1, h2]
  by_cases h3 : (p.get "name").toString env.qt = ""
  · simp [h1, h2, h3]
  simp [h1, h2, h3, hi, constructClient, hg]

theorem startConnection_pointer_orphan (env : Env) (w : World) (s : State) (id : String)
    (hi : ((getConnection s id).get "interface").toString env.qt = "INDI Pointer")
    (hg : w.getClient (((getConnection s id).get "indiConnection").toString env.qt) = false) :
    (startConnection env w s id).1 = false ∧ SameClients s (startConnection env w s id).2 := by
  by_cases hid : id = ""
  · simp only [startConnection, hid, if_true]
    exact ⟨trivial, SameClients.refl s⟩
  · cases hp : (getConnection s id).isEmpty with
    | true =>
      simp only [startConnection, hid, if_false, hp, if_true]
      exact ⟨trivial, SameClients.refl s⟩
    | false =>
      obtain ⟨s1, h1, _, h3⟩ := startConnection_eq env w s id hid hp
      have hs := startClient_pointer_orphan env w s1 id (getConnection s id) hi hg
      have h4 := h3 (by rw [hs])
      rw [hs] at h4
      exact ⟨h4.1, h1.trans h4.2⟩

theorem interfaceProperties_pointer (env : Env) (p np : Props) (isRemote : Bool)
    (driver deviceModel : String) :
    (interfaceProperties env p np "INDI Pointer" isRemote driver deviceModel).isSome = true ↔
      (p.get "indiDevice").toString env.qt ≠ "" ∧
      (p.get "indiConnection").toString env.qt ≠ "" := by
  simp only [interfaceProperties]
  by_cases h1 : (p.get "indiDevice").toString env.qt = "" <;>
    by_cases h2 : (p.get "indiConnection").toString env.qt = "" <;> simp [h1, h2]

theorem QMap.find_remove_self {K V : Type} [DecidableEq K] (m : QMap K V) (k : K) :
    QMap.find (QMap.remove m k) k = none := by
  have h := QMap.contains_remove_self m k
  rw [QMap.contains_eq_isSome_find] at h
  cases hf : QMap.find (QMap.remove m k) k with
  | none => rfl
  | some v => rw [hf] at h; exact absurd h (by simp)

theorem QMap.find_eq_none_of_not_contains {K V : Type} [DecidableEq K] (m : QMap K V)
    (k : K) (h : QMap.contains m k = false) : QMap.find m k = none := by
  rw [QMap.contains_eq_isSome_find] at h
  cases hf : QMap.find m k with
  | none => rfl
  | some v => rw [hf] at h; exact absurd h (by simp)

/-- The three cases of `treatAsTelescope` for a non-empty id. -/
theorem treatAsTelescope_cases (s : State) (id : String) (hid : id ≠ "") :
    (∀ c, QMap.find s.indiDevices id = some c → QMap.contains s.telescopes id = false →
      treatAsTelescope s id =
        { s with indiDevices := QMap.remove s.indiDevices id,
                 telescopes := QMap.insert s.telescopes id c }) ∧
    (QMap.contains s.telescopes id = true →
      treatAsTelescope s id = { s with indiDevices := QMap.remove s.indiDevices id }) ∧
    (QMap.contains s.indiDevices id = false → treatAsTelescope s id = s) := by
  refine ⟨fun c hc ht => ?_, fun ht => ?_, fun hn => ?_⟩
  · simp [treatAsTelescope, QMap.take, hid, hc, ht]
  · simp only [treatAsTelescope, QMap.take, hid, if_false]
    cases hf : QMap.find s.indiDevices id with
    | none => rfl
    | some c => simp [ht]
  · simp only [treatAsTelescope, QMap.take, hid, if_false]
    rw [QMap.find_eq_none_of_not_contains _ _ hn, QMap.remove_of_not_contains _ _ hn]

theorem treatAsTelescope_indiDevices (s : State) (id : String) (hid : id ≠ "") :
    (treatAsTelescope s id).indiDevices = QMap.remove s.indiDevices id ∧
    (treatAsTelescope s id).connections = s.connections := by
  simp only [treatAsTelescope, QMap.take, hid, if_false]
  cases hf : QMap.find s.indiDevices id with
  | none => exact ⟨rfl, rfl⟩
  | some c =>
    dsimp only
    split_ifs <;> exact ⟨rfl, rfl⟩

theorem treatAsTelescope_twice (s : State) (id : String) :
    treatAsTelescope (treatAsTelescope s id) id = treatAsTelescope s id := by
  by_cases hid : id = ""
  · simp [treatAsTelescope, hid]
  · refine (treatAsTelescope_cases _ id hid).2.2 ?_
    rw [(treatAsTelescope_indiDevices s id hid).1]
    exact QMap.contains_remove_self _ _

/-! ## Lemmas on the key order of the live-client map -/

theorem unitsLt_irrefl (a : List Nat) : unitsLt a a = false := by
  induction a with
  | nil => rfl
  | cons x xs ih => simp [unitsLt, ih]

theorem unitsLt_trans (a b c : List Nat) (h1 : unitsLt a b = true)
    (h2 : unitsLt b c = true) : unitsLt a c = true := by
  induction a generalizing b c with
  | nil =>
    cases b with
    | nil => simp [unitsLt] at h1
    | cons y ys =>
      cases c with
      | nil => simp [unitsLt] at h2
      | cons z zs => simp [unitsLt]
  | cons x xs ih =>
    cases b with
    | nil => simp [unitsLt] at h1
    | cons y ys =>
      cases c with
      | nil => simp [unitsLt] at h2
      | cons z zs =>
        simp only [unitsLt] at h1 h2 ⊢
        by_cases hxy : x < y
        · by_cases hyz : y < z
          · have : x < z := by omega
            simp [this]
          · by_cases hyz' : y = z
            · have : x < z := by omega
              simp [this]
            · simp [hyz, hyz'] at h2
        · by_cases hxy' : x = y
          · rw [if_neg hxy, if_pos hxy'] at h1
            by_cases hyz : y < z
            · have : x < z := by omega
              simp [this]
            · by_cases hyz' : y = z
              · rw [if_neg hyz, if_pos hyz'] at h2
                have h3 : ¬ x < z := by omega
                have h4 : x = z := by omega
                rw [if_neg h3, if_pos h4]
                exact ih ys zs h1 h2
              · simp [hyz, hyz'] at h2
          · simp [hxy, hxy'] at h1

theorem unitsLt_total (a b : List Nat) (h1 : unitsLt a b = false) (h2 : a ≠ b) :
    unitsLt b a = true := by
  induction a generalizing b with
  | nil =>
    cases b with
    | nil => exact absurd rfl h2
    | cons y ys => simp [unitsLt] at h1
  | cons x xs ih =>
    cases b with
    | nil => simp [unitsLt]
    | cons y ys =>
      simp only [unitsLt] at h1 ⊢
      by_cases hxy : x < y
      · simp [hxy] at h1
      · by_cases hxy' : x = y
        · rw [if_neg hxy, if_pos hxy'] at h1
          subst hxy'
          rw [if_neg (lt_irrefl _), if_pos rfl]
          exact ih ys h1 (fun h => h2 (by rw [h]))
        · have : y < x := by omega
          simp [this]

theorem charToNat_valid (c : Char) :
    c.toNat < 55296 ∨ (57343 < c.toNat ∧ c.toNat < 1114112) := c.valid

theorem char_eq_of_toNat_eq (x y : Char) (h : x.toNat = y.toNat) : x = y := by
  have h3 := congrArg Char.ofNat h
  rwa [Char.ofNat_toNat, Char.ofNat_toNat] at h3

/-- The UTF-16 encoding determines the text. -/
theorem utf16Units_injective (a b : List Char)
    (h : a.flatMap utf16Units = b.flatMap utf16Units) : a = b := by
  induction a generalizing b with
  | nil =>
    cases b with
    | nil => rfl
    | cons y ys =>
      simp only [List.flatMap_nil, List.flatMap_cons, utf16Units] at h
      split_ifs at h <;> simp at h
  | cons x xs ih =>
    cases b with
    | nil =>
      simp only [List.flatMap_nil, List.flatMap_cons, utf16Units] at h
      split_ifs at h <;> simp at h
    | cons y ys =>
      have hx := charToNat_valid x
      have hy := charToNat_valid y
      simp only [List.flatMap_cons, utf16Units] at h
      by_cases h1 : x.toNat < 65536 <;> by_cases h2 : y.toNat < 65536
      · rw [if_pos h1, if_pos h2] at h
        simp only [List.singleton_append, List.cons.injEq] at h
        rw [char_eq_of_toNat_eq x y h.1, ih ys h.2]
      · rw [if_pos h1, if_neg h2] at h
        simp only [List.singleton_append, List.cons_append, List.cons.injEq] at h
        omega
      · rw [if_neg h1, if_pos h2] at h
        simp only [List.singleton_append, List.cons_append, List.cons.injEq] at h
        omega
      · rw [if_neg h1, if_neg h2] at h
        simp only [List.cons_append, List.nil_append, List.cons.injEq] at h
        have hxy : x.toNat = y.toNat := by omega
        rw [char_eq_of_toNat_eq x y hxy, ih ys h.2.2]

theorem charsLt_irrefl (a : List Char) : charsLt a a = false := unitsLt_irrefl _

theorem charsLt_trans (a b c : List Char) (h1 : charsLt a b = true)
    (h2 : charsLt b c = true) : charsLt a c = true := unitsLt_trans _ _ _ h1 h2

theorem charsLt_total (a b : List Char) (h1 : charsLt a b = false) (h2 : a ≠ b) :
    charsLt b a = true :=
  unitsLt_total _ _ h1 (fun h => h2 (utf16Units_injective a b h))

/-- A character outside the Basic Multilingual Plane is stored as a surrogate
pair, so U+10000 comes before U+E000 in the order of the keys. -/
theorem charsLt_surrogate_pair :
    charsLt [Char.ofNat 65536] [Char.ofNat 57344] = true ∧
    charsLt [Char.ofNat 57344] [Char.ofNat 65536] = false := by
  decide

theorem keyLt_total (a b : String) (h1 : QMapKey.keyLt a b = false) (h2 : a ≠ b) :
    QMapKey.keyLt b a = true :=
  charsLt_total a.data b.data h1 (fun h => h2 (String.ext h))

/-- Every key of the map after an insertion is the inserted key or a key of
the map before. -/
theorem QMap.mem_keys_insert {V : Type} (m : QMap String V) (k k' : String) (v : V)
    (h : k' ∈ QMap.keys (QMap.insert m k v)) : k' = k ∨ k' ∈ QMap.keys m := by
  by_cases hk : k' = k
  · exact Or.inl hk
  · right
    rw [QMap.mem_keys_iff_contains, QMap.contains_eq_isSome_find, QMap.find_insert,
      if_neg (Ne.symm hk), ← QMap.contains_eq_isSome_find, ← QMap.mem_keys_iff_contains] at h
    exact h

/-- An insertion keeps the keys of a `QMap` in ascending order. -/
theorem QMap.insert_ascending {V : Type} (m : QMap String V) (k : String) (v : V)
    (h : keysAscending (QMap.keys m)) : keysAscending (QMap.keys (QMap.insert m k v)) := by
  induction m with
  | nil => simp [QMap.insert, QMap.keys, keysAscending]
  | cons e rest ih =>
    obtain ⟨k0, v0⟩ := e
    have h' : (∀ a ∈ QMap.keys rest, charsLt k0.data a.data = true) ∧
        keysAscending (QMap.keys rest) := List.pairwise_cons.mp h
    simp only [QMap.insert]
    by_cases h1 : QMapKey.keyLt k k0 = true
    · simp only [h1, if_true]
      refine List.pairwise_cons.mpr ⟨fun a ha => ?_, h⟩
      rcases List.mem_cons.mp ha with rfl | ha
      · exact h1
      · exact charsLt_trans _ _ _ h1 (h'.1 a ha)
    · simp only [h1, Bool.false_eq_true, if_false]
      by_cases h2 : k = k0
      · simp only [h2, if_true]
        exact h
      · simp only [h2, if_false]
        have hlt : charsLt k0.data k.data = true :=
          keyLt_total k k0 (by simpa using h1) h2
        refine List.pairwise_cons.mpr ⟨fun a ha => ?_, ih h'.2⟩
        rcases QMap.mem_keys_insert rest k a v ha with rfl | ha
        · exact hlt
        · exact h'.1 a ha

theorem QMap.contains_of_contains_remove {K V : Type} [DecidableEq K] (m : QMap K V)
    (k a : K) (h : QMap.contains (QMap.remove m k) a = true) : QMap.contains m a = true := by
  induction m with
  | nil => exact h
  | cons e rest ih =>
    obtain ⟨k0, v0⟩ := e
    simp only [QMap.remove] at h
    by_cases h1 : k0 = k
    · rw [if_pos h1] at h
      simp only [QMap.contains]
      rw [ih h]
      simp
    · rw [if_neg h1] at h
      simp only [QMap.contains] at h ⊢
      by_cases h2 : k0 = a
      · simp [h2]
      · rw [if_neg h2] at h ⊢
        exact ih h

/-- A removal keeps the keys of a `QMap` in ascending order. -/
theorem QMap.remove_ascending {V : Type} (m : QMap String V) (k : String)
    (h : keysAscending (QMap.keys m)) : keysAscending (QMap.keys (QMap.remove m k)) := by
  induction m with
  | nil => exact h
  | cons e rest ih =>
    obtain ⟨k0, v0⟩ := e
    have h' : (∀ a ∈ QMap.keys rest, charsLt k0.data a.data = true) ∧
        keysAscending (QMap.keys rest) := List.pairwise_cons.mp h
    simp only [QMap.remove]
    by_cases h1 : k0 = k
    · rw [if_pos h1]
      exact ih h'.2
    · rw [if_neg h1]
      refine List.pairwise_cons.mpr ⟨fun a ha => ?_, ih h'.2⟩
      refine h'.1 a ?_
      have ha' : a ∈ QMap.keys (QMap.remove rest k) := ha
      rw [QMap.mem_keys_iff_contains] at ha' ⊢
      exact QMap.contains_of_contains_remove rest k a ha'

theorem keysAscending_nodup (keys : List String) (h : keysAscending keys) : keys.Nodup := by
  refine List.Pairwise.imp ?_ h
  intro a b hab heq
  rw [heq, charsLt_irrefl] at hab
  exact absurd hab (by simp)

theorem startClient_false (env : Env) (w : World) (s : State) (id : String) (p : Props)
    (h : (startClient env w s id p).1 = false) :
    (startClient env w s id p).2.connections = s.connections := by
  simp only [startClient] at h ⊢
  by_cases h1 : (id = "" || p.isEmpty) = true
  · simp [h1]
  by_cases h2 : QMap.contains s.connections id = true
  · simp [h1, h2]
  by_cases h3 : (p.get "name").toString env.qt = ""
  · simp [h1, h2, h3]
  by_cases h4 : (p.get "interface").toString env.qt = ""
  · simp [h1, h2, h3, h4]
  simp only [h1, h2, h3, h4, if_false, Bool.false_eq_true] at h ⊢
  generalize hc : constructClient env w s p _ _ _ _ _ = cc at h ⊢
  cases cc with
  | returned r s1 =>
    simp only at h ⊢
    obtain ⟨-, h6⟩ := constructClient_returned env w s s1 p _ _ _ _ _ r hc
    rw [h6 h]
  | constructed nt s1 =>
    simp only at h ⊢
    obtain ⟨h5, h6⟩ := constructClient_constructed env w s s1 p _ _ _ _ _ nt hc
    rw [registerClient_false env w s1 id p _ nt h]
    by_cases hI : (p.get "interface").toString env.qt = "INDI"
    · rw [(h6 hI).2]
    · rw [h5 hI]

/-- The live-client map after `startClient`: unchanged, or with one entry
inserted under the id. -/
theorem startClient_connections (env : Env) (w : World) (s : State) (id : String)
    (p : Props) :
    (startClient env w s id p).2.connections = s.connections ∨
    ∃ c, (startClient env w s id p).2.connections = QMap.insert s.connections id c := by
  cases h : (startClient env w s id p).1 with
  | false => exact Or.inl (startClient_false env w s id p h)
  | true =>
    rcases startClient_true env w s id p h with ⟨-, -, e⟩ | ⟨-, c1, -, e, -⟩
    · left
      rw [e]
    · by_cases hp : (p.get "interface").toString env.qt ≠ "INDI Pointer"
      · rw [if_pos hp] at e
        exact Or.inr ⟨c1, e⟩
      · rw [if_neg hp] at e
        exact Or.inl e

theorem startConnection_connections (env : Env) (w : World) (s : State) (id : String) :
    (startConnection env w s id).2.connections = s.connections ∨
    ∃ c, (startConnection env w s id).2.connections = QMap.insert s.connections id c := by
  by_cases hid : id = ""
  · left
    simp [startConnection, hid]
  cases hp : (getConnection s id).isEmpty with
  | true =>
    left
    simp [startConnection, hid, hp]
  | false =>
    obtain ⟨s1, hs, ht, hf⟩ := startConnection_eq env w s id hid hp
    have key : (startConnection env w s id).2.connections =
        (startClient env w s1 id (getConnection s id)).2.connections := by
      cases hr : (startClient env w s1 id (getConnection s id)).1 with
      | false => exact (hf hr).2.connections
      | true => rw [ht hr]
    rw [key, ← hs.connections]
    exact startClient_connections env w s1 id (getConnection s id)

theorem stopConnection_connections (env : Env) (s : State) (id : String) :
    (stopConnection env s id).2.connections = s.connections ∨
    (stopConnection env s id).2.connections = QMap.remove s.connections id := by
  by_cases hid : id = ""
  · left
    simp [stopConnection, hid]
  simp only [stopConnection, hid, if_false, stopClient]
  split_ifs
  · exact Or.inl rfl
  · exact Or.inl rfl
  · right
    simp only [teardownClient, unselectTelescopes_eq, removeLogForClient]
    rw [stopIndi_eq]
    split_ifs <;> rfl
  · right
    simp only [teardownClient, unselectTelescopes_eq, removeLogForClient]
    split_ifs <;> rfl

/-! ## Lemmas on the polling order -/

theorem addConnection_connections (env : Env) (s : State) (properties : Props) :
    (addConnection env s properties).2.connections = s.connections := by
  cases hc : checkConnection env s properties with
  | none => simp [addConnection, hc]
  | some c =>
    rw [addConnection_of_check env s properties c hc]
    exact (insertConnection_frame env s properties c).1

theorem removeConnection_connections (env : Env) (s : State) (id : String) :
    (removeConnection env s id).2.connections = s.connections := by
  simp only [removeConnection]
  split_ifs <;> rfl

theorem communicate_connections (w : World) (s : State) :
    (communicate w s).connections = s.connections := by
  obtain ⟨new, log, h, -⟩ := communicate_spec w s
  rw [h]

theorem ascending_startClient (env : Env) (w : World) (s : State) (id : String) (p : Props)
    (h : keysAscending (QMap.keys s.connections)) :
    keysAscending (QMap.keys (startClient env w s id p).2.connections) := by
  rcases startClient_connections env w s id p with e | ⟨c, e⟩
  · rw [e]
    exact h
  · rw [e]
    exact QMap.insert_ascending _ _ _ h

theorem ascending_loadNode (env : Env) (w : World) (s : State) (node : String × QNode)
    (h : keysAscending (QMap.keys s.connections)) :
    keysAscending (QMap.keys (loadNode env w s node).connections) := by
  simp only [loadNode]
  have ha := addConnection_connections env s node.2.toMap
  generalize addConnection env s node.2.toMap = r at ha ⊢
  obtain ⟨b, s1⟩ := r
  simp only at ha
  cases b with
  | false => exact h
  | true =>
    dsimp only
    have h1 : keysAscending (QMap.keys s1.connections) := by rw [ha]; exact h
    split_ifs
    · refine ascending_startClient env w _ _ _ ?_
      rw [(setCurrentLog_same _ _).connections, (addLogForClient_same env w s1 _).connections]
      exact h1
    · exact ascending_startClient env w _ _ _ h1
    · exact h1

theorem ascending_foldl_loadNode (env : Env) (w : World) (nodes : List (String × QNode))
    (s : State) (h : keysAscending (QMap.keys s.connections)) :
    keysAscending (QMap.keys (nodes.foldl (loadNode env w) s).connections) := by
  induction nodes generalizing s with
  | nil => exact h
  | cons n rest ih => exact ih _ (ascending_loadNode env w s n h)

theorem ascending_loadConnections (env : Env) (w : World) (file : ConnectionsFile)
    (s : State) (h : keysAscending (QMap.keys s.connections)) :
    keysAscending (QMap.keys (loadConnections env w file s).connections) := by
  unfold loadConnections
  by_cases h1 : (!file.fileExists) = true
  · rw [if_pos h1]
    exact h
  rw [if_neg h1]
  by_cases h2 : (!file.opens) = true
  · rw [if_pos h2]
    exact h
  rw [if_neg h2]
  split
  · exact h
  · dsimp only
    split_ifs <;>
      first
        | exact h
        | exact ascending_foldl_loadNode env w _ _ List.Pairwise.nil

/-- One call of the interface keeps the live-client map in ascending key
order. -/
theorem ascending_apply (env : Env) (s : State) (op : SupervisorOp)
    (h : keysAscending (QMap.keys s.connections)) :
    keysAscending (QMap.keys (SupervisorOp.apply env s op).connections) := by
  cases op with
  | registry op =>
    cases op with
    | addConnection properties =>
      show keysAscending (QMap.keys (addConnection env s properties).2.connections)
      rw [addConnection_connections]
      exact h
    | removeConnection id =>
      show keysAscending (QMap.keys (removeConnection env s id).2.connections)
      rw [removeConnection_connections]
      exact h
    | removeAllConnections => exact List.Pairwise.nil
  | startConnection w id =>
    show keysAscending (QMap.keys (startConnection env w s id).2.connections)
    rcases startConnection_connections env w s id with e | ⟨c, e⟩
    · rw [e]
      exact h
    · rw [e]
      exact QMap.insert_ascending _ _ _ h
  | stopConnection id =>
    show keysAscending (QMap.keys (stopConnection env s id).2.connections)
    rcases stopConnection_connections env s id with e | e
    · rw [e]
      exact h
    · rw [e]
      exact QMap.remove_ascending _ _ h
  | communicate w =>
    show keysAscending (QMap.keys (communicate w s).connections)
    rw [communicate_connections]
    exact h
  | loadConnections w file => exact ascending_loadConnections env w file s h

theorem ascending_run (env : Env) (ops : List SupervisorOp) :
    keysAscending (QMap.keys (runSupervisorOps env ops).connections) := by
  unfold runSupervisorOps
  have init : keysAscending (QMap.keys State.initial.connections) := List.Pairwise.nil
  generalize State.initial = s at init
  induction ops generalizing s with
  | nil => exact init
  | cons op rest ih => exact ih _ (ascending_apply env s op init)

theorem polledIds_eq (w : World) (s : State) : polledIds w s = QMap.keys s.connections := by
  obtain ⟨new, log, -, h2, h3, -⟩ := communicate_spec w s
  unfold polledIds
  rw [h2]
  exact polled_of_calls w _ new h3

/-- Two ascending lists of ids with the same members are equal. -/
theorem keysAscending_ext (l1 l2 : List String) (h1 : keysAscending l1)
    (h2 : keysAscending l2) (h : ∀ id, id ∈ l1 ↔ id ∈ l2) : l1 = l2 := by
  have hperm : l1.Perm l2 :=
    (List.perm_ext_iff_of_nodup (keysAscending_nodup l1 h1) (keysAscending_nodup l2 h2)).mpr h
  haveI : IsAntisymm String (fun a b => charsLt a.data b.data = true) :=
    ⟨fun a b hab hba => by
      have := charsLt_trans _ _ _ hab hba
      rw [charsLt_irrefl] at this
      exact absurd this (by simp)⟩
  exact List.eq_of_perm_of_sorted hperm h1 h2

/-! ## Lemmas on the stored circles and on clients that do not initialize -/

/-- The entry "fovCircles" of the stored configuration: absent when no given
entry converts to a number, otherwise the list of the converted entries. -/
theorem stored_fovCircles_find (env : Env) (s : State) (properties : Props)
    (c : CheckedConnection) (h : checkConnection env s properties = some c) :
    QMap.find (storedProperties env properties c) "fovCircles" =
      if ((properties.get "fovCircles").toList.filterMap fun x => x.toDouble env.qt) = [] then
        none
      else
        some (QVariant.list
          (((properties.get "fovCircles").toList.filterMap fun x => x.toDouble env.qt).map
            QScalar.double)) := by
  obtain ⟨_, _, np1, np2, np3, hi, hr, he, _, hc⟩ := checkConnection_some env s properties c h
  have hnone : QMap.find (QMap.insert np3 "connectsAtStartup"
      (QVariant.ofBool (properties.getD "connectsAtStartup" (QScalar.bool false)).toBool))
      "fovCircles" = none := by
    rw [QMap.find_insert, if_neg (by decide),
      equinoxProperties_find _ _ _ _ _ he _ (by decide) (by decide),
      remoteProperties_find _ _ _ _ _ _ _ hr _ (by decide) (by decide) (by decide),
      interfaceProperties_find _ _ _ _ _ _ _ _ hi _ (by decide) (by decide) (by decide)
        (by decide) (by decide)]
    simp [QMap.find_insert, QMap.find]
  rw [storedProperties_find env properties c _ (by decide), hc]
  simp only [fovProperties]
  generalize (properties.get "fovCircles").toList = given
  cases given with
  | nil =>
    simp only [List.isEmpty_nil, Bool.not_true, Bool.false_eq_true, if_false,
      List.filterMap_nil, if_true]
    exact hnone
  | cons a l =>
    simp only [List.isEmpty_cons, Bool.not_false, if_true]
    cases hfm : (a :: l).filterMap (fun x => x.toDouble env.qt) with
    | nil =>
      simp only [List.isEmpty_nil, Bool.not_true, Bool.false_eq_true, if_false, if_true]
      exact hnone
    | cons d ds =>
      simp only [List.isEmpty_cons, Bool.not_false, if_true, QMap.find_insert,
        reduceCtorEq, if_false]

/-- The client that `constructClient` builds does not depend on the state. -/
theorem constructClient_client (env : Env) (w : World) (s s0 : State) (p : Props)
    (name interfaceType : String) (isRemote : Bool) (delay : Int) (equinox : Equinox) :
    (match constructClient env w s p name interfaceType isRemote delay equinox with
      | Construction.returned _ _ => (none : Option TelescopeClient)
      | Construction.constructed newTelescope _ => newTelescope) =
    (match constructClient env w s0 p name interfaceType isRemote delay equinox with
      | Construction.returned _ _ => (none : Option TelescopeClient)
      | Construction.constructed newTelescope _ => newTelescope) := by
  simp only [constructClient]
  split_ifs <;> rfl

/-- A constructed client that reports not initialized is deleted: `startClient`
returns false and registers nothing. -/
theorem startClient_not_initialized (env : Env) (w : World) (s : State) (id : String)
    (p : Props) (c : TelescopeClient) (hc : constructedClient env w p = some c)
    (hi : w.isInitialized c = false) :
    (startClient env w s id p).1 = false ∧
    (startClient env w s id p).2.connectionsProperties = s.connectionsProperties ∧
    (startClient env w s id p).2.connections = s.connections ∧
    (startClient env w s id p).2.telescopes = s.telescopes ∧
    (startClient env w s id p).2.indiDevices = s.indiDevices := by
  simp only [startClient]
  by_cases h1 : (id = "" || p.isEmpty) = true
  · simp [h1]
  by_cases h2 : QMap.contains s.connections id = true
  · simp [h1, h2]
  by_cases h3 : (p.get "name").toString env.qt = ""
  · simp [h1, h2, h3]
  by_cases h4 : (p.get "interface").toString env.qt = ""
  · simp [h1, h2, h3, h4]
  simp only [h1, h2, h3, h4, if_false, Bool.false_eq_true]
  simp only [constructedClient] at hc
  rw [constructClient_client env w State.initial s] at hc
  generalize hcc : constructClient env w s p _ _ _ _ _ = cc at hc ⊢
  cases cc with
  | returned r s1 => simp at hc
  | constructed nt s1 =>
    simp only at hc ⊢
    subst hc
    obtain ⟨h5, h6⟩ := constructClient_constructed env w s s1 p _ _ _ _ _ _ hcc
    have hr : registerClient env w s1 id p ((p.get "interface").toString env.qt) (some c)
        = (false, s1) := by
      simp [registerClient, hi]
    rw [hr]
    by_cases hI : (p.get "interface").toString env.qt = "INDI"
    · rw [(h6 hI).2]
      exact ⟨rfl, rfl, rfl, rfl, rfl⟩
    · rw [h5 hI]
      exact ⟨rfl, rfl, rfl, rfl, rfl⟩

theorem startConnection_not_initialized (env : Env) (w : World) (s : State) (id : String)
    (c : TelescopeClient) (hc : constructedClient env w (getConnection s id) = some c)
    (hi : w.isInitialized c = false) :
    (startConnection env w s id).1 = false ∧
    (startConnection env w s id).2.connectionsProperties = s.connectionsProperties ∧
    (startConnection env w s id).2.connections = s.connections ∧
    (startConnection env w s id).2.telescopes = s.telescopes ∧
    (startConnection env w s id).2.indiDevices = s.indiDevices := by
  by_cases hid : id = ""
  · simp [startConnection, hid]
  cases hp : (getConnection s id).isEmpty with
  | true => simp [startConnection, hid, hp]
  | false =>
    obtain ⟨s1, hs, -, hf⟩ := startConnection_eq env w s id hid hp
    obtain ⟨u1, u2, u3, u4, u5⟩ :=
      startClient_not_initialized env w s1 id (getConnection s id) c hc hi
    obtain ⟨f1, f2⟩ := hf u1
    exact ⟨f1, by rw [f2.connectionsProperties, u2, hs.connectionsProperties],
      by rw [f2.connections, u3, hs.connections],
      by rw [f2.telescopes, u4, hs.telescopes],
      by rw [f2.indiDevices, u5, hs.indiDevices]⟩

/-! ## Lemmas on the trace of communicate -/

/-- One iteration of the loop of `communicate`, written out. -/
theorem communicateWith_eq (w : World) (s : State) (key : String) :
    communicateWith w s key =
      { s with
        events := s.events ++
          expectedTrace w s.telescopeServerLogStreams s.log_file [key],
        log_file :=
          if QMap.contains s.telescopeServerLogStreams key then some key else s.log_file } := by
  unfold communicateWith setCurrentLog expectedTrace expectedTrace
  by_cases hs : QMap.contains s.telescopeServerLogStreams key = true <;>
    by_cases hp : w.prepareCommunication key = true <;> simp [hs, hp]

theorem expectedTrace_cons (w : World) (streams : QMap String LogFile)
    (log : Option String) (key : String) (rest : List String) :
    expectedTrace w streams log (key :: rest) =
      expectedTrace w streams log [key] ++
        expectedTrace w streams (if QMap.contains streams key then some key else log) rest := by
  simp [expectedTrace]

/-- The loop of `communicate` over a list of entries leaves the expected
trace. -/
theorem communicate_loop_trace (w : World) (cs : List (String × TelescopeClient)) :
    ∀ s : State, ∃ log,
      cs.foldl (fun st entry => communicateWith w st entry.1) s =
        { s with
          events := s.events ++
            expectedTrace w s.telescopeServerLogStreams s.log_file (QMap.keys cs),
          log_file := log } := by
  induction cs with
  | nil =>
    intro s
    exact ⟨s.log_file, by simp [QMap.keys, expectedTrace]⟩
  | cons c rest ih =>
    intro s
    obtain ⟨log, h⟩ := ih (communicateWith w s c.1)
    refine ⟨log, ?_⟩
    have hk : QMap.keys (c :: rest) = c.1 :: QMap.keys rest := rfl
    rw [List.foldl_cons, h, communicateWith_eq, hk,
      expectedTrace_cons w s.telescopeServerLogStreams s.log_file c.1 (QMap.keys rest)]
    dsimp only
    rw [List.append_assoc]

theorem communicate_trace (w : World) (s : State) :
    newEvents s (communicate w s) =
      expectedTrace w s.telescopeServerLogStreams s.log_file (QMap.keys s.connections) := by
  unfold communicate newEvents
  by_cases he : s.connections.isEmpty = true
  · have : s.connections = [] := List.isEmpty_iff.mp he
    simp [he, this, QMap.keys, expectedTrace]
  · simp only [he, Bool.not_false, if_true, Bool.not_eq_true]
    obtain ⟨log, h⟩ := communicate_loop_trace w s.connections s
    rw [h]
    simp

/-- C1 (the code departs from the claim): `addConnection` looks for the name in
the live-client map `connections`, not in `connectionsProperties`. After the
configuration "a" has been accepted, a second call with the name "a" and other
parameters returns true again, replaces the stored entry and claims a port. -/
theorem addConnection_same_name_accepted_again :
    (addConnection sampleEnv State.initial (virtualConfig "a")).1 = true ∧
    QMap.contains registeredA.connectionsProperties "a" = true ∧
    (addConnection sampleEnv registeredA (remoteConfig "a" "virtual" 10001)).1 = true ∧
    (addConnection sampleEnv registeredA (remoteConfig "a" "virtual" 10001)).2.connectionsProperties
      ≠ registeredA.connectionsProperties ∧
    registeredA.usedTcpPorts = [] ∧
    (addConnection sampleEnv registeredA (remoteConfig "a" "virtual" 10001)).2.usedTcpPorts
      = [10001] := by
  decide

/-- C2 (the code departs from the claim): `saveConnections` stores the version
string under the key "version" of `connectionsProperties` itself, so a
connection named "version" is overwritten by the save and is missing after
`loadConnections` has read the document back. -/
theorem saveThenLoad_loses_connection_named_version :
    (addConnection sampleEnv State.initial (virtualConfig "version")).1 = true ∧
    QMap.keys registeredVersion.connectionsProperties = ["version"] ∧
    QMap.keys (saveThenLoad sampleEnv sampleWorld registeredVersion).connectionsProperties
      = [] := by
  decide

/-- C3: when `addConnection` returns false, `connectionsProperties`,
`usedTcpPorts` and `idFromShortcutNumber` (indeed the whole state) are what
they were before the call. -/
theorem addConnection_rejected_unchanged (env : Env) (s : State) (properties : Props)
    (h : (addConnection env s properties).1 = false) :
    (addConnection env s properties).2.connectionsProperties = s.connectionsProperties ∧
    (addConnection env s properties).2.usedTcpPorts = s.usedTcpPorts ∧
    (addConnection env s properties).2.idFromShortcutNumber = s.idFromShortcutNumber ∧
    (addConnection env s properties).2 = s := by
  unfold addConnection at h ⊢
  cases hc : checkConnection env s properties with
  | none => simp
  | some c => simp [hc] at h

/-- Witness of C3: a configuration of an unknown interface type is rejected on
a registry that holds the connection "a", and the registry is unchanged. -/
theorem addConnection_rejected_unchanged_witness :
    (addConnection sampleEnv registeredA
      [("name", QVariant.ofString "b"), ("interface", QVariant.ofString "LX200")]).1 = false ∧
    (addConnection sampleEnv registeredA
      [("name", QVariant.ofString "b"), ("interface", QVariant.ofString "LX200")]).2
        = registeredA :=
  ⟨by decide,
    (addConnection_rejected_unchanged sampleEnv registeredA
      [("name", QVariant.ofString "b"), ("interface", QVariant.ofString "LX200")]
      (by decide)).2.2.2⟩

/-- Counterexample to C4: the connections "A" and "B" were both added with the
TCP port 10001, which `usedTcpPorts` therefore lists twice. After
`removeConnection("A")` the port is still in `usedTcpPorts` and
`getFreeTcpPort` does not return it. And when the connection "A" is removed
while its client is running, a following `addConnection` with the name "A" is
rejected. -/
theorem removeConnection_port_still_claimed :
    ((getConnection sharedPort "A").get "tcpPort").toUInt sampleEnv.qt = 10001 ∧
    (removeConnection sampleEnv sharedPort "A").1 = true ∧
    10001 ∈ (removeConnection sampleEnv sharedPort "A").2.usedTcpPorts ∧
    getFreeTcpPort (removeConnection sampleEnv sharedPort "A").2 = 10002 ∧
    (startConnection sampleEnv sampleWorld registeredRemote "A").1 = true ∧
    (addConnection sampleEnv remoteStartedThenRemoved (virtualConfig "A")).1 = false := by
  decide

/-- C4 (amended): for a registered id whose stored configuration has the TCP
port `p`, `removeConnection(id)` removes one occurrence of `p` from
`usedTcpPorts`. When `p` was listed exactly once, it is no longer in
`usedTcpPorts`; `getFreeTcpPort` then returns `p` again as soon as `p` is the
first free port of its scan; and when `id` has no live client, a following
`addConnection` of any configuration named `id` is accepted exactly when it is
accepted on the initial, empty state. -/
theorem removeConnection_releases_port (env : Env) (s : State) (id : String) (p : Nat)
    (hid : id ≠ "")
    (hport : ((getConnection s id).get "tcpPort").toUInt env.qt = p)
    (hp : 0 < p) :
    (removeConnection env s id).2.usedTcpPorts = s.usedTcpPorts.erase p ∧
    (s.usedTcpPorts.count p = 1 → p ∉ (removeConnection env s id).2.usedTcpPorts) ∧
    (p ∉ (removeConnection env s id).2.usedTcpPorts → 10001 ≤ p → p ≤ 10009 →
      (∀ q, 10001 ≤ q → q < p → q ∈ (removeConnection env s id).2.usedTcpPorts) →
      getFreeTcpPort (removeConnection env s id).2 = p) ∧
    (p ∉ (removeConnection env s id).2.usedTcpPorts → 49152 ≤ p → p ≤ 65535 →
      (∀ q, 10001 ≤ q → q ≤ 10009 → q ∈ (removeConnection env s id).2.usedTcpPorts) →
      (∀ q, 49152 ≤ q → q < p → q ∈ (removeConnection env s id).2.usedTcpPorts) →
      getFreeTcpPort (removeConnection env s id).2 = p) ∧
    (QMap.contains s.connections id = false →
      ∀ properties : Props, (properties.get "name").toString env.qt = id →
        (addConnection env (removeConnection env s id).2 properties).1 =
          (addConnection env State.initial properties).1) := by
  have hrem : (removeConnection env s id).2.usedTcpPorts = s.usedTcpPorts.erase p := by
    simp only [removeConnection, hid, if_false, hport, hp, if_true]
  have hconn : (removeConnection env s id).2.connections = s.connections := by
    simp only [removeConnection, hid, if_false]
  refine ⟨hrem, ?_, ?_, ?_, ?_⟩
  · intro hcount
    rw [hrem]
    have hc : (s.usedTcpPorts.erase p).count p = 0 := by
      rw [List.count_erase_self, hcount]
    exact List.count_eq_zero.mp hc
  · intro hfree h1 h2 hprev
    unfold getFreeTcpPort
    rw [scanFreePort_eq_of_first _ 9 10001 p h1 (by omega) hfree hprev]
  · intro hfree h1 h2 hlow hprev
    unfold getFreeTcpPort
    rw [scanFreePort_none_of_all_used _ 9 10001 (fun q a b => hlow q a (by omega)),
      scanFreePort_eq_of_first _ 16384 49152 p h1 (by omega) hfree hprev]
  · intro hlive properties hname
    rw [addConnection_fst, addConnection_fst]
    apply checkConnection_isSome_congr
    rw [hname, hconn, hlive]
    rfl

/-- Witness of C4 (amended): the remote connection "A" received the port 10001
from `getFreeTcpPort`; after `removeConnection("A")` the port is free,
`getFreeTcpPort` returns it again, and a different configuration named "A"
is accepted. -/
theorem removeConnection_releases_port_witness :
    10001 ∉ (removeConnection sampleEnv registeredRemote "A").2.usedTcpPorts ∧
    getFreeTcpPort (removeConnection sampleEnv registeredRemote "A").2 = 10001 ∧
    (addConnection sampleEnv (removeConnection sampleEnv registeredRemote "A").2
      (remoteConfig "A" "Stellarium" 5000)).1 = true :=
  have h := removeConnection_releases_port sampleEnv registeredRemote "A" 10001
    (by decide) (by decide) (by decide)
  ⟨h.2.1 (by decide),
    h.2.2.1 (h.2.1 (by decide)) (by decide) (by decide) (fun q a b => absurd a (by omega)),
    (h.2.2.2.2 (by decide) (remoteConfig "A" "Stellarium" 5000) (by decide)).trans (by decide)⟩

/-- C5 (the code departs from the claim): `removeConnection` does not stop the
client of the connection it removes. After "a" is added, started and removed,
"a" is still a key of `connections` and `telescopes` and has no entry in
`connectionsProperties`; `stopConnection("a")` then returns true and leaves
the client in place. -/
theorem removeConnection_leaves_live_client :
    (startConnection sampleEnv sampleWorld registeredA "a").1 = true ∧
    QMap.contains startedThenRemoved.connections "a" = true ∧
    QMap.contains startedThenRemoved.telescopes "a" = true ∧
    QMap.contains startedThenRemoved.connectionsProperties "a" = false ∧
    stopConnection sampleEnv startedThenRemoved "a" = (true, startedThenRemoved) := by
  decide

/-- Counterexample to C6: for the remote INDI connection "i", a second
`stopConnection("i")` right after the first calls `removeIndiClient` and
`closeConnection` and emits `clientDisconnected("i")` once more. -/
theorem stopConnection_indi_second_call_observable :
    (stopConnection sampleEnv indiStoppedOnce "i").1 = true ∧
    (stopConnection sampleEnv indiStoppedOnce "i").2.events =
      indiStoppedOnce.events ++
        [Event.removeIndiClient "i", Event.closeConnection "i",
          Event.clientDisconnected "i"] ∧
    (stopConnection sampleEnv indiStoppedOnce "i").2 ≠ indiStoppedOnce := by
  decide

/-- C6 (amended): `stopConnection(id)` returns true in every state, also when
`id` was never live, and so does a second call right after it. The second call
changes no member variable (no map, no log, no selection) other than the
trace; and when the stored interface of `id` is not "INDI" it changes nothing
at all: it emits no signal and calls no collaborator. -/
theorem stopConnection_twice (env : Env) (s : State) (id : String) :
    (stopConnection env s id).1 = true ∧
    (stopConnection env (stopConnection env s id).2 id).1 = true ∧
    { (stopConnection env (stopConnection env s id).2 id).2 with
      events := (stopConnection env s id).2.events } = (stopConnection env s id).2 ∧
    (((QMap.value s.connectionsProperties id
        (QNode.value (QVariant.scalar QScalar.invalid))).toMap.get "interface").toString env.qt
          ≠ "INDI" →
      (stopConnection env (stopConnection env s id).2 id).2 = (stopConnection env s id).2) := by
  by_cases hid : id = ""
  · simp [stopConnection, hid]
  · simp only [stopConnection, hid, if_false]
    refine ⟨stopClient_fst env s id, stopClient_fst env _ id, ?_⟩
    rcases stopClient_teardown_facts env s id with h | ⟨h1, h2, h3, h4, h5⟩
    · rw [h]
      dsimp only
      rw [h]
      exact ⟨rfl, fun _ => rfl⟩
    · have key := stopClient_after_teardown env (stopClient env s id).2 id h1 h2 h3 h4
      rw [h5] at key
      exact key

/-- Witness of C6 (amended): the virtual connection "a" is started and stopped;
a second stop returns true and leaves the state as the first stop left it. -/
theorem stopConnection_twice_witness :
    (stopConnection sampleEnv
      (stopConnection sampleEnv
        (startConnection sampleEnv sampleWorld registeredA "a").2 "a").2 "a").2 =
    (stopConnection sampleEnv
      (startConnection sampleEnv sampleWorld registeredA "a").2 "a").2 :=
  (stopConnection_twice sampleEnv
    (startConnection sampleEnv sampleWorld registeredA "a").2 "a").2.2.2 (by decide)

/-- C7 (counterexample): the local connection "a" and the remote connection "b"
are live; "a" has a log stream, "b" has none. One pass of `communicate` polls
"b" while the current log is still the log of "a": `setCurrentLog("b")` finds no
stream and leaves `log_file` as it is. -/
theorem communicate_polls_remote_under_previous_log :
    QMap.keys localAndRemote.connections = ["a", "b"] ∧
    QMap.contains localAndRemote.telescopeServerLogStreams "a" = true ∧
    QMap.contains localAndRemote.telescopeServerLogStreams "b" = false ∧
    newEvents localAndRemote (communicate sampleWorld localAndRemote) =
      [Event.prepareCommunication "a" (some "a"),
       Event.performCommunication "a" (some "a") CommunicationOutcome.exchanged,
       Event.prepareCommunication "b" (some "a"),
       Event.performCommunication "b" (some "a") CommunicationOutcome.exchanged] := by
  decide

/-- C7 (amended): one call of `communicate` changes only the trace and
`log_file`. It handles the entries of `connections` one after the other, and
the calls it makes are exactly those of `expectedTrace`: for each client,
`setCurrentLog` with the client's id, which makes the client's own stream the
current log when the client has one and otherwise leaves the log of the
clients polled before (or the log from before the call); then one
`prepareCommunication`; then `performCommunication` right after it exactly
when `prepareCommunication` returned true. Every live client is prepared
once, and a client with a log stream is polled under its own log. -/
theorem communicate_prepares_then_performs (w : World) (s : State) :
    (∃ log, communicate w s =
      { s with events := s.events ++ newEvents s (communicate w s), log_file := log }) ∧
    newEvents s (communicate w s) =
      expectedTrace w s.telescopeServerLogStreams s.log_file (QMap.keys s.connections) ∧
    (newEvents s (communicate w s)).map Event.withoutLog =
      (QMap.keys s.connections).flatMap (expectedCalls w) ∧
    (newEvents s (communicate w s)).filterMap Event.preparedId = QMap.keys s.connections ∧
    (∀ e ∈ newEvents s (communicate w s), ∀ id log, e.clientLog = some (id, log) →
      QMap.contains s.telescopeServerLogStreams id = true → log = some id) ∧
    (∀ id log outcome,
      Event.performCommunication id log outcome ∈ newEvents s (communicate w s) →
        w.prepareCommunication id = true) := by
  obtain ⟨new, log, h1, h2, h3, h4⟩ := communicate_spec w s
  refine ⟨⟨log, by rw [h2]; exact h1⟩, communicate_trace w s, ?_⟩
  rw [h2]
  refine ⟨h3, polled_of_calls w _ new h3, h4, ?_⟩
  intro id l outcome hmem
  have hm : Event.performCommunication id none outcome ∈ new.map Event.withoutLog :=
    List.mem_map.mpr ⟨_, hmem, rfl⟩
  rw [h3] at hm
  obtain ⟨k, _, hk⟩ := List.mem_flatMap.mp hm
  unfold expectedCalls at hk
  by_cases hp : w.prepareCommunication k = true
  · simp [hp] at hk
    rw [hk.1]
    exact hp
  · simp [hp] at hk

/-- Witness of C7 (amended): the pass over the local client "a" and the remote
client "b" in a world where "b" does not want to communicate. -/
theorem communicate_prepares_then_performs_witness :
    newEvents localAndRemote
      (communicate { sampleWorld with prepareCommunication := fun id => decide (id = "a") }
        localAndRemote) =
      [Event.prepareCommunication "a" (some "a"),
       Event.performCommunication "a" (some "a") CommunicationOutcome.exchanged,
       Event.prepareCommunication "b" (some "a")] :=
  (communicate_prepares_then_performs
    { sampleWorld with prepareCommunication := fun id => decide (id = "a") }
    localAndRemote).2.1.trans (by decide)

/-- C9: for a parsed, non-empty document whose version string ("0.0.0" when
the key is absent) differs from `TELESCOPE_CONTROL_VERSION`, `loadConnections`
returns the state it was given: no connection is inserted and no client is
started, whether the rename succeeds or not; loaded into the initial state,
the registry ends empty. -/
theorem loadConnections_version_mismatch (env : Env) (w : World) (s : State)
    (file : ConnectionsFile) (document : QMap String QNode)
    (hcontent : file.content = some document)
    (hnonempty : document ≠ [])
    (hversion :
      (QMap.value document "version" (QNode.value (QVariant.ofString "0.0.0"))).toString env.qt
        ≠ env.TELESCOPE_CONTROL_VERSION) :
    loadConnections env w file s = s ∧
    loadConnections env w { file with renameSucceeds := true } s =
      loadConnections env w { file with renameSucceeds := false } s ∧
    (loadConnections env w file State.initial).connectionsProperties = [] ∧
    (loadConnections env w file State.initial).connections = [] := by
  have key : ∀ (f : ConnectionsFile) (st : State), f.content = some document →
      loadConnections env w f st = st := by
    intro f st hf
    unfold loadConnections
    split
    · rfl
    · split
      · rfl
      · rw [hf]
        have hne : List.isEmpty document = false := by
          cases document with
          | nil => exact absurd rfl hnonempty
          | cons a l => rfl
        simp only [hne]
        simp [hversion]
  refine ⟨key file s hcontent, ?_, ?_, ?_⟩
  · rw [key _ s (by simpa using hcontent), key _ s (by simpa using hcontent)]
  · rw [key file _ hcontent]; rfl
  · rw [key file _ hcontent]; rfl

/-- Witness of C9: a document with version "0.0.0", holding a connection that
connects at startup, is loaded by a build of version "1.4" whose rename fails;
the state stays the initial one. -/
theorem loadConnections_version_mismatch_witness :
    loadConnections sampleEnv sampleWorld
      ⟨true, true,
        some [("Scope1", QNode.map
                (("connectsAtStartup", QVariant.ofBool true) :: virtualConfig "Scope1")),
              ("version", QNode.value (QVariant.ofString "0.0.0"))], false⟩
      State.initial = State.initial :=
  (loadConnections_version_mismatch sampleEnv sampleWorld State.initial
    ⟨true, true,
      some [("Scope1", QNode.map
              (("connectsAtStartup", QVariant.ofBool true) :: virtualConfig "Scope1")),
            ("version", QNode.value (QVariant.ofString "0.0.0"))], false⟩
    [("Scope1", QNode.map
        (("connectsAtStartup", QVariant.ofBool true) :: virtualConfig "Scope1")),
      ("version", QNode.value (QVariant.ofString "0.0.0"))]
    rfl (by decide) (by decide)).1

/-- C10: `getFreeTcpPort` returns the smallest port of 10001..10009 that is not
in `usedTcpPorts` if there is one; otherwise the smallest port of 49152..65535
that is not in `usedTcpPorts` if there is one; in both cases the result is not
a claimed port. It returns 10001 when every port of both ranges is claimed,
and its result is a claimed port only in that case. -/
theorem getFreeTcpPort_first_free (s : State) :
    ((∃ p, 10001 ≤ p ∧ p ≤ 10009 ∧ p ∉ s.usedTcpPorts) →
      10001 ≤ getFreeTcpPort s ∧ getFreeTcpPort s ≤ 10009 ∧
      getFreeTcpPort s ∉ s.usedTcpPorts ∧
      ∀ q, 10001 ≤ q → q < getFreeTcpPort s → q ∈ s.usedTcpPorts) ∧
    ((∀ p, 10001 ≤ p → p ≤ 10009 → p ∈ s.usedTcpPorts) →
      (∃ p, 49152 ≤ p ∧ p ≤ 65535 ∧ p ∉ s.usedTcpPorts) →
      49152 ≤ getFreeTcpPort s ∧ getFreeTcpPort s ≤ 65535 ∧
      getFreeTcpPort s ∉ s.usedTcpPorts ∧
      ∀ q, 49152 ≤ q → q < getFreeTcpPort s → q ∈ s.usedTcpPorts) ∧
    ((∀ p, 10001 ≤ p → p ≤ 10009 → p ∈ s.usedTcpPorts) →
      (∀ p, 49152 ≤ p → p ≤ 65535 → p ∈ s.usedTcpPorts) →
      getFreeTcpPort s = 10001) ∧
    (getFreeTcpPort s ∈ s.usedTcpPorts →
      (∀ p, 10001 ≤ p → p ≤ 10009 → p ∈ s.usedTcpPorts) ∧
      (∀ p, 49152 ≤ p → p ≤ 65535 → p ∈ s.usedTcpPorts)) := by
  unfold getFreeTcpPort
  cases hlow : scanFreePort s.usedTcpPorts 10001 9 with
  | some r =>
    have hr := scanFreePort_some _ _ _ _ hlow
    dsimp only
    refine ⟨fun _ => ⟨hr.1, by omega, hr.2.2.1, hr.2.2.2⟩, ?_, ?_, ?_⟩
    · intro hall _
      exact absurd (hall r hr.1 (by omega)) hr.2.2.1
    · intro hall _
      exact absurd (hall r hr.1 (by omega)) hr.2.2.1
    · intro hmem
      exact absurd hmem hr.2.2.1
  | none =>
    have hl := scanFreePort_none _ _ _ hlow
    have hlow' : ∀ p, 10001 ≤ p → p ≤ 10009 → p ∈ s.usedTcpPorts :=
      fun p h1 h2 => hl p h1 (by omega)
    cases hhigh : scanFreePort s.usedTcpPorts 49152 16384 with
    | some r =>
      have hr := scanFreePort_some _ _ _ _ hhigh
      dsimp only
      refine ⟨?_, fun _ _ => ⟨hr.1, by omega, hr.2.2.1, hr.2.2.2⟩, ?_, ?_⟩
      · rintro ⟨p, h1, h2, h3⟩
        exact absurd (hlow' p h1 h2) h3
      · intro _ hall
        exact absurd (hall r hr.1 (by omega)) hr.2.2.1
      · intro hmem
        exact absurd hmem hr.2.2.1
    | none =>
      have hh := scanFreePort_none _ _ _ hhigh
      have hhigh' : ∀ p, 49152 ≤ p → p ≤ 65535 → p ∈ s.usedTcpPorts :=
        fun p h1 h2 => hh p h1 (by omega)
      dsimp only
      refine ⟨?_, ?_, fun _ _ => rfl, fun _ => ⟨hlow', hhigh'⟩⟩
      · rintro ⟨p, h1, h2, h3⟩
        exact absurd (hlow' p h1 h2) h3
      · rintro _ ⟨p, h1, h2, h3⟩
        exact absurd (hhigh' p h1 h2) h3

/-! ## Claims on the port pool -/

/-- C11 (counterexample): the remote connections "A" and "B" are added with
the same explicit port 10001. The stored configuration of "A" is remote and
its port is valid, but the port occurs twice in `usedTcpPorts`. -/
theorem usedTcpPorts_holds_port_twice :
    ∃ node : QNode,
      QMap.find
        (runRegistryOps sampleEnv
          [RegistryOp.addConnection (remoteConfig "A" "virtual" 10001),
           RegistryOp.addConnection (remoteConfig "B" "virtual" 10001)]).connectionsProperties
        "A" = some node ∧
      (node.toMap.get "isRemoteConnection").toBool = true ∧
      storedPort sampleEnv.qt node = 10001 ∧
      isValidTcpPort (storedPort sampleEnv.qt node) = true ∧
      (runRegistryOps sampleEnv
        [RegistryOp.addConnection (remoteConfig "A" "virtual" 10001),
         RegistryOp.addConnection (remoteConfig "B" "virtual" 10001)]).usedTcpPorts.count
        10001 = 2 :=
  ⟨_, rfl, by decide, by decide, by decide, by decide⟩

/-- C11 (amended): in every state reached from the initial state by calls of
`addConnection`, `removeConnection` and `removeAllConnections`, the valid port
of every stored configuration (so of every remote one) is in `usedTcpPorts`,
and it occurs there at least as often as there are stored configurations that
hold it. -/
theorem usedTcpPorts_covers_stored_ports (env : Env) (ops : List RegistryOp)
    (id : String) (node : QNode)
    (hfind : QMap.find (runRegistryOps env ops).connectionsProperties id = some node)
    (hvalid : isValidTcpPort (storedPort env.qt node) = true) :
    storedPort env.qt node ∈ (runRegistryOps env ops).usedTcpPorts ∧
    1 ≤ storedPortCount env.qt (runRegistryOps env ops).connectionsProperties
      (storedPort env.qt node) ∧
    storedPortCount env.qt (runRegistryOps env ops).connectionsProperties
      (storedPort env.qt node) ≤
      (runRegistryOps env ops).usedTcpPorts.count (storedPort env.qt node) := by
  have hpos : 0 < storedPort env.qt node := by
    simp only [isValidTcpPort, decide_eq_true_eq] at hvalid
    omega
  have hcov := portsCovered_run env ops (storedPort env.qt node) hpos
  have hone : 1 ≤ storedPortCount env.qt (runRegistryOps env ops).connectionsProperties
      (storedPort env.qt node) := by
    unfold storedPortCount
    exact List.countP_pos_iff.mpr ⟨(id, node), QMap.find_mem _ id node hfind, by simp⟩
  exact ⟨List.count_pos_iff.mp (lt_of_lt_of_le hone hcov), hone, hcov⟩

/-- Witness of C11 (amended): the remote connection "A" added without a port
holds the allocated port 10001, and 10001 is in `usedTcpPorts`. -/
theorem usedTcpPorts_covers_stored_ports_witness :
    10001 ∈ (runRegistryOps sampleEnv
      [RegistryOp.addConnection
        [("name", QVariant.ofString "A"), ("interface", QVariant.ofString "virtual"),
         ("isRemoteConnection", QVariant.ofBool true)]]).usedTcpPorts :=
  (usedTcpPorts_covers_stored_ports sampleEnv
    [RegistryOp.addConnection
      [("name", QVariant.ofString "A"), ("interface", QVariant.ofString "virtual"),
       ("isRemoteConnection", QVariant.ofBool true)]]
    "A"
    (QMap.value
      (runRegistryOps sampleEnv
        [RegistryOp.addConnection
          [("name", QVariant.ofString "A"), ("interface", QVariant.ofString "virtual"),
           ("isRemoteConnection", QVariant.ofBool true)]]).connectionsProperties
      "A" (QNode.value (QVariant.scalar QScalar.invalid)))
    (by decide) (by decide)).1

/-- C12: on the initial state, two accepted remote configurations with
distinct names that both omit `tcpPort` are stored with the ports 10001 and
10002. In every state, two successive accepted remote configurations without
a valid port are stored with different ports whenever a port of the scanned
ranges is still free when the second one is added. -/
theorem addConnection_auto_ports_distinct (env : Env) :
    (∀ p1 p2 : Props,
      (p1.getD "isRemoteConnection" (QScalar.bool false)).toBool = true →
      (p2.getD "isRemoteConnection" (QScalar.bool false)).toBool = true →
      QMap.find p1 "tcpPort" = none → QMap.find p2 "tcpPort" = none →
      (p1.get "name").toString env.qt ≠ (p2.get "name").toString env.qt →
      (addConnection env State.initial p1).1 = true →
      (addConnection env (addConnection env State.initial p1).2 p2).1 = true →
      (getConnection (addConnection env (addConnection env State.initial p1).2 p2).2
        ((p1.get "name").toString env.qt)).get "tcpPort" = QVariant.ofInt 10001 ∧
      (getConnection (addConnection env (addConnection env State.initial p1).2 p2).2
        ((p2.get "name").toString env.qt)).get "tcpPort" = QVariant.ofInt 10002) ∧
    (∀ (s : State) (p1 p2 : Props),
      (p1.getD "isRemoteConnection" (QScalar.bool false)).toBool = true →
      (p2.getD "isRemoteConnection" (QScalar.bool false)).toBool = true →
      isValidTcpPort (wrapUInt32 ((p1.get "tcpPort").toInt env.qt)) = false →
      isValidTcpPort (wrapUInt32 ((p2.get "tcpPort").toInt env.qt)) = false →
      (addConnection env s p1).1 = true →
      (addConnection env (addConnection env s p1).2 p2).1 = true →
      (∃ q, ((10001 ≤ q ∧ q ≤ 10009) ∨ (49152 ≤ q ∧ q ≤ 65535)) ∧
        q ∉ (addConnection env s p1).2.usedTcpPorts) →
      (getConnection (addConnection env s p1).2
        ((p1.get "name").toString env.qt)).get "tcpPort" =
          QVariant.ofInt (getFreeTcpPort s) ∧
      (getConnection (addConnection env (addConnection env s p1).2 p2).2
        ((p2.get "name").toString env.qt)).get "tcpPort" =
          QVariant.ofInt (getFreeTcpPort (addConnection env s p1).2) ∧
      getFreeTcpPort s ≠ getFreeTcpPort (addConnection env s p1).2) := by
  have general : ∀ (s : State) (p1 p2 : Props),
      (p1.getD "isRemoteConnection" (QScalar.bool false)).toBool = true →
      (p2.getD "isRemoteConnection" (QScalar.bool false)).toBool = true →
      isValidTcpPort (wrapUInt32 ((p1.get "tcpPort").toInt env.qt)) = false →
      isValidTcpPort (wrapUInt32 ((p2.get "tcpPort").toInt env.qt)) = false →
      (addConnection env s p1).1 = true →
      (addConnection env (addConnection env s p1).2 p2).1 = true →
      (getConnection (addConnection env s p1).2
        ((p1.get "name").toString env.qt)).get "tcpPort" =
          QVariant.ofInt (getFreeTcpPort s) ∧
      (getConnection (addConnection env (addConnection env s p1).2 p2).2
        ((p2.get "name").toString env.qt)).get "tcpPort" =
          QVariant.ofInt (getFreeTcpPort (addConnection env s p1).2) ∧
      (addConnection env s p1).2.usedTcpPorts = s.usedTcpPorts ++ [getFreeTcpPort s] ∧
      ((p1.get "name").toString env.qt ≠ (p2.get "name").toString env.qt →
        (getConnection (addConnection env (addConnection env s p1).2 p2).2
          ((p1.get "name").toString env.qt)).get "tcpPort" =
            QVariant.ofInt (getFreeTcpPort s)) := by
    intro s p1 p2 r1 r2 v1 v2 a1 a2
    obtain ⟨port1, hp1, hf1, _, hu1, _⟩ := accepted_remote env s p1 r1 a1
    obtain ⟨port2, hp2, hf2, _, _, hcp2⟩ := accepted_remote env _ p2 r2 a2
    simp only [v1, Bool.false_eq_true, if_false] at hp1
    simp only [v2, Bool.false_eq_true, if_false] at hp2
    subst hp1
    subst hp2
    have g1 := Props.get_of_find _ _ _ hf1
    refine ⟨g1, Props.get_of_find _ _ _ hf2, ?_, ?_⟩
    · rw [hu1, (getFreeTcpPort_valid s).1]
    · intro hne
      have hname1 : (p1.get "name").toString env.qt ≠ "" := by
        obtain ⟨c, hc, _⟩ := addConnection_accepted env s p1 a1
        exact (checkConnection_some env s p1 c hc).1
      rw [← g1]
      simp only [getConnection, hname1, if_false]
      rw [hcp2, QMap.value_insert, if_neg (Ne.symm hne)]
  constructor
  · intro p1 p2 r1 r2 o1 o2 hne a1 a2
    have i1 : isValidTcpPort (wrapUInt32 ((p1.get "tcpPort").toInt env.qt)) = false := by
      rw [Props.get_of_find_none p1 _ o1]; rfl
    have i2 : isValidTcpPort (wrapUInt32 ((p2.get "tcpPort").toInt env.qt)) = false := by
      rw [Props.get_of_find_none p2 _ o2]; rfl
    obtain ⟨_, g2, gu, g3⟩ := general State.initial p1 p2 r1 r2 i1 i2 a1 a2
    have e1 : getFreeTcpPort State.initial = 10001 := by decide
    have e2 : getFreeTcpPort (addConnection env State.initial p1).2 = 10002 := by
      rw [getFreeTcpPort_congr _ { State.initial with usedTcpPorts := [10001] }
        (by rw [gu, e1]; rfl)]
      decide
    rw [e2] at g2
    have g3' := g3 hne
    rw [e1] at g3'
    exact ⟨g3', g2⟩
  · intro s p1 p2 r1 r2 i1 i2 a1 a2 hfree
    obtain ⟨g1, g2, gu, _⟩ := general s p1 p2 r1 r2 i1 i2 a1 a2
    refine ⟨g1, g2, ?_⟩
    obtain ⟨q, hq, hqf⟩ := hfree
    have hnot := getFreeTcpPort_not_mem _ q hq hqf
    intro heq
    apply hnot
    rw [← heq, gu]
    simp

/-- Witness of C12: two remote configurations "A" and "B" without a port. -/
theorem addConnection_auto_ports_distinct_witness :
    (getConnection
      (addConnection sampleEnv registeredRemote
        [("name", QVariant.ofString "B"), ("interface", QVariant.ofString "Stellarium"),
         ("isRemoteConnection", QVariant.ofBool true)]).2 "A").get "tcpPort"
      = QVariant.ofInt 10001 ∧
    (getConnection
      (addConnection sampleEnv registeredRemote
        [("name", QVariant.ofString "B"), ("interface", QVariant.ofString "Stellarium"),
         ("isRemoteConnection", QVariant.ofBool true)]).2 "B").get "tcpPort"
      = QVariant.ofInt 10002 :=
  (addConnection_auto_ports_distinct sampleEnv).1
    [("name", QVariant.ofString "A"), ("interface", QVariant.ofString "virtual"),
     ("isRemoteConnection", QVariant.ofBool true)]
    [("name", QVariant.ofString "B"), ("interface", QVariant.ofString "Stellarium"),
     ("isRemoteConnection", QVariant.ofBool true)]
    (by decide) (by decide) (by decide) (by decide) (by decide) (by decide) (by decide)

/-! ## Claims on startConnection -/

/-- C13 (counterexample): a remote "INDI" connection and an "INDI Pointer"
connection are started twice in a row with no stop in between. Both second
calls return true again: the remote connection is opened a second time, and a
second pointer client is constructed, registered and announced. -/
theorem startConnection_indi_started_twice :
    (startConnection sampleEnv sampleWorld indiRegistered "i").1 = true ∧
    (startConnection sampleEnv sampleWorld
      (startConnection sampleEnv sampleWorld indiRegistered "i").2 "i").1 = true ∧
    newEvents (startConnection sampleEnv sampleWorld indiRegistered "i").2
      (startConnection sampleEnv sampleWorld
        (startConnection sampleEnv sampleWorld indiRegistered "i").2 "i").2 =
      [Event.openConnection "i" "localhost" 7624] ∧
    (startConnection sampleEnv sampleWorld pointerRegistered "p").1 = true ∧
    (startConnection sampleEnv sampleWorld
      (startConnection sampleEnv sampleWorld pointerRegistered "p").2 "p").1 = true ∧
    newEvents (startConnection sampleEnv sampleWorld pointerRegistered "p").2
      (startConnection sampleEnv sampleWorld
        (startConnection sampleEnv sampleWorld pointerRegistered "p").2 "p").2 =
      [Event.clientConnected "p"] := by
  decide

/-- C13 (amended): when `startConnection(id)` returned true for a stored
configuration that is neither of interface "INDI Pointer" nor a remote "INDI"
connection, `id` is in the live-client map afterwards; and in every state in
which `id` is in the live-client map, `startConnection(id)` returns false and
leaves the stored configurations, the three client maps and the trace as they
were: no client is constructed or registered and nothing is emitted. -/
theorem startConnection_rejects_live (env : Env) (w w2 : World) (s : State) (id : String)
    (hstart : (startConnection env w s id).1 = true)
    (hptr : ((getConnection s id).get "interface").toString env.qt ≠ "INDI Pointer")
    (hindi : ¬ (((getConnection s id).get "interface").toString env.qt = "INDI" ∧
        ((getConnection s id).get "isRemoteConnection").toBool = true)) :
    doesClientExist (startConnection env w s id).2 id = true ∧
    (startConnection env w2 (startConnection env w s id).2 id).1 = false ∧
    (∀ t : State, doesClientExist t id = true →
      (startConnection env w2 t id).1 = false ∧
      SameClients t (startConnection env w2 t id).2) := by
  have hlive : doesClientExist (startConnection env w s id).2 id = true := by
    rcases startConnection_true env w s id hstart with ⟨a, b, -⟩ | ⟨-, c1, -, b2, -⟩
    · exact absurd ⟨a, b⟩ hindi
    · unfold doesClientExist
      rw [b2, if_pos hptr]
      exact QMap.contains_insert_self _ _ _
  exact ⟨hlive, (startConnection_of_live env w2 _ id hlive).1,
    fun t ht => startConnection_of_live env w2 t id ht⟩

/-- Witness of C13 (amended): the virtual connection "a" is started; a second
start returns false. -/
theorem startConnection_rejects_live_witness :
    (startConnection sampleEnv sampleWorld
      (startConnection sampleEnv sampleWorld registeredA "a").2 "a").1 = false :=
  (startConnection_rejects_live sampleEnv sampleWorld sampleWorld registeredA "a"
    (by decide) (by decide) (by decide)).2.1

/-- C14 (counterexample): three starts return true and miss a part of the
claim. Starting the remote "INDI" connection "i" registers no client and emits
no `clientConnected`; starting the "INDI Pointer" connection "p" emits
`clientConnected` and puts the client into `telescopes`, but not into the
live-client map; starting the local "INDI" connection "n" puts the client into
the live-client map, but emits no `clientConnected`. -/
theorem startConnection_indi_remote_not_registered :
    (startConnection sampleEnv sampleWorld indiRegistered "i").1 = true ∧
    doesClientExist (startConnection sampleEnv sampleWorld indiRegistered "i").2 "i" = false ∧
    Event.clientConnected "i" ∉
      (startConnection sampleEnv sampleWorld indiRegistered "i").2.events ∧
    (startConnection sampleEnv sampleWorld pointerRegistered "p").1 = true ∧
    doesClientExist (startConnection sampleEnv sampleWorld pointerRegistered "p").2 "p"
      = false ∧
    Event.clientConnected "p" ∈
      (startConnection sampleEnv sampleWorld pointerRegistered "p").2.events ∧
    (startConnection indiEnv sampleWorld localIndiRegistered "n").1 = true ∧
    doesClientExist (startConnection indiEnv sampleWorld localIndiRegistered "n").2 "n"
      = true ∧
    Event.clientConnected "n" ∉
      (startConnection indiEnv sampleWorld localIndiRegistered "n").2.events := by
  decide

/-- C14 (amended): when `startConnection(id)` returns true, then: unless the
stored interface is "INDI", `id` has a client in `telescopes` and the call
emitted `clientConnected(id)` and nothing else; unless the configuration is an
"INDI Pointer" or a remote "INDI" connection, `id` has a client in the
live-client map (`doesClientExist(id)`). A local "INDI" start puts the client
into `indiDevices` and only starts the driver; a remote "INDI" start registers
nothing and only opens the connection; an "INDI Pointer" start leaves the
live-client map as it was. Whenever the constructed client reports not
initialized, `startConnection` returns false and `connections`, `telescopes`
and `indiDevices` are left as they were. -/
theorem startConnection_registers_client (env : Env) (w : World) (s : State) (id : String) :
    ((startConnection env w s id).1 = true →
      ((getConnection s id).get "interface").toString env.qt ≠ "INDI" →
        QMap.contains (startConnection env w s id).2.telescopes id = true ∧
        newEvents s (startConnection env w s id).2 = [Event.clientConnected id]) ∧
    ((startConnection env w s id).1 = true →
      ((getConnection s id).get "interface").toString env.qt ≠ "INDI Pointer" →
      ¬ (((getConnection s id).get "interface").toString env.qt = "INDI" ∧
        ((getConnection s id).get "isRemoteConnection").toBool = true) →
        doesClientExist (startConnection env w s id).2 id = true) ∧
    ((startConnection env w s id).1 = true →
      ((getConnection s id).get "interface").toString env.qt = "INDI" →
      ((getConnection s id).get "isRemoteConnection").toBool = false →
        QMap.contains (startConnection env w s id).2.indiDevices id = true ∧
        (startConnection env w s id).2.telescopes = s.telescopes ∧
        newEvents s (startConnection env w s id).2 =
          [Event.startDriver (((getConnection s id).get "driverId").toString env.qt)
            (((getConnection s id).get "name").toString env.qt)]) ∧
    ((startConnection env w s id).1 = true →
      ((getConnection s id).get "interface").toString env.qt = "INDI" →
      ((getConnection s id).get "isRemoteConnection").toBool = true →
        (startConnection env w s id).2.connections = s.connections ∧
        (startConnection env w s id).2.telescopes = s.telescopes ∧
        (startConnection env w s id).2.indiDevices = s.indiDevices ∧
        newEvents s (startConnection env w s id).2 =
          [Event.openConnection (((getConnection s id).get "name").toString env.qt)
            (((getConnection s id).getD "host" (QScalar.string "localhost")).toString env.qt)
            (((getConnection s id).get "tcpPort").toUInt env.qt % 65536)]) ∧
    ((startConnection env w s id).1 = true →
      ((getConnection s id).get "interface").toString env.qt = "INDI Pointer" →
        (startConnection env w s id).2.connections = s.connections) ∧
    (∀ c, constructedClient env w (getConnection s id) = some c →
      w.isInitialized c = false →
        (startConnection env w s id).1 = false ∧
        (startConnection env w s id).2.connections = s.connections ∧
        (startConnection env w s id).2.telescopes = s.telescopes ∧
        (startConnection env w s id).2.indiDevices = s.indiDevices) := by
  refine ⟨fun h hn => ?_, fun h hp hr => ?_, fun h hi hr => ?_, fun h hi hr => ?_,
    fun h hp => ?_, fun c hc hi => ?_⟩
  · rcases startConnection_true env w s id h with ⟨a, -⟩ | ⟨-, c1, -, -, b3, -⟩
    · exact absurd a hn
    · obtain ⟨q1, -, q3⟩ := b3 hn
      unfold newEvents
      rw [q1, q3, List.drop_left]
      exact ⟨QMap.contains_insert_self _ _ _, rfl⟩
  · rcases startConnection_true env w s id h with ⟨a, b, -⟩ | ⟨-, c1, -, b2, -, -⟩
    · exact absurd ⟨a, b⟩ hr
    · unfold doesClientExist
      rw [b2, if_pos hp]
      exact QMap.contains_insert_self _ _ _
  · rcases startConnection_true env w s id h with ⟨-, b, -⟩ | ⟨-, c1, -, -, -, b4⟩
    · rw [hr] at b
      exact absurd b (by simp)
    · obtain ⟨q1, q2, q3⟩ := b4 hi
      unfold newEvents
      rw [q1, q2, q3, List.drop_left]
      exact ⟨QMap.contains_insert_self _ _ _, rfl, rfl⟩
  · rcases startConnection_true env w s id h with ⟨-, -, -, a2, a3, a4, a5⟩ | ⟨a, -⟩
    · unfold newEvents
      rw [a2, a3, a4, a5, List.drop_left]
      exact ⟨rfl, rfl, rfl, rfl⟩
    · exact absurd ⟨hi, hr⟩ a
  · rcases startConnection_true env w s id h with ⟨a, -⟩ | ⟨-, c1, -, b2, -, -⟩
    · rw [hp] at a
      exact absurd a (by decide)
    · rw [b2, if_neg (fun hh => hh hp)]
  · obtain ⟨u1, -, u3, u4, u5⟩ := startConnection_not_initialized env w s id c hc hi
    exact ⟨u1, u3, u4, u5⟩

/-- Witness of C14 (amended): starting the virtual connection "a" registers its
client and emits `clientConnected`; in a world where its client does not
initialize the start returns false. -/
theorem startConnection_registers_client_witness :
    (QMap.contains (startConnection sampleEnv sampleWorld registeredA "a").2.telescopes "a"
        = true ∧
      newEvents registeredA (startConnection sampleEnv sampleWorld registeredA "a").2 =
        [Event.clientConnected "a"]) ∧
    doesClientExist (startConnection sampleEnv sampleWorld registeredA "a").2 "a" = true ∧
    (startConnection sampleEnv uninitializedWorld registeredA "a").1 = false :=
  ⟨(startConnection_registers_client sampleEnv sampleWorld registeredA "a").1
      (by decide) (by decide),
    (startConnection_registers_client sampleEnv sampleWorld registeredA "a").2.1
      (by decide) (by decide) (by decide),
    ((startConnection_registers_client sampleEnv uninitializedWorld registeredA
      "a").2.2.2.2.2 ⟨"a", ClientKind.dummy, []⟩ (by decide) rfl).1⟩

/-! ## Claims on removal and on the stored fields -/

/-- C15 (evaluation of the code): the local configuration "s" that names the
port 10001 is accepted and 10001 is claimed in `usedTcpPorts`, but the port is
not stored with the configuration, so `removeConnection("s")` removes the
entry and leaves the port claimed: `getFreeTcpPort` passes over it. And when
an id is bound to two shortcut slots, a first `removeConnection` unbinds one
slot and a second call changes `idFromShortcutNumber` again. -/
theorem removeConnection_keeps_local_port :
    (addConnection sampleEnv State.initial localWithPort).1 = true ∧
    (addConnection sampleEnv State.initial localWithPort).2.usedTcpPorts = [10001] ∧
    (removeConnection sampleEnv
      (addConnection sampleEnv State.initial localWithPort).2 "s").1 = true ∧
    (removeConnection sampleEnv
      (addConnection sampleEnv State.initial localWithPort).2 "s").2.connectionsProperties
        = [] ∧
    (removeConnection sampleEnv
      (addConnection sampleEnv State.initial localWithPort).2 "s").2.usedTcpPorts
        = [10001] ∧
    getFreeTcpPort (removeConnection sampleEnv
      (addConnection sampleEnv State.initial localWithPort).2 "s").2 = 10002 ∧
    boundTwice.idFromShortcutNumber = [(1, "a"), (2, "a")] ∧
    (removeConnection sampleEnv boundTwice "a").2.idFromShortcutNumber = [(2, "a")] ∧
    (removeConnection sampleEnv
      (removeConnection sampleEnv boundTwice "a").2 "a").2.idFromShortcutNumber = [] := by
  decide

/-- C16 (evaluation of the code): after `removeAllConnections` on the registry
with the remote connection "A" (port 10001, shortcut 1) the configurations and
the clients are gone, but `usedTcpPorts` still holds 10001 and
`idFromShortcutNumber` still binds the slot 1 to "A"; `removeConnection("A")`
on the same registry releases both. -/
theorem removeAllConnections_keeps_ports_and_shortcuts :
    remoteWithShortcut.usedTcpPorts = [10001] ∧
    remoteWithShortcut.idFromShortcutNumber = [(1, "A")] ∧
    (removeAllConnections remoteWithShortcut).connectionsProperties = [] ∧
    (removeAllConnections remoteWithShortcut).connections = [] ∧
    (removeAllConnections remoteWithShortcut).telescopes = [] ∧
    (removeAllConnections remoteWithShortcut).usedTcpPorts = [10001] ∧
    (removeAllConnections remoteWithShortcut).idFromShortcutNumber = [(1, "A")] ∧
    (removeConnection sampleEnv remoteWithShortcut "A").2.usedTcpPorts = [] ∧
    (removeConnection sampleEnv remoteWithShortcut "A").2.idFromShortcutNumber = [] := by
  decide

/-- C17: for a configuration with `isRemoteConnection` true, `addConnection`
returns false when the host is the empty string; when it returns true, the
stored `tcpPort` is the given port if that lies in 1024..65535 and the result
of `getFreeTcpPort` on the pool before the call otherwise, and the stored port
is in `usedTcpPorts` after the call. -/
theorem addConnection_remote_port (env : Env) (s : State) (properties : Props)
    (hrem : (properties.getD "isRemoteConnection" (QScalar.bool false)).toBool = true) :
    ((properties.getD "host" (QScalar.string "localhost")).toString env.qt = "" →
      (addConnection env s properties).1 = false) ∧
    ((addConnection env s properties).1 = true →
      ∃ port : Int,
        (1024 ≤ (properties.get "tcpPort").toInt env.qt ∧
            (properties.get "tcpPort").toInt env.qt ≤ 65535 →
          port = (properties.get "tcpPort").toInt env.qt) ∧
        (¬ (1024 ≤ (properties.get "tcpPort").toInt env.qt ∧
            (properties.get "tcpPort").toInt env.qt ≤ 65535) →
          port = (getFreeTcpPort s : Int)) ∧
        (getConnection (addConnection env s properties).2
          ((properties.get "name").toString env.qt)).get "tcpPort" = QVariant.ofInt port ∧
        port.toNat ∈ (addConnection env s properties).2.usedTcpPorts) := by
  have hrange := QVariant.toInt_range env.qt (properties.get "tcpPort")
  have hvalid := isValidTcpPort_wrapUInt32 _ hrange.1 hrange.2
  constructor
  · intro hhost
    cases hacc : (addConnection env s properties).1 with
    | false => rfl
    | true =>
      obtain ⟨c, hc, _⟩ := addConnection_accepted env s properties hacc
      exact absurd hhost ((stored_remote env s properties c hc).1 hrem).1
  · intro hacc
    obtain ⟨port, hport, hfind, hv, hused, _⟩ := accepted_remote env s properties hrem hacc
    have hnat : wrapUInt32 port = port.toNat := by
      rw [hport]
      by_cases hg : isValidTcpPort (wrapUInt32 ((properties.get "tcpPort").toInt env.qt)) = true
      · have := hvalid.mp hg
        simp only [hg, if_true]
        unfold wrapUInt32
        omega
      · simp only [hg, Bool.false_eq_true, if_false]
        rw [(getFreeTcpPort_valid s).1]
        simp
    refine ⟨port, ?_, ?_, Props.get_of_find _ _ _ hfind, ?_⟩
    · intro h
      rw [hport, if_pos (hvalid.mpr h)]
    · intro h
      have hn : ¬ isValidTcpPort (wrapUInt32 ((properties.get "tcpPort").toInt env.qt)) = true :=
        fun hg => h (hvalid.mp hg)
      rw [hport, if_neg hn]
    · rw [hused, ← hnat]
      simp

/-- Witness of C17: a remote configuration without a port on the initial state
stores the port 10001, which is then in `usedTcpPorts`. -/
theorem addConnection_remote_port_witness :
    ∃ port : Int,
      (getConnection registeredRemote "A").get "tcpPort" = QVariant.ofInt port ∧
      port.toNat ∈ registeredRemote.usedTcpPorts :=
  have h := (addConnection_remote_port sampleEnv State.initial
    [("name", QVariant.ofString "A"), ("interface", QVariant.ofString "virtual"),
     ("isRemoteConnection", QVariant.ofBool true)] (by decide)).2 (by decide)
  h.elim fun port hp => ⟨port, hp.2.2.1, hp.2.2.2⟩

/-- C18: for an accepted configuration whose `shortcutNumber` is in 1..9 the
number is stored; an unbound slot becomes bound to the name of the
configuration; a slot that is bound already keeps its binding. A number
outside 1..9 is not stored and changes no binding. No other slot changes, the
slots stay pairwise distinct, and whether the configuration is accepted does
not depend on the bindings. -/
theorem addConnection_shortcut_binding (env : Env) (s : State) (properties : Props)
    (hacc : (addConnection env s properties).1 = true) :
    ((properties.get "shortcutNumber").toInt env.qt > 0 ∧
        (properties.get "shortcutNumber").toInt env.qt < 10 →
      (getConnection (addConnection env s properties).2
        ((properties.get "name").toString env.qt)).get "shortcutNumber" =
          QVariant.ofInt ((properties.get "shortcutNumber").toInt env.qt) ∧
      (QMap.find s.idFromShortcutNumber ((properties.get "shortcutNumber").toInt env.qt)
          = none →
        QMap.find (addConnection env s properties).2.idFromShortcutNumber
          ((properties.get "shortcutNumber").toInt env.qt) =
            some ((properties.get "name").toString env.qt)) ∧
      (∀ other : String,
        QMap.find s.idFromShortcutNumber ((properties.get "shortcutNumber").toInt env.qt)
          = some other →
        (addConnection env s properties).2.idFromShortcutNumber = s.idFromShortcutNumber)) ∧
    (¬ ((properties.get "shortcutNumber").toInt env.qt > 0 ∧
        (properties.get "shortcutNumber").toInt env.qt < 10) →
      QMap.find (getConnection (addConnection env s properties).2
        ((properties.get "name").toString env.qt)) "shortcutNumber" = none ∧
      (addConnection env s properties).2.idFromShortcutNumber = s.idFromShortcutNumber) ∧
    (∀ slot : Int, slot ≠ (properties.get "shortcutNumber").toInt env.qt →
      QMap.find (addConnection env s properties).2.idFromShortcutNumber slot =
        QMap.find s.idFromShortcutNumber slot) ∧
    ((QMap.keys s.idFromShortcutNumber).Nodup →
      (QMap.keys (addConnection env s properties).2.idFromShortcutNumber).Nodup) ∧
    (∀ bindings : QMap Int String,
      (addConnection env { s with idFromShortcutNumber := bindings } properties).1 = true) := by
  obtain ⟨c, hc, hadd⟩ := addConnection_accepted env s properties hacc
  obtain ⟨hname, _, _, _, _, _, _, _, hcn, _⟩ := checkConnection_some env s properties c hc
  have hg : getConnection (insertConnection env s properties c)
      ((properties.get "name").toString env.qt) = storedProperties env properties c := by
    rw [← hcn]
    exact getConnection_insertConnection env s properties c (by rw [hcn]; exact hname)
  have hst := stored_shortcutNumber env s properties c hc
  rw [hadd]
  dsimp only
  rw [hg, insertConnection_idFromShortcutNumber, hcn]
  generalize (properties.get "shortcutNumber").toInt env.qt = n at hst ⊢
  refine ⟨?_, ?_, ?_, ?_, ?_⟩
  · intro hr
    rw [if_pos hr] at hst
    refine ⟨Props.get_of_find _ _ _ hst, ?_, ?_⟩
    · intro hfree
      have hcont : QMap.contains s.idFromShortcutNumber n = false := by
        rw [QMap.contains_eq_isSome_find, hfree]; rfl
      simp [hr, hcont, QMap.find_insert]
    · intro other hbound
      have hcont : QMap.contains s.idFromShortcutNumber n = true := by
        rw [QMap.contains_eq_isSome_find, hbound]; rfl
      simp [hcont]
  · intro hr
    rw [if_neg hr] at hst
    refine ⟨hst, ?_⟩
    have : decide (n > 0 ∧ n < 10) = false := by simpa using hr
    simp [this]
  · intro slot hslot
    split_ifs
    · rw [QMap.find_insert, if_neg (Ne.symm hslot)]
    · rfl
  · intro hn
    split_ifs with hif
    · simp only [Bool.and_eq_true, Bool.not_eq_true', decide_eq_true_eq] at hif
      exact QMap.keys_insert_nodup _ _ _ hif.2 hn
    · exact hn
  · intro bindings
    rw [addConnection_fst,
      checkConnection_isSome_congr env { s with idFromShortcutNumber := bindings } s
        properties rfl, hc]
    rfl

/-- Witness of C18: the connections "a" and "b" both ask for slot 1; both are
accepted and the slot stays bound to "a". -/
theorem addConnection_shortcut_binding_witness :
    (addConnection sampleEnv
      (addConnection sampleEnv State.initial
        (("shortcutNumber", QVariant.ofInt 1) :: virtualConfig "a")).2
      (("shortcutNumber", QVariant.ofInt 1) :: virtualConfig "b")).2.idFromShortcutNumber =
    (addConnection sampleEnv State.initial
      (("shortcutNumber", QVariant.ofInt 1) :: virtualConfig "a")).2.idFromShortcutNumber :=
  ((addConnection_shortcut_binding sampleEnv
    (addConnection sampleEnv State.initial
      (("shortcutNumber", QVariant.ofInt 1) :: virtualConfig "a")).2
    (("shortcutNumber", QVariant.ofInt 1) :: virtualConfig "b")
    (by decide)).1 (by decide)).2.2 "a" (by decide)

/-- Counterexample to C19: with `MAX_CIRCLE_COUNT` = 10, a configuration with
eleven numeric circles (and one entry that is not a number) is stored with all
eleven circles. -/
theorem addConnection_stores_eleven_circles :
    sampleEnv.MAX_CIRCLE_COUNT = 10 ∧
    (addConnection sampleEnv State.initial elevenCircles).1 = true ∧
    ((getConnection (addConnection sampleEnv State.initial elevenCircles).2 "a").get
      "fovCircles").toList.length = 11 := by
  decide

/-- C19 (amended): for an accepted configuration, the entry `fovCircles` of
the stored configuration is determined by the given list without the entries
that do not convert to a number: when no entry converts (or no list is given)
no `fovCircles` key is stored; otherwise the stored value is the list of the
converted entries, in the original order. The list is not truncated:
`MAX_CIRCLE_COUNT` does not enter. -/
theorem addConnection_stored_fovCircles (env : Env) (s : State) (properties : Props)
    (hacc : (addConnection env s properties).1 = true) :
    QMap.find
      (getConnection (addConnection env s properties).2
        ((properties.get "name").toString env.qt)) "fovCircles" =
      (if ((properties.get "fovCircles").toList.filterMap fun x => x.toDouble env.qt) = []
        then none
      else
        some (QVariant.list
          (((properties.get "fovCircles").toList.filterMap fun x => x.toDouble env.qt).map
            QScalar.double))) ∧
    ((getConnection (addConnection env s properties).2
      ((properties.get "name").toString env.qt)).get "fovCircles").toList =
      ((properties.get "fovCircles").toList.filterMap fun x => x.toDouble env.qt).map
        QScalar.double := by
  obtain ⟨c, hc, hg⟩ := stored_of_accepted env s properties hacc
  rw [hg]
  exact ⟨stored_fovCircles_find env s properties c hc, stored_fovCircles env s properties c hc⟩

/-- Witness of C19 (amended): the eleven numeric circles are stored in order,
and a list whose only entry is not a number is not stored. -/
theorem addConnection_stored_fovCircles_witness :
    ((getConnection (addConnection sampleEnv State.initial elevenCircles).2 "a").get
      "fovCircles").toList =
      [QScalar.double ⟨1, 0⟩, QScalar.double ⟨2, 0⟩, QScalar.double ⟨3, 0⟩,
       QScalar.double ⟨4, 0⟩, QScalar.double ⟨5, 0⟩, QScalar.double ⟨6, 0⟩,
       QScalar.double ⟨7, 0⟩, QScalar.double ⟨8, 0⟩, QScalar.double ⟨9, 0⟩,
       QScalar.double ⟨10, 0⟩, QScalar.double ⟨11, 0⟩] ∧
    QMap.find
      (getConnection
        (addConnection sampleEnv State.initial
          (virtualConfig "a" ++ [("fovCircles", QVariant.list [QScalar.invalid])])).2 "a")
      "fovCircles" = none :=
  ⟨(addConnection_stored_fovCircles sampleEnv State.initial elevenCircles (by decide)).2.trans
      (by decide),
    (addConnection_stored_fovCircles sampleEnv State.initial
      (virtualConfig "a" ++ [("fovCircles", QVariant.list [QScalar.invalid])])
      (by decide)).1.trans (by decide)⟩

/-- C20: for an interface other than the virtual one, `addConnection` accepts
a configuration only if its equinox (taken as "J2000" when the field is
absent) is "J2000" or "JNow", stores that value, and rejects every other
value; apart from the equinox nothing decides differently than for the same
configuration with the equinox "J2000". For the virtual interface the fields
`equinox` and `delay` are never read: the call gives the same result whatever
they hold, and the stored entry has neither key. -/
theorem addConnection_equinox_values (env : Env) (s : State) (properties : Props) :
    ((properties.get "interface").toString env.qt ≠ "virtual" →
      ((addConnection env s properties).1 = true →
        ((properties.getD "equinox" (QScalar.string "J2000")).toString env.qt = "J2000" ∨
          (properties.getD "equinox" (QScalar.string "J2000")).toString env.qt = "JNow") ∧
        (getConnection (addConnection env s properties).2
          ((properties.get "name").toString env.qt)).get "equinox" =
            QVariant.ofString
              ((properties.getD "equinox" (QScalar.string "J2000")).toString env.qt)) ∧
      ((properties.getD "equinox" (QScalar.string "J2000")).toString env.qt ≠ "J2000" →
        (properties.getD "equinox" (QScalar.string "J2000")).toString env.qt ≠ "JNow" →
        (addConnection env s properties).1 = false) ∧
      (QMap.find properties "equinox" = none →
        (properties.getD "equinox" (QScalar.string "J2000")).toString env.qt = "J2000") ∧
      ((addConnection env s properties).1 = true ↔
        ((addConnection env s
            (QMap.insert properties "equinox" (QVariant.ofString "J2000"))).1 = true ∧
          ((properties.getD "equinox" (QScalar.string "J2000")).toString env.qt = "J2000" ∨
            (properties.getD "equinox" (QScalar.string "J2000")).toString env.qt
              = "JNow")))) ∧
    ((properties.get "interface").toString env.qt = "virtual" →
      (∀ v : QVariant,
        addConnection env s (QMap.insert properties "equinox" v) =
          addConnection env s properties) ∧
      (∀ v : QVariant,
        addConnection env s (QMap.insert properties "delay" v) =
          addConnection env s properties) ∧
      ((addConnection env s properties).1 = true →
        QMap.find (getConnection (addConnection env s properties).2
          ((properties.get "name").toString env.qt)) "equinox" = none ∧
        QMap.find (getConnection (addConnection env s properties).2
          ((properties.get "name").toString env.qt)) "delay" = none)) := by
  have stored : (addConnection env s properties).1 = true →
      ∃ c, checkConnection env s properties = some c ∧
        getConnection (addConnection env s properties).2
          ((properties.get "name").toString env.qt) = storedProperties env properties c := by
    intro hacc
    obtain ⟨c, hc, hadd⟩ := addConnection_accepted env s properties hacc
    obtain ⟨hname, _, _, _, _, _, _, _, hcn, _⟩ := checkConnection_some env s properties c hc
    refine ⟨c, hc, ?_⟩
    rw [hadd]
    dsimp only
    rw [← hcn]
    exact getConnection_insertConnection env s properties c (by rw [hcn]; exact hname)
  constructor
  · intro hi
    have hiff := addConnection_equinox_iff env s properties hi
    refine ⟨?_, ?_, ?_, hiff⟩
    · intro hacc
      obtain ⟨c, hc, hg⟩ := stored hacc
      have he := (stored_equinox env s properties c hc).1 hi
      exact ⟨he.1, by rw [hg]; exact Props.get_of_find _ _ _ he.2.1⟩
    · intro h1 h2
      cases hacc : (addConnection env s properties).1 with
      | false => rfl
      | true =>
        rcases (hiff.mp hacc).2 with h | h
        · exact absurd h h1
        · exact absurd h h2
    · intro habsent
      rw [Props.getD_of_find_none _ _ _ habsent]
      rfl
  · intro hi
    refine ⟨fun v => addConnection_virtual_insert env s properties _ v (Or.inl rfl) hi,
      fun v => addConnection_virtual_insert env s properties _ v (Or.inr rfl) hi, ?_⟩
    intro hacc
    obtain ⟨c, hc, hg⟩ := stored hacc
    rw [hg]
    exact (stored_equinox env s properties c hc).2 hi

/-- Witness of C20: the remote "Stellarium" configuration "r" with the equinox
"JNow" is accepted and stored with that equinox. -/
theorem addConnection_equinox_values_witness :
    (addConnection sampleEnv State.initial
      (remoteConfig "r" "Stellarium" 10001 ++ [("equinox", QVariant.ofString "JNow")])).1
        = true ∧
    (getConnection
      (addConnection sampleEnv State.initial
        (remoteConfig "r" "Stellarium" 10001 ++ [("equinox", QVariant.ofString "JNow")])).2
      "r").get "equinox" = QVariant.ofString "JNow" :=
  ⟨by decide,
    (((addConnection_equinox_values sampleEnv State.initial
      (remoteConfig "r" "Stellarium" 10001 ++ [("equinox", QVariant.ofString "JNow")])).1
        (by decide)).1 (by decide)).2⟩

/-! ## Claims on the delay, the pointer connections and the INDI devices -/

/-- C21: `isValidDelay(d)` is true exactly when 0 < d ≤ 10,000,000. For an
accepted configuration of an interface other than the virtual one, the delay
stored by `addConnection` is the given delay (read as an `int`) when
`isValidDelay` holds for it and `DEFAULT_DELAY` otherwise; a configuration
without a `delay` field reads as the delay 0, which is not valid, so
`DEFAULT_DELAY` is stored. -/
theorem addConnection_stored_delay (env : Env) (s : State) (properties : Props) :
    (∀ d : Int, isValidDelay d = true ↔ 0 < d ∧ d ≤ 10000000) ∧
    ((addConnection env s properties).1 = true →
      (properties.get "interface").toString env.qt ≠ "virtual" →
      (isValidDelay ((properties.get "delay").toInt env.qt) = true →
        (getConnection (addConnection env s properties).2
          ((properties.get "name").toString env.qt)).get "delay" =
            QVariant.ofInt ((properties.get "delay").toInt env.qt)) ∧
      (isValidDelay ((properties.get "delay").toInt env.qt) = false →
        (getConnection (addConnection env s properties).2
          ((properties.get "name").toString env.qt)).get "delay" =
            QVariant.ofInt env.DEFAULT_DELAY) ∧
      (QMap.find properties "delay" = none →
        (getConnection (addConnection env s properties).2
          ((properties.get "name").toString env.qt)).get "delay" =
            QVariant.ofInt env.DEFAULT_DELAY)) := by
  refine ⟨isValidDelay_iff, fun hacc hi => ?_⟩
  obtain ⟨c, hc, hg⟩ := stored_of_accepted env s properties hacc
  have hd := Props.get_of_find _ _ _ ((stored_equinox env s properties c hc).1 hi).2.2
  rw [← hg] at hd
  refine ⟨fun hv => ?_, fun hv => ?_, fun habsent => ?_⟩
  · rw [hd, if_pos hv]
  · rw [hd, hv]
    rfl
  · have h0 : isValidDelay ((properties.get "delay").toInt env.qt) = false := by
      rw [Props.get_of_find_none _ _ habsent]
      rfl
    rw [hd, h0]
    rfl

/-- Witness of C21: a remote "Stellarium" configuration with the delay 250000
keeps it, one with the delay 0 and one without a delay are stored with
`DEFAULT_DELAY`. -/
theorem addConnection_stored_delay_witness :
    (getConnection
      (addConnection sampleEnv State.initial
        (remoteConfig "r" "Stellarium" 10001 ++ [("delay", QVariant.ofInt 250000)])).2
      "r").get "delay" = QVariant.ofInt 250000 ∧
    (getConnection
      (addConnection sampleEnv State.initial
        (remoteConfig "r" "Stellarium" 10001 ++ [("delay", QVariant.ofInt 0)])).2
      "r").get "delay" = QVariant.ofInt 500000 ∧
    (getConnection
      (addConnection sampleEnv State.initial (remoteConfig "r" "Stellarium" 10001)).2
      "r").get "delay" = QVariant.ofInt 500000 :=
  ⟨((addConnection_stored_delay sampleEnv State.initial
      (remoteConfig "r" "Stellarium" 10001 ++ [("delay", QVariant.ofInt 250000)])).2
        (by decide) (by decide)).1 (by decide),
    ((addConnection_stored_delay sampleEnv State.initial
      (remoteConfig "r" "Stellarium" 10001 ++ [("delay", QVariant.ofInt 0)])).2
        (by decide) (by decide)).2.1 (by decide),
    ((addConnection_stored_delay sampleEnv State.initial
      (remoteConfig "r" "Stellarium" 10001)).2 (by decide) (by decide)).2.2 (by decide)⟩

/-- C22 (counterexample): on the initial state, where no connection is live
and nothing was ever opened, `addConnection` accepts the "INDI Pointer"
configuration "p" that references the parent connection "i"; that the parent
is missing shows only when "p" is started. -/
theorem addConnection_accepts_orphan_pointer :
    doesClientExist State.initial "i" = false ∧
    State.initial.events = [] ∧
    (pointerConfig.get "indiConnection").toString sampleEnv.qt = "i" ∧
    (addConnection sampleEnv State.initial pointerConfig).1 = true ∧
    QMap.contains pointerRegistered.connectionsProperties "p" = true ∧
    (startConnection sampleEnv orphanWorld pointerRegistered "p").1 = false := by
  decide

/-- C22 (amended): `addConnection` accepts an "INDI Pointer" configuration
exactly when its name is not empty, has no backslash or double quote and is
not the id of a live client, `indiDevice` and `indiConnection` are not empty,
a remote one has a host, and the equinox is "J2000" or "JNow"; whether the
parent connection is live does not enter. The parent is looked up when the
connection is started: `startConnection` of an "INDI Pointer" configuration
whose parent has no client in the INDI service returns false, registers no
client and emits nothing. -/
theorem addConnection_pointer_parent (env : Env) (w : World) (s : State)
    (properties : Props) (id : String) :
    ((properties.get "interface").toString env.qt = "INDI Pointer" →
      ((addConnection env s properties).1 = true ↔
        ((properties.get "name").toString env.qt ≠ "" ∧
          (((properties.get "name").toString env.qt).data.contains backslash ||
            ((properties.get "name").toString env.qt).data.contains doubleQuote) = false ∧
          QMap.contains s.connections ((properties.get "name").toString env.qt) = false ∧
          (properties.get "indiDevice").toString env.qt ≠ "" ∧
          (properties.get "indiConnection").toString env.qt ≠ "" ∧
          ((properties.getD "isRemoteConnection" (QScalar.bool false)).toBool = true →
            (properties.getD "host" (QScalar.string "localhost")).toString env.qt ≠ "") ∧
          ((properties.getD "equinox" (QScalar.string "J2000")).toString env.qt = "J2000" ∨
            (properties.getD "equinox" (QScalar.string "J2000")).toString env.qt
              = "JNow")))) ∧
    (((getConnection s id).get "interface").toString env.qt = "INDI Pointer" →
      w.getClient (((getConnection s id).get "indiConnection").toString env.qt) = false →
      (startConnection env w s id).1 = false ∧
      SameClients s (startConnection env w s id).2) := by
  refine ⟨fun hi => ?_, startConnection_pointer_orphan env w s id⟩
  rw [addConnection_fst, checkConnection_isSome, hi, interfaceProperties_pointer,
    equinoxProperties_isSome_iff env properties [] "INDI Pointer" (by decide)]
  constructor
  · rintro ⟨a, b, c, -, ⟨d, e⟩, f, g⟩
    exact ⟨a, b, c, d, e, f, g⟩
  · rintro ⟨a, b, c, d, e, f, g⟩
    exact ⟨a, b, c, by decide, ⟨d, e⟩, f, g⟩

/-- Witness of C22 (amended): the pointer configuration "p" is accepted on the
initial state, and its start returns false when the INDI service has no client
for the parent connection. -/
theorem addConnection_pointer_parent_witness :
    (addConnection sampleEnv State.initial pointerConfig).1 = true ∧
    (startConnection sampleEnv orphanWorld pointerRegistered "p").1 = false :=
  ⟨((addConnection_pointer_parent sampleEnv orphanWorld State.initial pointerConfig "p").1
      (by decide)).mpr
      ⟨by decide, by decide, by decide, by decide, by decide, by decide, by decide⟩,
    ((addConnection_pointer_parent sampleEnv orphanWorld pointerRegistered pointerConfig
      "p").2 (by decide) (by decide)).1⟩

/-- C23 (counterexample): the INDI client "c" defines a device, the device is
promoted, and "c" defines a second device, which is staged under the same id.
Now "c" is in `telescopes`, and `treatAsTelescope("c")` is not a no-op: it
takes the staged client of the second device out of `indiDevices` and drops
it. -/
theorem treatAsTelescope_drops_staged_client :
    QMap.contains secondDevice.telescopes "c" = true ∧
    QMap.contains secondDevice.indiDevices "c" = true ∧
    (treatAsTelescope secondDevice "c").telescopes = secondDevice.telescopes ∧
    (treatAsTelescope secondDevice "c").indiDevices = [] ∧
    (treatAsTelescope secondDevice "c").indiDevices ≠ secondDevice.indiDevices := by
  decide

/-- C23 (amended): for a non-empty id whose client is staged in `indiDevices`
and that is not in `telescopes`, `treatAsTelescope(id)` moves the client from
`indiDevices` into `telescopes` and changes nothing else. For a non-empty id
that is in `telescopes` already, `telescopes` is left as it is and `id` is
taken out of `indiDevices`, so the call is a no-op exactly when no client is
staged under `id`, which is the case right after a promotion: a second call
right after the first changes nothing. `connections` is never changed, and
the empty id changes nothing. -/
theorem treatAsTelescope_promotes_once (s : State) (id : String) :
    (id ≠ "" → ∀ c, QMap.find s.indiDevices id = some c →
      QMap.contains s.telescopes id = false →
        treatAsTelescope s id =
          { s with indiDevices := QMap.remove s.indiDevices id,
                   telescopes := QMap.insert s.telescopes id c } ∧
        QMap.find (treatAsTelescope s id).telescopes id = some c ∧
        QMap.contains (treatAsTelescope s id).indiDevices id = false) ∧
    (id ≠ "" → QMap.contains s.telescopes id = true →
      treatAsTelescope s id = { s with indiDevices := QMap.remove s.indiDevices id } ∧
      (QMap.contains s.indiDevices id = false → treatAsTelescope s id = s)) ∧
    treatAsTelescope (treatAsTelescope s id) id = treatAsTelescope s id ∧
    (treatAsTelescope s id).connections = s.connections ∧
    treatAsTelescope s "" = s := by
  refine ⟨fun hid c hc ht => ?_, fun hid ht => ?_, treatAsTelescope_twice s id, ?_, ?_⟩
  · have h := (treatAsTelescope_cases s id hid).1 c hc ht
    rw [h]
    refine ⟨rfl, ?_, QMap.contains_remove_self _ _⟩
    show QMap.find (QMap.insert s.telescopes id c) id = some c
    rw [QMap.find_insert, if_pos rfl]
  · exact ⟨(treatAsTelescope_cases s id hid).2.1 ht, (treatAsTelescope_cases s id hid).2.2⟩
  · by_cases hid : id = ""
    · simp [treatAsTelescope, hid]
    · exact (treatAsTelescope_indiDevices s id hid).2
  · simp [treatAsTelescope]

/-- Witness of C23 (amended): the device "d1" of the INDI client "c" is staged
and then promoted. -/
theorem treatAsTelescope_promotes_once_witness :
    QMap.find
      (treatAsTelescope (handleDeviceDefinition sampleWorld State.initial "c" "d1")
        "c").telescopes "c" = some ⟨"c", ClientKind.indi "d1" true, []⟩ ∧
    QMap.contains
      (treatAsTelescope (handleDeviceDefinition sampleWorld State.initial "c" "d1")
        "c").indiDevices "c" = false :=
  ((treatAsTelescope_promotes_once
    (handleDeviceDefinition sampleWorld State.initial "c" "d1") "c").1
    (by decide) ⟨"c", ClientKind.indi "d1" true, []⟩ (by decide) (by decide)).2

/-! ## Claims on the polling order, the stored keys and the logs -/

/-- C24 (counterexample): the connection "b" is started before the connection
"a". After the first start only "b" is live; after the second one
`communicate` polls "a" first and "b" second, against the order in which the
two were started. -/
theorem communicate_polls_later_client_first :
    QMap.keys (runSupervisorOps sampleEnv (startBThenA.take 3)).connections = ["b"] ∧
    QMap.keys (runSupervisorOps sampleEnv startBThenA).connections = ["a", "b"] ∧
    polledIds sampleWorld (runSupervisorOps sampleEnv startBThenA) = ["a", "b"] := by
  decide

/-- C24 (amended): in every state, one call of `communicate` polls the live
clients in the iteration order of the map `connections`. In every state
reached from the initial state by calls of the interface, that order is the
ascending order of the ids as `QString` compares them (by UTF-16 code units),
every live client is polled once, and the order
depends only on which ids are live: two call sequences that leave the same ids
live are polled in the same order, whatever the order of their starts. -/
theorem communicate_polls_in_key_order (env : Env) (w : World) (ops : List SupervisorOp) :
    (∀ s : State, polledIds w s = QMap.keys s.connections) ∧
    keysAscending (polledIds w (runSupervisorOps env ops)) ∧
    (polledIds w (runSupervisorOps env ops)).Nodup ∧
    (∀ (w2 : World) (ops2 : List SupervisorOp),
      (∀ id, doesClientExist (runSupervisorOps env ops) id =
        doesClientExist (runSupervisorOps env ops2) id) →
      polledIds w (runSupervisorOps env ops) = polledIds w2 (runSupervisorOps env ops2)) := by
  have hasc : keysAscending (polledIds w (runSupervisorOps env ops)) := by
    rw [polledIds_eq]
    exact ascending_run env ops
  refine ⟨polledIds_eq w, hasc, keysAscending_nodup _ hasc, fun w2 ops2 h => ?_⟩
  rw [polledIds_eq, polledIds_eq]
  refine keysAscending_ext _ _ (ascending_run env ops) (ascending_run env ops2) (fun id => ?_)
  rw [QMap.mem_keys_iff_contains, QMap.mem_keys_iff_contains]
  have := h id
  unfold doesClientExist at this
  rw [this]

/-- Witness of C24 (amended): "a" and "b" started in either order are polled
in the same order. -/
theorem communicate_polls_in_key_order_witness :
    polledIds sampleWorld (runSupervisorOps sampleEnv startAThenB) =
      polledIds sampleWorld (runSupervisorOps sampleEnv startBThenA) :=
  (communicate_polls_in_key_order sampleEnv sampleWorld startAThenB).2.2.2
    sampleWorld startBThenA
    (fun id => congrArg (fun m => QMap.contains m id)
      (by decide : (runSupervisorOps sampleEnv startAThenB).connections =
        (runSupervisorOps sampleEnv startBThenA).connections))

/-- C25: in the configuration that an accepted `addConnection` stores, the
flag `isRemoteConnection` and the interface are the ones given; the keys `host`
and `tcpPort` are present if and only if the stored `isRemoteConnection` is
true, and the key `serialPort` is present if and only if the stored interface
is "Stellarium" and the stored `isRemoteConnection` is false. -/
theorem addConnection_stored_keys (env : Env) (s : State) (properties : Props)
    (hacc : (addConnection env s properties).1 = true) :
    (getConnection (addConnection env s properties).2
        ((properties.get "name").toString env.qt)).get "isRemoteConnection" =
      QVariant.ofBool (properties.getD "isRemoteConnection" (QScalar.bool false)).toBool ∧
    (getConnection (addConnection env s properties).2
        ((properties.get "name").toString env.qt)).get "interface" =
      QVariant.ofString ((properties.get "interface").toString env.qt) ∧
    (QMap.contains (getConnection (addConnection env s properties).2
        ((properties.get "name").toString env.qt)) "host" = true ↔
      ((getConnection (addConnection env s properties).2
        ((properties.get "name").toString env.qt)).get "isRemoteConnection").toBool = true) ∧
    (QMap.contains (getConnection (addConnection env s properties).2
        ((properties.get "name").toString env.qt)) "tcpPort" = true ↔
      ((getConnection (addConnection env s properties).2
        ((properties.get "name").toString env.qt)).get "isRemoteConnection").toBool = true) ∧
    (QMap.contains (getConnection (addConnection env s properties).2
        ((properties.get "name").toString env.qt)) "serialPort" = true ↔
      ((getConnection (addConnection env s properties).2
          ((properties.get "name").toString env.qt)).get "interface").toString env.qt
        = "Stellarium" ∧
      ((getConnection (addConnection env s properties).2
        ((properties.get "name").toString env.qt)).get "isRemoteConnection").toBool
          = false) := by
  obtain ⟨c, hc, hg⟩ := stored_of_accepted env s properties hacc
  rw [hg]
  obtain ⟨hrem, hloc, hflag⟩ := stored_remote env s properties c hc
  have hf := Props.get_of_find _ _ _ hflag
  have hi := Props.get_of_find _ _ _ (stored_interface env s properties c hc)
  have hser := (stored_serialPort env s properties c hc).1
  rw [hf, hi]
  rw [QMap.contains_eq_isSome_find, QMap.contains_eq_isSome_find,
    QMap.contains_eq_isSome_find]
  refine ⟨rfl, rfl, ?_, ?_, hser⟩
  · cases hb : (properties.getD "isRemoteConnection" (QScalar.bool false)).toBool with
    | true =>
      rw [(hrem hb).2.2.2]
      exact ⟨fun _ => rfl, fun _ => rfl⟩
    | false =>
      rw [(hloc hb).2.2]
      exact ⟨fun hh => absurd hh (by simp), fun hh => absurd hh (by decide)⟩
  · cases hb : (properties.getD "isRemoteConnection" (QScalar.bool false)).toBool with
    | true =>
      rw [(hrem hb).2.2.1]
      exact ⟨fun _ => rfl, fun _ => rfl⟩
    | false =>
      rw [(hloc hb).2.1]
      exact ⟨fun hh => absurd hh (by simp), fun hh => absurd hh (by decide)⟩

/-- Witness of C25: the local "Stellarium" configuration "l" is stored with
the key `serialPort` and without the key `host`. -/
theorem addConnection_stored_keys_witness :
    QMap.contains (getConnection (addConnection sampleEnv State.initial serialConfig).2 "l")
      "serialPort" = true ∧
    ¬ QMap.contains (getConnection (addConnection sampleEnv State.initial serialConfig).2 "l")
      "host" = true :=
  ⟨(addConnection_stored_keys sampleEnv State.initial serialConfig
      (by decide)).2.2.2.2.mpr ⟨by decide, by decide⟩,
    fun h => absurd ((addConnection_stored_keys sampleEnv State.initial serialConfig
      (by decide)).2.2.1.mp h) (by decide)⟩

/-- C26 (evaluation of the code): the local connection "a" is started and has
its log attached. A second `startConnection("a")` returns false because the
client is running, and afterwards the log of "a" is gone from
`telescopeServerLogFiles` and `telescopeServerLogStreams` while the client is
still live; `log_file` still refers to the removed stream. -/
theorem startConnection_rejected_detaches_log :
    (startConnection sampleEnv sampleWorld registeredA "a").1 = true ∧
    QMap.contains startedA.telescopeServerLogFiles "a" = true ∧
    QMap.contains startedA.telescopeServerLogStreams "a" = true ∧
    (startConnection sampleEnv sampleWorld startedA "a").1 = false ∧
    doesClientExist (startConnection sampleEnv sampleWorld startedA "a").2 "a" = true ∧
    QMap.contains
      (startConnection sampleEnv sampleWorld startedA "a").2.telescopeServerLogFiles "a"
        = false ∧
    QMap.contains
      (startConnection sampleEnv sampleWorld startedA "a").2.telescopeServerLogStreams "a"
        = false ∧
    (startConnection sampleEnv sampleWorld startedA "a").2.log_file = some "a" := by
  decide

end TelescopeControl
